import Mathlib

/-!
# Dashboard workflow service: a shallow embedding

The service of `src/src/services/dashboardservice.js` talks to a BI query client
(`this.sdk`).  The embedding rests on these choices:

* JavaScript values that the code inspects (ids, titles, flags, dimensions) are
  `JsVal` scalars, those a JSON text can carry and `undefined`, with the truthiness,
  `String(x)` and `Number(x)` of the language; numbers are IEEE-754 doubles, printed
  and read as the language does; strings are sequences of Unicode characters, with
  the `trim` and the `toLowerCase` of the language; records answered by the client
  (dashboards, folders, tiles, rows) are objects, never `null`, so an optional
  chain on the record itself is a plain field read;
* every client call is appended to a trace and answered by the client record
  `Sdk`, which owns a state of its own, so a call may fail and later answers may
  depend on earlier calls;
* a JavaScript exception is the `error` case of the result, carrying the message;
* the callbacks of a `Promise.all` fan-out are started in the order of the list and
  take turns: each runs up to its next client call, and the answers come back in
  the order of the calls.
-/

namespace DashboardService

/-! ## Strings

A string is the sequence of its Unicode characters; the strings of the language that are
well-formed UTF-16 are exactly these. -/

/-- White space and line terminators, which `trim` removes and `Number` skips: `U+0009` to
`U+000D`, the space, `U+00A0`, `U+1680`, `U+2000` to `U+200A`, `U+2028`, `U+2029`, `U+202F`,
`U+205F`, `U+3000` and `U+FEFF`. -/
def isTrimChar (c : Char) : Bool :=
  (9 ≤ c.toNat && c.toNat ≤ 13) || c.toNat == 0x20 || c.toNat == 0xA0 || c.toNat == 0x1680 ||
    (0x2000 ≤ c.toNat && c.toNat ≤ 0x200A) || c.toNat == 0x2028 || c.toNat == 0x2029 ||
    c.toNat == 0x202F || c.toNat == 0x205F || c.toNat == 0x3000 || c.toNat == 0xFEFF

/-- The method `trim` on the characters of a string. -/
def trimChars (cs : List Char) : List Char :=
  ((cs.dropWhile isTrimChar).reverse.dropWhile isTrimChar).reverse

/-- The method `s.trim()`. -/
def jsTrim (s : String) : String := ⟨trimChars s.data⟩

/-- The letters beyond `U+00BF` that have one lower-case letter of their own, by runs
`(first, last, step, image)`: every `step`-th code point from `first` to `last` has a
lower-case letter, `first` has `image`, and the others have the letter at the same distance
(default case conversion of Unicode 14.0).  The runs are in blocks, each block under the last
code point it reaches. -/
def lowerCaseRuns : List (Nat × List (Nat × Nat × Nat × Nat)) :=
  [(0x18F, [(0xC0, 0xD6, 1, 0xE0), (0xD8, 0xDE, 1, 0xF8), (0x100, 0x12E, 2, 0x101),
      (0x132, 0x136, 2, 0x133), (0x139, 0x147, 2, 0x13A), (0x14A, 0x176, 2, 0x14B),
      (0x178, 0x178, 1, 0xFF), (0x179, 0x17D, 2, 0x17A), (0x181, 0x181, 1, 0x253),
      (0x182, 0x184, 2, 0x183), (0x186, 0x186, 1, 0x254), (0x187, 0x187, 1, 0x188),
      (0x189, 0x18A, 1, 0x256), (0x18B, 0x18B, 1, 0x18C), (0x18E, 0x18E, 1, 0x1DD),
      (0x18F, 0x18F, 1, 0x259)]),
   (0x1AE, [(0x190, 0x190, 1, 0x25B), (0x191, 0x191, 1, 0x192), (0x193, 0x193, 1, 0x260),
      (0x194, 0x194, 1, 0x263), (0x196, 0x196, 1, 0x269), (0x197, 0x197, 1, 0x268),
      (0x198, 0x198, 1, 0x199), (0x19C, 0x19C, 1, 0x26F), (0x19D, 0x19D, 1, 0x272),
      (0x19F, 0x19F, 1, 0x275), (0x1A0, 0x1A4, 2, 0x1A1), (0x1A6, 0x1A6, 1, 0x280),
      (0x1A7, 0x1A7, 1, 0x1A8), (0x1A9, 0x1A9, 1, 0x283), (0x1AC, 0x1AC, 1, 0x1AD),
      (0x1AE, 0x1AE, 1, 0x288)]),
   (0x1F6, [(0x1AF, 0x1AF, 1, 0x1B0), (0x1B1, 0x1B2, 1, 0x28A), (0x1B3, 0x1B5, 2, 0x1B4),
      (0x1B7, 0x1B7, 1, 0x292), (0x1B8, 0x1B8, 1, 0x1B9), (0x1BC, 0x1BC, 1, 0x1BD),
      (0x1C4, 0x1C4, 1, 0x1C6), (0x1C5, 0x1C5, 1, 0x1C6), (0x1C7, 0x1C7, 1, 0x1C9),
      (0x1C8, 0x1C8, 1, 0x1C9), (0x1CA, 0x1CA, 1, 0x1CC), (0x1CB, 0x1DB, 2, 0x1CC),
      (0x1DE, 0x1EE, 2, 0x1DF), (0x1F1, 0x1F1, 1, 0x1F3), (0x1F2, 0x1F4, 2, 0x1F3),
      (0x1F6, 0x1F6, 1, 0x195)]),
   (0x37F, [(0x1F7, 0x1F7, 1, 0x1BF), (0x1F8, 0x21E, 2, 0x1F9), (0x220, 0x220, 1, 0x19E),
      (0x222, 0x232, 2, 0x223), (0x23A, 0x23A, 1, 0x2C65), (0x23B, 0x23B, 1, 0x23C),
      (0x23D, 0x23D, 1, 0x19A), (0x23E, 0x23E, 1, 0x2C66), (0x241, 0x241, 1, 0x242),
      (0x243, 0x243, 1, 0x180), (0x244, 0x244, 1, 0x289), (0x245, 0x245, 1, 0x28C),
      (0x246, 0x24E, 2, 0x247), (0x370, 0x372, 2, 0x371), (0x376, 0x376, 1, 0x377),
      (0x37F, 0x37F, 1, 0x3F3)]),
   (0x480, [(0x386, 0x386, 1, 0x3AC), (0x388, 0x38A, 1, 0x3AD), (0x38C, 0x38C, 1, 0x3CC),
      (0x38E, 0x38F, 1, 0x3CD), (0x391, 0x3A1, 1, 0x3B1), (0x3A3, 0x3AB, 1, 0x3C3),
      (0x3CF, 0x3CF, 1, 0x3D7), (0x3D8, 0x3EE, 2, 0x3D9), (0x3F4, 0x3F4, 1, 0x3B8),
      (0x3F7, 0x3F7, 1, 0x3F8), (0x3F9, 0x3F9, 1, 0x3F2), (0x3FA, 0x3FA, 1, 0x3FB),
      (0x3FD, 0x3FF, 1, 0x37B), (0x400, 0x40F, 1, 0x450), (0x410, 0x42F, 1, 0x430),
      (0x460, 0x480, 2, 0x461)]),
   (0x1F0F, [(0x48A, 0x4BE, 2, 0x48B), (0x4C0, 0x4C0, 1, 0x4CF), (0x4C1, 0x4CD, 2, 0x4C2),
      (0x4D0, 0x52E, 2, 0x4D1), (0x531, 0x556, 1, 0x561), (0x10A0, 0x10C5, 1, 0x2D00),
      (0x10C7, 0x10C7, 1, 0x2D27), (0x10CD, 0x10CD, 1, 0x2D2D), (0x13A0, 0x13EF, 1, 0xAB70),
      (0x13F0, 0x13F5, 1, 0x13F8), (0x1C90, 0x1CBA, 1, 0x10D0), (0x1CBD, 0x1CBF, 1, 0x10FD),
      (0x1E00, 0x1E94, 2, 0x1E01), (0x1E9E, 0x1E9E, 1, 0xDF), (0x1EA0, 0x1EFE, 2, 0x1EA1),
      (0x1F08, 0x1F0F, 1, 0x1F00)]),
   (0x1FDB, [(0x1F18, 0x1F1D, 1, 0x1F10), (0x1F28, 0x1F2F, 1, 0x1F20),
      (0x1F38, 0x1F3F, 1, 0x1F30), (0x1F48, 0x1F4D, 1, 0x1F40), (0x1F59, 0x1F5F, 2, 0x1F51),
      (0x1F68, 0x1F6F, 1, 0x1F60), (0x1F88, 0x1F8F, 1, 0x1F80), (0x1F98, 0x1F9F, 1, 0x1F90),
      (0x1FA8, 0x1FAF, 1, 0x1FA0), (0x1FB8, 0x1FB9, 1, 0x1FB0), (0x1FBA, 0x1FBB, 1, 0x1F70),
      (0x1FBC, 0x1FBC, 1, 0x1FB3), (0x1FC8, 0x1FCB, 1, 0x1F72), (0x1FCC, 0x1FCC, 1, 0x1FC3),
      (0x1FD8, 0x1FD9, 1, 0x1FD0), (0x1FDA, 0x1FDB, 1, 0x1F76)]),
   (0x2C62, [(0x1FE8, 0x1FE9, 1, 0x1FE0), (0x1FEA, 0x1FEB, 1, 0x1F7A),
      (0x1FEC, 0x1FEC, 1, 0x1FE5), (0x1FF8, 0x1FF9, 1, 0x1F78), (0x1FFA, 0x1FFB, 1, 0x1F7C),
      (0x1FFC, 0x1FFC, 1, 0x1FF3), (0x2126, 0x2126, 1, 0x3C9), (0x212A, 0x212A, 1, 0x6B),
      (0x212B, 0x212B, 1, 0xE5), (0x2132, 0x2132, 1, 0x214E), (0x2160, 0x216F, 1, 0x2170),
      (0x2183, 0x2183, 1, 0x2184), (0x24B6, 0x24CF, 1, 0x24D0), (0x2C00, 0x2C2F, 1, 0x2C30),
      (0x2C60, 0x2C60, 1, 0x2C61), (0x2C62, 0x2C62, 1, 0x26B)]),
   (0xA72E, [(0x2C63, 0x2C63, 1, 0x1D7D), (0x2C64, 0x2C64, 1, 0x27D),
      (0x2C67, 0x2C6B, 2, 0x2C68), (0x2C6D, 0x2C6D, 1, 0x251), (0x2C6E, 0x2C6E, 1, 0x271),
      (0x2C6F, 0x2C6F, 1, 0x250), (0x2C70, 0x2C70, 1, 0x252), (0x2C72, 0x2C72, 1, 0x2C73),
      (0x2C75, 0x2C75, 1, 0x2C76), (0x2C7E, 0x2C7F, 1, 0x23F), (0x2C80, 0x2CE2, 2, 0x2C81),
      (0x2CEB, 0x2CED, 2, 0x2CEC), (0x2CF2, 0x2CF2, 1, 0x2CF3), (0xA640, 0xA66C, 2, 0xA641),
      (0xA680, 0xA69A, 2, 0xA681), (0xA722, 0xA72E, 2, 0xA723)]),
   (0xA7B2, [(0xA732, 0xA76E, 2, 0xA733), (0xA779, 0xA77B, 2, 0xA77A),
      (0xA77D, 0xA77D, 1, 0x1D79), (0xA77E, 0xA786, 2, 0xA77F), (0xA78B, 0xA78B, 1, 0xA78C),
      (0xA78D, 0xA78D, 1, 0x265), (0xA790, 0xA792, 2, 0xA791), (0xA796, 0xA7A8, 2, 0xA797),
      (0xA7AA, 0xA7AA, 1, 0x266), (0xA7AB, 0xA7AB, 1, 0x25C), (0xA7AC, 0xA7AC, 1, 0x261),
      (0xA7AD, 0xA7AD, 1, 0x26C), (0xA7AE, 0xA7AE, 1, 0x26A), (0xA7B0, 0xA7B0, 1, 0x29E),
      (0xA7B1, 0xA7B1, 1, 0x287), (0xA7B2, 0xA7B2, 1, 0x29D)]),
   (0x10594, [(0xA7B3, 0xA7B3, 1, 0xAB53), (0xA7B4, 0xA7C2, 2, 0xA7B5),
      (0xA7C4, 0xA7C4, 1, 0xA794), (0xA7C5, 0xA7C5, 1, 0x282), (0xA7C6, 0xA7C6, 1, 0x1D8E),
      (0xA7C7, 0xA7C9, 2, 0xA7C8), (0xA7D0, 0xA7D0, 1, 0xA7D1), (0xA7D6, 0xA7D8, 2, 0xA7D7),
      (0xA7F5, 0xA7F5, 1, 0xA7F6), (0xFF21, 0xFF3A, 1, 0xFF41), (0x10400, 0x10427, 1, 0x10428),
      (0x104B0, 0x104D3, 1, 0x104D8), (0x10570, 0x10594, 2, 0x10597),
      (0x10571, 0x1057A, 1, 0x10598), (0x1057D, 0x1058A, 1, 0x105A4),
      (0x1058D, 0x10592, 1, 0x105B4)]),
   (0x1E921, [(0x10595, 0x10595, 1, 0x105BC), (0x10C80, 0x10CB2, 1, 0x10CC0),
      (0x118A0, 0x118BF, 1, 0x118C0), (0x16E40, 0x16E5F, 1, 0x16E60),
      (0x1E900, 0x1E921, 1, 0x1E922)])]

/-- The code points that case conversion looks through when it searches the letter next to a
capital sigma (the property `Case_Ignorable`), by ranges `(first, last)` in blocks. -/
def caseIgnorableRanges : List (Nat × List (Nat × Nat)) :=
  [(0x5F4, [(0x27, 0x27), (0x2E, 0x2E), (0x3A, 0x3A), (0x5E, 0x5E), (0x60, 0x60), (0xA8, 0xA8),
      (0xAD, 0xAD), (0xAF, 0xAF), (0xB4, 0xB4), (0xB7, 0xB8), (0x2B0, 0x36F), (0x374, 0x375),
      (0x37A, 0x37A), (0x384, 0x385), (0x387, 0x387), (0x483, 0x489), (0x559, 0x559),
      (0x55F, 0x55F), (0x591, 0x5BD), (0x5BF, 0x5BF), (0x5C1, 0x5C2), (0x5C4, 0x5C5),
      (0x5C7, 0x5C7), (0x5F4, 0x5F4)]),
   (0x93C, [(0x600, 0x605), (0x610, 0x61A), (0x61C, 0x61C), (0x640, 0x640), (0x64B, 0x65F),
      (0x670, 0x670), (0x6D6, 0x6DD), (0x6DF, 0x6E8), (0x6EA, 0x6ED), (0x70F, 0x70F),
      (0x711, 0x711), (0x730, 0x74A), (0x7A6, 0x7B0), (0x7EB, 0x7F5), (0x7FA, 0x7FA),
      (0x7FD, 0x7FD), (0x816, 0x82D), (0x859, 0x85B), (0x888, 0x888), (0x890, 0x891),
      (0x898, 0x89F), (0x8C9, 0x902), (0x93A, 0x93A), (0x93C, 0x93C)]),
   (0xACD, [(0x941, 0x948), (0x94D, 0x94D), (0x951, 0x957), (0x962, 0x963), (0x971, 0x971),
      (0x981, 0x981), (0x9BC, 0x9BC), (0x9C1, 0x9C4), (0x9CD, 0x9CD), (0x9E2, 0x9E3),
      (0x9FE, 0x9FE), (0xA01, 0xA02), (0xA3C, 0xA3C), (0xA41, 0xA42), (0xA47, 0xA48),
      (0xA4B, 0xA4D), (0xA51, 0xA51), (0xA70, 0xA71), (0xA75, 0xA75), (0xA81, 0xA82),
      (0xABC, 0xABC), (0xAC1, 0xAC5), (0xAC7, 0xAC8), (0xACD, 0xACD)]),
   (0xCC6, [(0xAE2, 0xAE3), (0xAFA, 0xAFF), (0xB01, 0xB01), (0xB3C, 0xB3C), (0xB3F, 0xB3F),
      (0xB41, 0xB44), (0xB4D, 0xB4D), (0xB55, 0xB56), (0xB62, 0xB63), (0xB82, 0xB82),
      (0xBC0, 0xBC0), (0xBCD, 0xBCD), (0xC00, 0xC00), (0xC04, 0xC04), (0xC3C, 0xC3C),
      (0xC3E, 0xC40), (0xC46, 0xC48), (0xC4A, 0xC4D), (0xC55, 0xC56), (0xC62, 0xC63),
      (0xC81, 0xC81), (0xCBC, 0xCBC), (0xCBF, 0xCBF), (0xCC6, 0xCC6)]),
   (0xF84, [(0xCCC, 0xCCD), (0xCE2, 0xCE3), (0xD00, 0xD01), (0xD3B, 0xD3C), (0xD41, 0xD44),
      (0xD4D, 0xD4D), (0xD62, 0xD63), (0xD81, 0xD81), (0xDCA, 0xDCA), (0xDD2, 0xDD4),
      (0xDD6, 0xDD6), (0xE31, 0xE31), (0xE34, 0xE3A), (0xE46, 0xE4E), (0xEB1, 0xEB1),
      (0xEB4, 0xEBC), (0xEC6, 0xEC6), (0xEC8, 0xECD), (0xF18, 0xF19), (0xF35, 0xF35),
      (0xF37, 0xF37), (0xF39, 0xF39), (0xF71, 0xF7E), (0xF80, 0xF84)]),
   (0x17C6, [(0xF86, 0xF87), (0xF8D, 0xF97), (0xF99, 0xFBC), (0xFC6, 0xFC6), (0x102D, 0x1030),
      (0x1032, 0x1037), (0x1039, 0x103A), (0x103D, 0x103E), (0x1058, 0x1059), (0x105E, 0x1060),
      (0x1071, 0x1074), (0x1082, 0x1082), (0x1085, 0x1086), (0x108D, 0x108D), (0x109D, 0x109D),
      (0x10FC, 0x10FC), (0x135D, 0x135F), (0x1712, 0x1714), (0x1732, 0x1733), (0x1752, 0x1753),
      (0x1772, 0x1773), (0x17B4, 0x17B5), (0x17B7, 0x17BD), (0x17C6, 0x17C6)]),
   (0x1B34, [(0x17C9, 0x17D3), (0x17D7, 0x17D7), (0x17DD, 0x17DD), (0x180B, 0x180F),
      (0x1843, 0x1843), (0x1885, 0x1886), (0x18A9, 0x18A9), (0x1920, 0x1922), (0x1927, 0x1928),
      (0x1932, 0x1932), (0x1939, 0x193B), (0x1A17, 0x1A18), (0x1A1B, 0x1A1B), (0x1A56, 0x1A56),
      (0x1A58, 0x1A5E), (0x1A60, 0x1A60), (0x1A62, 0x1A62), (0x1A65, 0x1A6C), (0x1A73, 0x1A7C),
      (0x1A7F, 0x1A7F), (0x1AA7, 0x1AA7), (0x1AB0, 0x1ACE), (0x1B00, 0x1B03), (0x1B34, 0x1B34)]),
   (0x1DFF, [(0x1B36, 0x1B3A), (0x1B3C, 0x1B3C), (0x1B42, 0x1B42), (0x1B6B, 0x1B73),
      (0x1B80, 0x1B81), (0x1BA2, 0x1BA5), (0x1BA8, 0x1BA9), (0x1BAB, 0x1BAD), (0x1BE6, 0x1BE6),
      (0x1BE8, 0x1BE9), (0x1BED, 0x1BED), (0x1BEF, 0x1BF1), (0x1C2C, 0x1C33), (0x1C36, 0x1C37),
      (0x1C78, 0x1C7D), (0x1CD0, 0x1CD2), (0x1CD4, 0x1CE0), (0x1CE2, 0x1CE8), (0x1CED, 0x1CED),
      (0x1CF4, 0x1CF4), (0x1CF8, 0x1CF9), (0x1D2C, 0x1D6A), (0x1D78, 0x1D78), (0x1D9B, 0x1DFF)]),
   (0x3005, [(0x1FBD, 0x1FBD), (0x1FBF, 0x1FC1), (0x1FCD, 0x1FCF), (0x1FDD, 0x1FDF),
      (0x1FED, 0x1FEF), (0x1FFD, 0x1FFE), (0x200B, 0x200F), (0x2018, 0x2019), (0x2024, 0x2024),
      (0x2027, 0x2027), (0x202A, 0x202E), (0x2060, 0x2064), (0x2066, 0x206F), (0x2071, 0x2071),
      (0x207F, 0x207F), (0x2090, 0x209C), (0x20D0, 0x20F0), (0x2C7C, 0x2C7D), (0x2CEF, 0x2CF1),
      (0x2D6F, 0x2D6F), (0x2D7F, 0x2D7F), (0x2DE0, 0x2DFF), (0x2E2F, 0x2E2F), (0x3005, 0x3005)]),
   (0xA8C5, [(0x302A, 0x302D), (0x3031, 0x3035), (0x303B, 0x303B), (0x3099, 0x309E),
      (0x30FC, 0x30FE), (0xA015, 0xA015), (0xA4F8, 0xA4FD), (0xA60C, 0xA60C), (0xA66F, 0xA672),
      (0xA674, 0xA67D), (0xA67F, 0xA67F), (0xA69C, 0xA69F), (0xA6F0, 0xA6F1), (0xA700, 0xA721),
      (0xA770, 0xA770), (0xA788, 0xA78A), (0xA7F2, 0xA7F4), (0xA7F8, 0xA7F9), (0xA802, 0xA802),
      (0xA806, 0xA806), (0xA80B, 0xA80B), (0xA825, 0xA826), (0xA82C, 0xA82C), (0xA8C4, 0xA8C5)]),
   (0xAAED, [(0xA8E0, 0xA8F1), (0xA8FF, 0xA8FF), (0xA926, 0xA92D), (0xA947, 0xA951),
      (0xA980, 0xA982), (0xA9B3, 0xA9B3), (0xA9B6, 0xA9B9), (0xA9BC, 0xA9BD), (0xA9CF, 0xA9CF),
      (0xA9E5, 0xA9E6), (0xAA29, 0xAA2E), (0xAA31, 0xAA32), (0xAA35, 0xAA36), (0xAA43, 0xAA43),
      (0xAA4C, 0xAA4C), (0xAA70, 0xAA70), (0xAA7C, 0xAA7C), (0xAAB0, 0xAAB0), (0xAAB2, 0xAAB4),
      (0xAAB7, 0xAAB8), (0xAABE, 0xAABF), (0xAAC1, 0xAAC1), (0xAADD, 0xAADD), (0xAAEC, 0xAAED)]),
   (0xFFFB, [(0xAAF3, 0xAAF4), (0xAAF6, 0xAAF6), (0xAB5B, 0xAB5F), (0xAB69, 0xAB6B),
      (0xABE5, 0xABE5), (0xABE8, 0xABE8), (0xABED, 0xABED), (0xFB1E, 0xFB1E), (0xFBB2, 0xFBC2),
      (0xFE00, 0xFE0F), (0xFE13, 0xFE13), (0xFE20, 0xFE2F), (0xFE52, 0xFE52), (0xFE55, 0xFE55),
      (0xFEFF, 0xFEFF), (0xFF07, 0xFF07), (0xFF0E, 0xFF0E), (0xFF1A, 0xFF1A), (0xFF3E, 0xFF3E),
      (0xFF40, 0xFF40), (0xFF70, 0xFF70), (0xFF9E, 0xFF9F), (0xFFE3, 0xFFE3), (0xFFF9, 0xFFFB)]),
   (0x110BD, [(0x101FD, 0x101FD), (0x102E0, 0x102E0), (0x10376, 0x1037A), (0x10780, 0x10785),
      (0x10787, 0x107B0), (0x107B2, 0x107BA), (0x10A01, 0x10A03), (0x10A05, 0x10A06),
      (0x10A0C, 0x10A0F), (0x10A38, 0x10A3A), (0x10A3F, 0x10A3F), (0x10AE5, 0x10AE6),
      (0x10D24, 0x10D27), (0x10EAB, 0x10EAC), (0x10F46, 0x10F50), (0x10F82, 0x10F85),
      (0x11001, 0x11001), (0x11038, 0x11046), (0x11070, 0x11070), (0x11073, 0x11074),
      (0x1107F, 0x11081), (0x110B3, 0x110B6), (0x110B9, 0x110BA), (0x110BD, 0x110BD)]),
   (0x11446, [(0x110C2, 0x110C2), (0x110CD, 0x110CD), (0x11100, 0x11102), (0x11127, 0x1112B),
      (0x1112D, 0x11134), (0x11173, 0x11173), (0x11180, 0x11181), (0x111B6, 0x111BE),
      (0x111C9, 0x111CC), (0x111CF, 0x111CF), (0x1122F, 0x11231), (0x11234, 0x11234),
      (0x11236, 0x11237), (0x1123E, 0x1123E), (0x112DF, 0x112DF), (0x112E3, 0x112EA),
      (0x11300, 0x11301), (0x1133B, 0x1133C), (0x11340, 0x11340), (0x11366, 0x1136C),
      (0x11370, 0x11374), (0x11438, 0x1143F), (0x11442, 0x11444), (0x11446, 0x11446)]),
   (0x11943, [(0x1145E, 0x1145E), (0x114B3, 0x114B8), (0x114BA, 0x114BA), (0x114BF, 0x114C0),
      (0x114C2, 0x114C3), (0x115B2, 0x115B5), (0x115BC, 0x115BD), (0x115BF, 0x115C0),
      (0x115DC, 0x115DD), (0x11633, 0x1163A), (0x1163D, 0x1163D), (0x1163F, 0x11640),
      (0x116AB, 0x116AB), (0x116AD, 0x116AD), (0x116B0, 0x116B5), (0x116B7, 0x116B7),
      (0x1171D, 0x1171F), (0x11722, 0x11725), (0x11727, 0x1172B), (0x1182F, 0x11837),
      (0x11839, 0x1183A), (0x1193B, 0x1193C), (0x1193E, 0x1193E), (0x11943, 0x11943)]),
   (0x11D91, [(0x119D4, 0x119D7), (0x119DA, 0x119DB), (0x119E0, 0x119E0), (0x11A01, 0x11A0A),
      (0x11A33, 0x11A38), (0x11A3B, 0x11A3E), (0x11A47, 0x11A47), (0x11A51, 0x11A56),
      (0x11A59, 0x11A5B), (0x11A8A, 0x11A96), (0x11A98, 0x11A99), (0x11C30, 0x11C36),
      (0x11C38, 0x11C3D), (0x11C3F, 0x11C3F), (0x11C92, 0x11CA7), (0x11CAA, 0x11CB0),
      (0x11CB2, 0x11CB3), (0x11CB5, 0x11CB6), (0x11D31, 0x11D36), (0x11D3A, 0x11D3A),
      (0x11D3C, 0x11D3D), (0x11D3F, 0x11D45), (0x11D47, 0x11D47), (0x11D90, 0x11D91)]),
   (0x1DA36, [(0x11D95, 0x11D95), (0x11D97, 0x11D97), (0x11EF3, 0x11EF4), (0x13430, 0x13438),
      (0x16AF0, 0x16AF4), (0x16B30, 0x16B36), (0x16B40, 0x16B43), (0x16F4F, 0x16F4F),
      (0x16F8F, 0x16F9F), (0x16FE0, 0x16FE1), (0x16FE3, 0x16FE4), (0x1AFF0, 0x1AFF3),
      (0x1AFF5, 0x1AFFB), (0x1AFFD, 0x1AFFE), (0x1BC9D, 0x1BC9E), (0x1BCA0, 0x1BCA3),
      (0x1CF00, 0x1CF2D), (0x1CF30, 0x1CF46), (0x1D167, 0x1D169), (0x1D173, 0x1D182),
      (0x1D185, 0x1D18B), (0x1D1AA, 0x1D1AD), (0x1D242, 0x1D244), (0x1DA00, 0x1DA36)]),
   (0xE01EF, [(0x1DA3B, 0x1DA6C), (0x1DA75, 0x1DA75), (0x1DA84, 0x1DA84), (0x1DA9B, 0x1DA9F),
      (0x1DAA1, 0x1DAAF), (0x1E000, 0x1E006), (0x1E008, 0x1E018), (0x1E01B, 0x1E021),
      (0x1E023, 0x1E024), (0x1E026, 0x1E02A), (0x1E130, 0x1E13D), (0x1E2AE, 0x1E2AE),
      (0x1E2EC, 0x1E2EF), (0x1E8D0, 0x1E8D6), (0x1E944, 0x1E94B), (0x1F3FB, 0x1F3FF),
      (0xE0001, 0xE0001), (0xE0020, 0xE007F), (0xE0100, 0xE01EF)])]

/-- The letters that have a case (the property `Cased`) among the code points that are not
looked through, by ranges `(first, last)` in blocks. -/
def casedRanges : List (Nat × List (Nat × Nat)) :=
  [(0x588, [(0x41, 0x5A), (0x61, 0x7A), (0xAA, 0xAA), (0xB5, 0xB5), (0xBA, 0xBA), (0xC0, 0xD6),
      (0xD8, 0xF6), (0xF8, 0x1BA), (0x1BC, 0x1BF), (0x1C4, 0x293), (0x295, 0x2AF),
      (0x370, 0x373), (0x376, 0x377), (0x37B, 0x37D), (0x37F, 0x37F), (0x386, 0x386),
      (0x388, 0x38A), (0x38C, 0x38C), (0x38E, 0x3A1), (0x3A3, 0x3F5), (0x3F7, 0x481),
      (0x48A, 0x52F), (0x531, 0x556), (0x560, 0x588)]),
   (0x1FBC, [(0x10A0, 0x10C5), (0x10C7, 0x10C7), (0x10CD, 0x10CD), (0x10D0, 0x10FA),
      (0x10FD, 0x10FF), (0x13A0, 0x13F5), (0x13F8, 0x13FD), (0x1C80, 0x1C88), (0x1C90, 0x1CBA),
      (0x1CBD, 0x1CBF), (0x1D00, 0x1D2B), (0x1D6B, 0x1D77), (0x1D79, 0x1D9A), (0x1E00, 0x1F15),
      (0x1F18, 0x1F1D), (0x1F20, 0x1F45), (0x1F48, 0x1F4D), (0x1F50, 0x1F57), (0x1F59, 0x1F59),
      (0x1F5B, 0x1F5B), (0x1F5D, 0x1F5D), (0x1F5F, 0x1F7D), (0x1F80, 0x1FB4), (0x1FB6, 0x1FBC)]),
   (0x2184, [(0x1FBE, 0x1FBE), (0x1FC2, 0x1FC4), (0x1FC6, 0x1FCC), (0x1FD0, 0x1FD3),
      (0x1FD6, 0x1FDB), (0x1FE0, 0x1FEC), (0x1FF2, 0x1FF4), (0x1FF6, 0x1FFC), (0x2102, 0x2102),
      (0x2107, 0x2107), (0x210A, 0x2113), (0x2115, 0x2115), (0x2119, 0x211D), (0x2124, 0x2124),
      (0x2126, 0x2126), (0x2128, 0x2128), (0x212A, 0x212D), (0x212F, 0x2134), (0x2139, 0x2139),
      (0x213C, 0x213F), (0x2145, 0x2149), (0x214E, 0x214E), (0x2160, 0x217F), (0x2183, 0x2184)]),
   (0xFB17, [(0x24B6, 0x24E9), (0x2C00, 0x2C7B), (0x2C7E, 0x2CE4), (0x2CEB, 0x2CEE),
      (0x2CF2, 0x2CF3), (0x2D00, 0x2D25), (0x2D27, 0x2D27), (0x2D2D, 0x2D2D), (0xA640, 0xA66D),
      (0xA680, 0xA69B), (0xA722, 0xA76F), (0xA771, 0xA787), (0xA78B, 0xA78E), (0xA790, 0xA7CA),
      (0xA7D0, 0xA7D1), (0xA7D3, 0xA7D3), (0xA7D5, 0xA7D9), (0xA7F5, 0xA7F6), (0xA7FA, 0xA7FA),
      (0xAB30, 0xAB5A), (0xAB60, 0xAB68), (0xAB70, 0xABBF), (0xFB00, 0xFB06), (0xFB13, 0xFB17)]),
   (0x1D4B9, [(0xFF21, 0xFF3A), (0xFF41, 0xFF5A), (0x10400, 0x1044F), (0x104B0, 0x104D3),
      (0x104D8, 0x104FB), (0x10570, 0x1057A), (0x1057C, 0x1058A), (0x1058C, 0x10592),
      (0x10594, 0x10595), (0x10597, 0x105A1), (0x105A3, 0x105B1), (0x105B3, 0x105B9),
      (0x105BB, 0x105BC), (0x10C80, 0x10CB2), (0x10CC0, 0x10CF2), (0x118A0, 0x118DF),
      (0x16E40, 0x16E7F), (0x1D400, 0x1D454), (0x1D456, 0x1D49C), (0x1D49E, 0x1D49F),
      (0x1D4A2, 0x1D4A2), (0x1D4A5, 0x1D4A6), (0x1D4A9, 0x1D4AC), (0x1D4AE, 0x1D4B9)]),
   (0x1DF09, [(0x1D4BB, 0x1D4BB), (0x1D4BD, 0x1D4C3), (0x1D4C5, 0x1D505), (0x1D507, 0x1D50A),
      (0x1D50D, 0x1D514), (0x1D516, 0x1D51C), (0x1D51E, 0x1D539), (0x1D53B, 0x1D53E),
      (0x1D540, 0x1D544), (0x1D546, 0x1D546), (0x1D54A, 0x1D550), (0x1D552, 0x1D6A5),
      (0x1D6A8, 0x1D6C0), (0x1D6C2, 0x1D6DA), (0x1D6DC, 0x1D6FA), (0x1D6FC, 0x1D714),
      (0x1D716, 0x1D734), (0x1D736, 0x1D74E), (0x1D750, 0x1D76E), (0x1D770, 0x1D788),
      (0x1D78A, 0x1D7A8), (0x1D7AA, 0x1D7C2), (0x1D7C4, 0x1D7CB), (0x1DF00, 0x1DF09)]),
   (0x1F189, [(0x1DF0B, 0x1DF1E), (0x1E900, 0x1E943), (0x1F130, 0x1F149), (0x1F150, 0x1F169),
      (0x1F170, 0x1F189)])]

/-- The block of a table that reaches the code point `n`. -/
def blockOf {α : Type} (blocks : List (Nat × List α)) (n : Nat) : List α :=
  match blocks.find? (fun b => n ≤ b.1) with
  | some b => b.2
  | none => []

/-- The lower-case letter of a code point that has one letter of its own, the code point itself
otherwise. -/
def lowerCode (n : Nat) : Nat :=
  if n < 0xC0 then
    if 0x41 ≤ n && n ≤ 0x5A then n + 0x20 else n
  else
    match (blockOf lowerCaseRuns n).find?
        (fun r => r.1 ≤ n && n ≤ r.2.1 && (n - r.1) % r.2.2.1 == 0) with
    | some r => r.2.2.2 + (n - r.1)
    | none => n

/-- Whether a code point lies in one of the ranges of a table. -/
def inRanges (blocks : List (Nat × List (Nat × Nat))) (n : Nat) : Bool :=
  (blockOf blocks n).any (fun r => r.1 ≤ n && n ≤ r.2)

/-- Whether the first character that is not looked through is a letter with a case. -/
def casedLetterNext : List Char → Bool
  | [] => false
  | c :: cs =>
    if inRanges caseIgnorableRanges c.toNat then casedLetterNext cs
    else inRanges casedRanges c.toNat

/-- Lower-casing of the characters `cs` that follow the characters `before` (nearest first).
A capital sigma becomes the final sigma when a cased letter precedes it and none follows it;
the capital I with a dot becomes `i` and a combining dot; any other character becomes its
lower-case letter. -/
def lowerChars (before : List Char) : List Char → List Char
  | [] => []
  | c :: cs =>
    (if c.toNat == 0x3A3 then
      [if casedLetterNext before && !casedLetterNext cs then Char.ofNat 0x3C2
       else Char.ofNat 0x3C3]
     else if c.toNat == 0x130 then [Char.ofNat 0x69, Char.ofNat 0x307]
     else [Char.ofNat (lowerCode c.toNat)]) ++ lowerChars (c :: before) cs

/-- The method `s.toLowerCase()`. -/
def jsLower (s : String) : String := ⟨lowerChars [] s.data⟩

/-- The chain `s.trim().toLowerCase()`. -/
def normStr (s : String) : String := jsLower (jsTrim s)

/-- Splitting the characters of a string on `/`: the current piece and the pieces after it. -/
def splitSlashChars : List Char → List Char × List (List Char)
  | [] => ([], [])
  | c :: cs =>
    let r := splitSlashChars cs
    if c = '/' then ([], r.1 :: r.2) else (c :: r.1, r.2)

/-- The call `s.split('/')`. -/
def splitSlash (s : String) : List String :=
  let r := splitSlashChars s.data
  (r.1 :: r.2).map String.mk

/-- The method `xs.join(', ')` on strings already converted. -/
def joinComma : List String → String
  | [] => ""
  | [x] => x
  | x :: y :: rest => x ++ ", " ++ joinComma (y :: rest)

/-- The method `s.includes(t)`. -/
def jsIncludes (s t : String) : Bool := decide (t.data <:+: s.data)

/-! ## Numbers

A number of the language is an IEEE-754 double.  `FiniteNum` holds the finite ones, which are
the numbers a JSON text can carry, each written in one way; the two zeros are one value, since
nothing in the service tells them apart.  `JsNumber` adds `NaN` and the infinities, which
`Number(x)` may return. -/

/-- The power `2^k`. -/
def twoPow (k : Nat) : Nat := 1 <<< k

/-- The product `acc·b^k`, by squaring. -/
def powerAux : Nat → Nat → Nat → Nat → Nat
  | 0, _, _, acc => acc
  | fuel + 1, b, k, acc =>
    if k = 0 then acc else powerAux fuel (b * b) (k / 2) (if k % 2 = 1 then acc * b else acc)

/-- The power `10^k`. -/
def tenPow (k : Nat) : Nat := powerAux 64 10 k 1

/-- The first of `k`, `2k`, `4k`, ... with `n < 2^k`. -/
def bitsUpper : Nat → Nat → Nat → Nat
  | 0, _, k => k
  | fuel + 1, n, k => if n < twoPow k then k else bitsUpper fuel n (2 * k)

/-- The least `k` with `n < 2^k`, between `lo` (where `2^lo ≤ n`) and `hi` (where `n < 2^hi`). -/
def bitsBetween : Nat → Nat → Nat → Nat → Nat
  | 0, _, _, hi => hi
  | fuel + 1, n, lo, hi =>
    if hi ≤ lo + 1 then hi
    else if n < twoPow ((lo + hi) / 2) then bitsBetween fuel n lo ((lo + hi) / 2)
    else bitsBetween fuel n ((lo + hi) / 2) hi

/-- Number of binary digits of `n`. -/
def bitLength (n : Nat) : Nat :=
  if n = 0 then 0 else bitsBetween 64 n (bitsUpper 64 n 1 / 2) (bitsUpper 64 n 1)

/-- Whether `±m·2^e` is written in the one way a finite number is: zero as `+0·2^0`, and
otherwise `m` odd and below `2^53`, `e` at least `-1074` and the value below `2^1024`. -/
def FiniteNum.wf (neg : Bool) (m : Nat) (e : Int) : Bool :=
  if m = 0 then !neg && e == 0
  else m % 2 == 1 && decide (m < twoPow 53) && decide (-1074 ≤ e) &&
    decide ((bitLength m : Int) + e ≤ 1024)

/-- A finite number `±m·2^e`. -/
structure FiniteNum where
  neg : Bool
  m : Nat
  e : Int
  ok : FiniteNum.wf neg m e = true

instance : DecidableEq FiniteNum := fun a b =>
  if h : a.neg = b.neg ∧ a.m = b.m ∧ a.e = b.e then
    isTrue (by
      cases a
      cases b
      simp only at h
      obtain ⟨h1, h2, h3⟩ := h
      subst h1 h2 h3
      rfl)
  else
    isFalse (fun hab => h (by rw [hab]; exact ⟨rfl, rfl, rfl⟩))

instance : Repr FiniteNum := ⟨fun x _ => repr (x.neg, x.m, x.e)⟩

/-- The number zero. -/
def FiniteNum.zero : FiniteNum := ⟨false, 0, 0, rfl⟩

instance : Inhabited FiniteNum := ⟨FiniteNum.zero⟩

/-- The result of a numeric conversion. -/
inductive JsNumber where
  | nan
  | inf (neg : Bool)
  | fin (x : FiniteNum)
deriving DecidableEq, Repr, Inhabited

/-- Halving of an even `m` with `e` raised, until `m` is odd. -/
def stripTwos : Nat → Nat → Int → Nat × Int
  | 0, m, e => (m, e)
  | fuel + 1, m, e => if m % 2 == 0 && m != 0 then stripTwos fuel (m / 2) (e + 1) else (m, e)

/-- The number `±m·2^e`, for `m` up to `2^64`: zero, a finite number, or an infinity when the
value reaches `2^1024`. -/
def JsNumber.ofBinary (neg : Bool) (m : Nat) (e : Int) : JsNumber :=
  if m = 0 then .fin FiniteNum.zero
  else
    let r := stripTwos 64 m e
    if (bitLength r.1 : Int) + r.2 > 1024 then .inf neg
    else if h : FiniteNum.wf neg r.1 r.2 = true then .fin ⟨neg, r.1, r.2, h⟩
    else .nan

/-- The quotient `n / d` rounded to the nearest integer, a tie going to the even one. -/
def roundHalfEven (n d : Nat) : Nat :=
  if 2 * (n % d) > d then n / d + 1
  else if 2 * (n % d) = d then (if (n / d) % 2 = 1 then n / d + 1 else n / d)
  else n / d

/-- The exponent `l` with `2^l ≤ n / d < 2^(l+1)`, for positive `n` and `d`. -/
def floorLog2 (n d : Nat) : Int :=
  let k : Int := (bitLength n : Int) - (bitLength d : Int)
  if n * twoPow (-k).toNat ≥ d * twoPow k.toNat then k else k - 1

/-- The double nearest to `±n / d` (`d` positive), a tie going to the even significand: the
value is rounded to a multiple of `2^e`, where `e` leaves 53 binary digits and is at least
`-1074`. -/
def JsNumber.ofRatio (neg : Bool) (n d : Nat) : JsNumber :=
  if n = 0 then .fin FiniteNum.zero
  else
    let e : Int := max (floorLog2 n d - 52) (-1074)
    JsNumber.ofBinary neg (roundHalfEven (n * twoPow (-e).toNat) (d * twoPow e.toNat)) e

/-- The finite number of a conversion that is known to give one. -/
def JsNumber.toFinite : JsNumber → FiniteNum
  | .fin x => x
  | _ => FiniteNum.zero

instance (n : Nat) : OfNat FiniteNum n := ⟨(JsNumber.ofRatio false n 1).toFinite⟩

instance : OfScientific FiniteNum :=
  ⟨fun mantissa exponentSign decimalExponent =>
    (if exponentSign then JsNumber.ofRatio false mantissa (tenPow decimalExponent)
     else JsNumber.ofRatio false (mantissa * tenPow decimalExponent) 1).toFinite⟩

/-- The number `-x`. -/
def FiniteNum.negate (x : FiniteNum) : FiniteNum :=
  (JsNumber.ofBinary (!x.neg) x.m x.e).toFinite

instance : Neg FiniteNum := ⟨FiniteNum.negate⟩

/-! ### Numbers to strings -/

/-- Whether `a·10^p ≤ b·2^q`. -/
def scaledLe (a : Nat) (p : Int) (b : Nat) (q : Int) : Bool :=
  decide (a * tenPow p.toNat * twoPow (-q).toNat ≤ b * twoPow q.toNat * tenPow (-p).toNat)

/-- Whether `a·10^p < b·2^q`. -/
def scaledLt (a : Nat) (p : Int) (b : Nat) (q : Int) : Bool :=
  decide (a * tenPow p.toNat * twoPow (-q).toNat < b * twoPow q.toNat * tenPow (-p).toNat)

/-- The position `n` of the decimal point of the positive number `b·2^q`:
`10^(n-1) ≤ b·2^q < 10^n`.  The estimate from the binary logarithm is at most one below and
two above the exponent sought. -/
def decimalPoint (b : Nat) (q : Int) : Int :=
  let est : Int := ((bitLength b : Int) - 1 + q) * 30103 / 100000
  if scaledLe 1 (est + 2) b q then est + 3
  else if scaledLe 1 (est + 1) b q then est + 2
  else if scaledLe 1 est b q then est + 1
  else est

/-- The decimal `s·10^p` with `k` digits that prints the number whose value is `x4` quarters
of `2^q` apart from zero, when there is one: a decimal rounds to the number when it lies
between `x4 - below` and `x4 + 2` quarters (the bounds included when `incl`); of the two
decimals with `k` digits around the value the nearer one is taken, the even one on a tie (the
value is nearer to the upper one when their sum is below twice the value). -/
def decimalWith (x4 below : Nat) (incl : Bool) (q n : Int) (k : Nat) : Option (Nat × Int) :=
  let p : Int := n - k
  let sLo : Nat :=
    (x4 * twoPow (q - 2).toNat * tenPow (-p).toNat) / (twoPow (2 - q).toNat * tenPow p.toNat)
  let sHi : Nat := sLo + 1
  let fits (s : Nat) : Bool :=
    if incl then !scaledLt s p (x4 - below) (q - 2) && scaledLe s p (x4 + 2) (q - 2)
    else !scaledLe s p (x4 - below) (q - 2) && scaledLt s p (x4 + 2) (q - 2)
  if fits sLo && fits sHi then
    if scaledLt (sLo + sHi) p (2 * x4) (q - 2) then some (sHi, p)
    else if scaledLe (sLo + sHi) p (2 * x4) (q - 2) then some (if sLo % 2 == 0 then sLo else sHi, p)
    else some (sLo, p)
  else if fits sLo then some (sLo, p)
  else if fits sHi then some (sHi, p)
  else none

/-- The first of the decimals with `k`, `k + 1`, ... digits that prints the number. -/
def shortestFrom (x4 below : Nat) (incl : Bool) (q n : Int) : Nat → Nat → Nat × Int
  | 0, k => ((x4 * twoPow (q - 2).toNat * tenPow (-(n - k)).toNat) /
      (twoPow (2 - q).toNat * tenPow (n - k).toNat), n - k)
  | fuel + 1, k =>
    match decimalWith x4 below incl q n k with
    | some r => r
    | none => shortestFrom x4 below incl q n fuel (k + 1)

/-- The digits of a positive number with the position of its decimal point: the shortest
decimal `0.d1d2...dk · 10^n` that rounds to the number, the nearest one when there are
several. -/
def shortestDecimal (m : Nat) (e : Int) : List Char × Int :=
  let q : Int := max ((bitLength m : Int) - 53 + e) (-1074)
  let sig : Nat := m * twoPow (e - q).toNat
  let below : Nat := if sig = twoPow 52 ∧ q > -1074 then 1 else 2
  let n : Int := decimalPoint m e
  let r := shortestFrom (4 * sig) below (sig % 2 == 0) q n 17 1
  let digits := (Nat.repr r.1).data
  ((digits.reverse.dropWhile (fun c => c == '0')).reverse, (digits.length : Int) + r.2)

/-- A run of `n` zeros. -/
def zeros (n : Nat) : List Char := List.replicate n '0'

/-- The text of a positive number from its digits and the position `n` of the decimal point:
plain digits up to `10^21`, a fraction down to `10^-6`, and the exponent form beyond. -/
def formatDecimal (digits : List Char) (n : Int) : List Char :=
  let k : Int := digits.length
  if k ≤ n ∧ n ≤ 21 then digits ++ zeros (n - k).toNat
  else if 0 < n ∧ n ≤ 21 then digits.take n.toNat ++ '.' :: digits.drop n.toNat
  else if -6 < n ∧ n ≤ 0 then '0' :: '.' :: zeros (-n).toNat ++ digits
  else
    let exponent := (if n - 1 < 0 then '-' else '+') :: (Nat.repr (n - 1).natAbs).data
    match digits with
    | [] => []
    | [d] => d :: 'e' :: exponent
    | d :: rest => d :: '.' :: rest ++ 'e' :: exponent

/-- The conversion `String(x)` of a finite number. -/
def FiniteNum.toStr (x : FiniteNum) : String :=
  if x.m = 0 then "0"
  else
    let r := shortestDecimal x.m x.e
    ⟨(if x.neg then ['-'] else []) ++ formatDecimal r.1 r.2⟩

/-- The conversion `String(x)` of the result of a numeric conversion. -/
def JsNumber.toStr : JsNumber → String
  | .nan => "NaN"
  | .inf false => "Infinity"
  | .inf true => "-Infinity"
  | .fin x => x.toStr

/-- Truthiness of a number: zero and `NaN` are falsy. -/
def JsNumber.truthy : JsNumber → Bool
  | .nan => false
  | .inf _ => true
  | .fin x => x.m != 0

/-! ### Strings to numbers -/

/-- The value of a digit in a base up to sixteen. -/
def digitIn (base : Nat) (c : Char) : Option Nat :=
  let v : Nat :=
    if '0' ≤ c ∧ c ≤ '9' then c.toNat - 48
    else if 'a' ≤ c ∧ c ≤ 'f' then c.toNat - 87
    else if 'A' ≤ c ∧ c ≤ 'F' then c.toNat - 55
    else 16
  if v < base then some v else none

/-- The value of a run of digits, from `acc`; `none` when a character is not a digit. -/
def digitsValue (base : Nat) : List Char → Nat → Option Nat
  | [], acc => some acc
  | c :: cs, acc =>
    match digitIn base c with
    | some v => digitsValue base cs (acc * base + v)
    | none => none

/-- The decimal digits at the head of a text, and the rest. -/
def spanDigits : List Char → List Char × List Char
  | [] => ([], [])
  | c :: cs =>
    if '0' ≤ c ∧ c ≤ '9' then ((c :: (spanDigits cs).1), (spanDigits cs).2) else ([], c :: cs)

/-- The exponent part of a decimal literal: nothing, or `e` or `E`, a sign if any, and at
least one digit. -/
def exponentPart : List Char → Option Int
  | [] => some 0
  | c :: rest =>
    if c = 'e' ∨ c = 'E' then
      match rest with
      | '-' :: d :: ds => (digitsValue 10 (d :: ds) 0).map (fun v => - (v : Int))
      | '+' :: d :: ds => (digitsValue 10 (d :: ds) 0).map (fun v => (v : Int))
      | d :: ds => (digitsValue 10 (d :: ds) 0).map (fun v => (v : Int))
      | [] => none
    else none

/-- The number nearest to `±d·10^x`.  A decimal of `len` digits at or beyond `10^310` is an
infinity and one below `10^-330` is zero, whatever its digits. -/
def JsNumber.ofDecimal (neg : Bool) (d len : Nat) (x : Int) : JsNumber :=
  if d = 0 then .fin FiniteNum.zero
  else if (len : Int) + x > 311 then .inf neg
  else if (len : Int) + x < -330 then .fin FiniteNum.zero
  else JsNumber.ofRatio neg (d * tenPow x.toNat) (tenPow (-x).toNat)

/-- An unsigned decimal literal: `Infinity`, or digits with an optional fraction and an
optional exponent, at least one digit before or after the point. -/
def unsignedDecimal (neg : Bool) (cs : List Char) : JsNumber :=
  if cs = "Infinity".data then .inf neg
  else
    let whole := spanDigits cs
    let fraction : List Char × List Char :=
      match whole.2 with
      | '.' :: rest => spanDigits rest
      | rest => ([], rest)
    if whole.1 = [] ∧ fraction.1 = [] then .nan
    else
      match exponentPart fraction.2, digitsValue 10 (whole.1 ++ fraction.1) 0 with
      | some x, some d =>
        JsNumber.ofDecimal neg d ((whole.1 ++ fraction.1).dropWhile (fun c => c == '0')).length
          (x - fraction.1.length)
      | _, _ => .nan

/-- An integer literal in base two, eight or sixteen, after its prefix. -/
def radixLiteral (base : Nat) (ds : List Char) : JsNumber :=
  match ds with
  | [] => .nan
  | _ =>
    match digitsValue base ds 0 with
    | some v => JsNumber.ofRatio false v 1
    | none => .nan

/-- The conversion `Number(s)` of a string: white space around the text is skipped, the empty
text is `0`, and a text that is not a numeric literal is `NaN`. -/
def numberOfChars (cs : List Char) : JsNumber :=
  match trimChars cs with
  | [] => .fin FiniteNum.zero
  | '0' :: 'x' :: ds => radixLiteral 16 ds
  | '0' :: 'X' :: ds => radixLiteral 16 ds
  | '0' :: 'o' :: ds => radixLiteral 8 ds
  | '0' :: 'O' :: ds => radixLiteral 8 ds
  | '0' :: 'b' :: ds => radixLiteral 2 ds
  | '0' :: 'B' :: ds => radixLiteral 2 ds
  | '-' :: ds => unsignedDecimal true ds
  | '+' :: ds => unsignedDecimal false ds
  | ds => unsignedDecimal false ds

/-! ## JavaScript values -/

/-- Scalar JavaScript values: those a JSON text can carry, and `undefined`. -/
inductive JsVal where
  | undefined
  | null
  | bool (b : Bool)
  | num (x : FiniteNum)
  | str (s : String)
deriving DecidableEq, Repr, Inhabited

/-- Values the code only passes around: query attributes, visualisation settings. -/
inductive Json where
  | val (v : JsVal)
  | arr (xs : List Json)
  | obj (kvs : List (String × Json))
deriving Inhabited

/-- An object as its own enumerable properties, in insertion order. -/
abbrev Obj := List (String × Json)

/-- An object whose properties are scalars: a result row, `filterNameMap`, `filtersFromRequest`. -/
abbrev Dict := List (String × JsVal)

namespace JsVal

/-- Truthiness: `undefined`, `null`, `false`, `0` and `''` are falsy. -/
def truthy : JsVal → Bool
  | undefined => false
  | null => false
  | bool b => b
  | num x => x.m != 0
  | str s => s != ""

/-- The conversion `String(x)`, also used by template literals and property keys. -/
def toStr : JsVal → String
  | undefined => "undefined"
  | null => "null"
  | bool true => "true"
  | bool false => "false"
  | num x => x.toStr
  | str s => s

/-- The operator `a || b`. -/
def orElse (a b : JsVal) : JsVal := if a.truthy then a else b

/-- The operator `a ?? b`. -/
def coalesce (a b : JsVal) : JsVal :=
  match a with
  | undefined => b
  | null => b
  | _ => a

end JsVal

/-- Truthiness of a value that may be an array or an object (both truthy). -/
def Json.truthy : Json → Bool
  | .val v => v.truthy
  | .arr _ => true
  | .obj _ => true

/-! ## Conversions -/

/-- How `join` converts an element: `undefined` and `null` become the empty string. -/
def joinStr : JsVal → String
  | .undefined => ""
  | .null => ""
  | v => v.toStr

/-- The conversion `Number(x)`. -/
def jsNumber : JsVal → JsNumber
  | .undefined => .nan
  | .null => .fin 0
  | .bool b => .fin (if b then 1 else 0)
  | .num x => .fin x
  | .str s => numberOfChars s.data

/-- The expression `Number(x) || d`. -/
def numberOr (x : JsVal) (d : FiniteNum) : JsNumber :=
  if (jsNumber x).truthy then jsNumber x else .fin d

/-- The integer part of a finite number. -/
def FiniteNum.trunc (x : FiniteNum) : Int :=
  if x.neg then - ((x.m * twoPow x.e.toNat / twoPow (-x.e).toNat : Nat) : Int)
  else ((x.m * twoPow x.e.toNat / twoPow (-x.e).toNat : Nat) : Int)

/-- The call `xs.slice(0, n)`: the index is cut to its integer part, a negative index counts
from the end, and `NaN` is the index `0`. -/
def sliceTo {α : Type} (xs : List α) (n : JsNumber) : List α :=
  match n with
  | .nan => []
  | .inf true => []
  | .inf false => xs
  | .fin x => if x.trunc < 0 then xs.take (xs.length - x.trunc.natAbs) else xs.take x.trunc.toNat

/-! ## Objects -/

/-- Property read `o[k]` on a scalar object; `undefined` when absent. -/
def Dict.get (o : Dict) (k : String) : JsVal :=
  match o.find? (fun e => e.1 == k) with
  | some e => e.2
  | none => .undefined

/-- Property read `o[k]`; `undefined` when absent. -/
def objGet (o : Obj) (k : String) : Json :=
  match o.find? (fun e => e.1 == k) with
  | some e => e.2
  | none => .val .undefined

/-- Property write as done by an object literal or `Map.set`: an existing key keeps its
position and takes the new value, a new key goes last. -/
def setKey {β : Type} : List (String × β) → String → β → List (String × β)
  | [], k, v => [(k, v)]
  | (k1, v1) :: m, k, v => if k1 = k then (k, v) :: m else (k1, v1) :: setKey m k v

/-- Removal of a property, as the rest pattern does for the names it binds. -/
def dropKey {β : Type} (o : List (String × β)) (k : String) : List (String × β) :=
  o.filter (fun e => e.1 != k)

/-- The spread of `later` over `base`: the object `{...base, ...later}`. -/
def spreadOver {β : Type} (base later : List (String × β)) : List (String × β) :=
  later.foldl (fun acc e => setKey acc e.1 e.2) base

/-- Index keys `0, 1, ...` for the elements of a list, from `i`. -/
def indexed {β : Type} : Nat → List β → List (String × β)
  | _, [] => []
  | i, x :: xs => (toString i, x) :: indexed (i + 1) xs

/-- Own enumerable properties copied by `{...x}`. -/
def spreadProps : Json → Obj
  | .obj kvs => kvs
  | .arr xs => indexed 0 xs
  | .val (.str s) => indexed 0 (s.data.map (fun c => Json.val (.str (String.singleton c))))
  | .val _ => []

/-! ## Records exchanged with the client -/

/-- The current user, as returned by `me`. -/
structure User where
  personal_folder_id : JsVal := .undefined
  home_folder_id : JsVal := .undefined

/-- A folder, as returned by `search_folders`. -/
structure Folder where
  id : JsVal
  name : JsVal
  parent_id : JsVal := .undefined

/-- A filter listener of a tile. -/
structure Listen where
  dashboard_filter_name : JsVal
  field : JsVal
  rest : Obj := []

/-- A filterable of a result maker; `listen = none` when the property is not an array. -/
structure Filterable where
  listen : Option (List Listen)
  rest : Obj := []

/-- The result maker of a tile; `vis_type` is `result_maker.vis_config?.type`. -/
structure ResultMaker where
  query_id : JsVal := .undefined
  filterables : Option (List Filterable) := none
  vis_type : JsVal := .undefined
  rest : Obj := []

/-- A dashboard element (tile); `query_vis_type` is `tile?.query?.vis_config?.type`. -/
structure Element where
  id : JsVal
  title : JsVal := .undefined
  query_id : JsVal := .undefined
  result_maker : Option ResultMaker := none
  query_vis_type : JsVal := .undefined

/-- A dashboard filter. -/
structure DashboardFilter where
  id : JsVal
  dimension : JsVal := .undefined
  name : JsVal := .undefined
  title : JsVal := .undefined
  type : JsVal := .undefined
  allow_multiple_values : JsVal := .undefined
  required : JsVal := .undefined
  default_value : JsVal := .undefined

/-- A dashboard, as returned by `search_dashboards`, `dashboard` and `copy_dashboard`. -/
structure Dashboard where
  id : JsVal
  title : JsVal := .undefined
  folder_id : JsVal := .undefined
  deleted : JsVal := .undefined
  description : JsVal := .undefined
  dashboard_elements : Option (List Element) := none
  dashboard_filters : Option (List DashboardFilter) := none

/-- What `run_query` resolves to: an array of rows, `null`/`undefined`, or another value. -/
inductive RunResult where
  | rows (rs : List Dict)
  | nothing
  | other

/-- The configuration bag `this.config`. -/
structure Config where
  folderName : JsVal := .undefined
  model : JsVal := .undefined
  explore : JsVal := .undefined
  tileTitle : JsVal := .undefined
  limitResults : JsVal := .undefined
  baseFilters : Json := .val .undefined
  dateField : JsVal := .undefined

/-- Argument of `search_folders`; `parent_id = none` is `null`. -/
structure FolderSearch where
  parent_id : Option String
  name : Option String := none
  fields : Option String := none
  per_page : Option Nat := none
deriving DecidableEq, Repr

/-- Argument of `search_dashboards`. -/
structure DashboardSearch where
  folder_id : JsVal
  title : Option String := none
  fields : Option String := none
  per_page : Option Nat := none
deriving DecidableEq, Repr

/-- Body of `update_dashboard_element`. -/
inductive ElementPatch where
  | result_maker (rm : ResultMaker)
  | query_id (v : Json)

/-- Body of `create_dashboard_filter` and `update_dashboard_filter`. -/
structure FilterData where
  dashboard_id : JsVal
  title : JsVal
  type : String
  model : JsVal
  explore : JsVal
  dimension : JsVal
  row : Int
  allow_multiple_values : Bool
  required : Bool
  name : JsVal
  default_value : JsVal
  ui_config : Dict
  listens_to_filters : List JsVal
deriving DecidableEq, Repr

/-- A call issued to the client. -/
inductive Call where
  | me
  | search_folders (req : FolderSearch)
  | search_dashboards (req : DashboardSearch)
  | copy_dashboard (dashboard_id folder_id : JsVal)
  | update_dashboard (dashboard_id : JsVal) (title : String)
  | dashboard (dashboard_id : JsVal)
  | dashboard_dashboard_elements (dashboard_id : JsVal)
  | update_dashboard_element (element_id : JsVal) (body : ElementPatch)
  | query (query_id : JsVal)
  | create_query (body : Obj)
  | run_query (query_id : Json) (result_format : String)
  | delete_dashboard_filter (filter_id : JsVal)
  | update_dashboard_filter (filter_id : JsVal) (body : FilterData)
  | create_dashboard_filter (body : FilterData)

/-- The BI query client: each method answers from, and may change, the client state. -/
structure Sdk (σ : Type) where
  me : σ → Except String User × σ
  search_folders : FolderSearch → σ → Except String (List Folder) × σ
  search_dashboards : DashboardSearch → σ → Except String (List Dashboard) × σ
  copy_dashboard : JsVal → JsVal → σ → Except String Dashboard × σ
  update_dashboard : JsVal → String → σ → Except String Unit × σ
  dashboard : JsVal → σ → Except String Dashboard × σ
  dashboard_dashboard_elements : JsVal → σ → Except String (List Element) × σ
  update_dashboard_element : JsVal → ElementPatch → σ → Except String Unit × σ
  query : JsVal → σ → Except String Obj × σ
  create_query : Obj → σ → Except String Obj × σ
  run_query : Json → String → σ → Except String RunResult × σ
  delete_dashboard_filter : JsVal → σ → Except String Unit × σ
  update_dashboard_filter : JsVal → FilterData → σ → Except String Unit × σ
  create_dashboard_filter : FilterData → σ → Except String Unit × σ

/-! ## Operations: client state, call trace, exceptions -/

/-- The client state together with the calls issued so far. -/
structure World (σ : Type) where
  st : σ
  trace : List Call

/-- An asynchronous operation of the service: it runs on a world, returns a value or throws,
and leaves the world it reached. -/
structure Op (σ α : Type) where
  run : World σ → Except String α × World σ

namespace Op

/-- Return a value. -/
def ret {σ α : Type} (a : α) : Op σ α := ⟨fun w => (.ok a, w)⟩

/-- The statement `throw new Error(msg)`. -/
def fail {σ α : Type} (msg : String) : Op σ α := ⟨fun w => (.error msg, w)⟩

/-- Sequencing: an exception of the first part skips the second. -/
def andThen {σ α β : Type} (m : Op σ α) (f : α → Op σ β) : Op σ β :=
  ⟨fun w =>
    match m.run w with
    | (.ok a, w1) => (f a).run w1
    | (.error e, w1) => (.error e, w1)⟩

/-- The statement `try { m } catch (error) { h error.message }`. -/
def tryCatch {σ α : Type} (m : Op σ α) (h : String → Op σ α) : Op σ α :=
  ⟨fun w =>
    match m.run w with
    | (.ok a, w1) => (.ok a, w1)
    | (.error e, w1) => (h e).run w1⟩

/-- The expression `await this.sdk.ok(this.sdk.method(args))`: the call is recorded, the client
answers and moves to its next state. -/
def request {σ α : Type} (c : Call) (answer : σ → Except String α × σ) : Op σ α :=
  ⟨fun w => ((answer w.st).1, { st := (answer w.st).2, trace := w.trace ++ [c] })⟩

/-- Lifting of a synchronous computation that may throw. -/
def ofExcept {σ α : Type} : Except String α → Op σ α
  | .ok a => ret a
  | .error e => fail e

end Op

instance {σ : Type} : Monad (Op σ) where
  pure := Op.ret
  bind := Op.andThen

namespace Sdk

variable {σ : Type}

/-- The call `this.sdk.ok(this.sdk.me())`. -/
def okMe (sdk : Sdk σ) : Op σ User := Op.request .me sdk.me

/-- The call `this.sdk.ok(this.sdk.search_folders(req))`. -/
def okSearchFolders (sdk : Sdk σ) (req : FolderSearch) : Op σ (List Folder) :=
  Op.request (.search_folders req) (sdk.search_folders req)

/-- The call `this.sdk.ok(this.sdk.search_dashboards(req))`. -/
def okSearchDashboards (sdk : Sdk σ) (req : DashboardSearch) : Op σ (List Dashboard) :=
  Op.request (.search_dashboards req) (sdk.search_dashboards req)

/-- The call `this.sdk.ok(this.sdk.copy_dashboard(id, folderId))`. -/
def okCopyDashboard (sdk : Sdk σ) (id folderId : JsVal) : Op σ Dashboard :=
  Op.request (.copy_dashboard id folderId) (sdk.copy_dashboard id folderId)

/-- The call `this.sdk.ok(this.sdk.update_dashboard(id, { title }))`. -/
def okUpdateDashboard (sdk : Sdk σ) (id : JsVal) (title : String) : Op σ Unit :=
  Op.request (.update_dashboard id title) (sdk.update_dashboard id title)

/-- The call `this.sdk.ok(this.sdk.dashboard(id))`. -/
def okDashboard (sdk : Sdk σ) (id : JsVal) : Op σ Dashboard :=
  Op.request (.dashboard id) (sdk.dashboard id)

/-- The call `this.sdk.ok(this.sdk.dashboard_dashboard_elements(id))`. -/
def okDashboardElements (sdk : Sdk σ) (id : JsVal) : Op σ (List Element) :=
  Op.request (.dashboard_dashboard_elements id) (sdk.dashboard_dashboard_elements id)

/-- The call `this.sdk.ok(this.sdk.update_dashboard_element(id, body))`. -/
def okUpdateDashboardElement (sdk : Sdk σ) (id : JsVal) (body : ElementPatch) : Op σ Unit :=
  Op.request (.update_dashboard_element id body) (sdk.update_dashboard_element id body)

/-- The call `this.sdk.ok(this.sdk.query(id))`. -/
def okQuery (sdk : Sdk σ) (id : JsVal) : Op σ Obj :=
  Op.request (.query id) (sdk.query id)

/-- The call `this.sdk.ok(this.sdk.create_query(body))`. -/
def okCreateQuery (sdk : Sdk σ) (body : Obj) : Op σ Obj :=
  Op.request (.create_query body) (sdk.create_query body)

/-- The call `this.sdk.ok(this.sdk.run_query({ query_id, result_format }))`. -/
def okRunQuery (sdk : Sdk σ) (queryId : Json) (resultFormat : String) : Op σ RunResult :=
  Op.request (.run_query queryId resultFormat) (sdk.run_query queryId resultFormat)

/-- The call `this.sdk.ok(this.sdk.delete_dashboard_filter(id))`. -/
def okDeleteDashboardFilter (sdk : Sdk σ) (id : JsVal) : Op σ Unit :=
  Op.request (.delete_dashboard_filter id) (sdk.delete_dashboard_filter id)

/-- The call `this.sdk.ok(this.sdk.update_dashboard_filter(id, body))`. -/
def okUpdateDashboardFilter (sdk : Sdk σ) (id : JsVal) (body : FilterData) : Op σ Unit :=
  Op.request (.update_dashboard_filter id body) (sdk.update_dashboard_filter id body)

/-- The call `this.sdk.ok(this.sdk.create_dashboard_filter(body))`. -/
def okCreateDashboardFilter (sdk : Sdk σ) (body : FilterData) : Op σ Unit :=
  Op.request (.create_dashboard_filter body) (sdk.create_dashboard_filter body)

end Sdk

/-! ## Fan-out: the callbacks of `Promise.all` -/

/-- A callback of a fan-out between two awaits: settled, with a value or an exception, or about
to issue a client call.  The call moves the client to the state `next` and is answered from the
state it was issued in; `resume` is the rest of the callback once that answer has arrived. -/
inductive Callback (σ α : Type) where
  | settled (result : Except String α)
  | calling (c : Call) (next : σ → σ) (resume : σ → Callback σ α)

namespace Callback

/-- Return a value. -/
def ret {σ α : Type} (a : α) : Callback σ α := .settled (.ok a)

/-- Sequencing: an exception of the first part skips the second. -/
def andThen {σ α β : Type} : Callback σ α → (α → Callback σ β) → Callback σ β
  | .settled (.ok a), f => f a
  | .settled (.error e), _ => .settled (.error e)
  | .calling c next resume, f => .calling c next (fun s => andThen (resume s) f)

/-- The statement `try { m } catch (error) { h error.message }`. -/
def tryCatch {σ α : Type} : Callback σ α → (String → Callback σ α) → Callback σ α
  | .settled (.ok a), _ => .settled (.ok a)
  | .settled (.error e), h => h e
  | .calling c next resume, h => .calling c next (fun s => tryCatch (resume s) h)

/-- The expression `await this.sdk.ok(this.sdk.method(args))` in a callback. -/
def request {σ α : Type} (c : Call) (answer : σ → Except String α × σ) : Callback σ α :=
  .calling c (fun s => (answer s).2) (fun s => .settled (answer s).1)

/-- One turn of the event loop over the callbacks of a fan-out, in the order of the list: a
callback about to issue a call issues it and waits for the next turn with the rest of its
code; a settled callback stays as it is. -/
def turn {σ α : Type} : List (Callback σ α) → World σ → List (Callback σ α) × World σ
  | [], w => ([], w)
  | .settled r :: rest, w => (.settled r :: (turn rest w).1, (turn rest w).2)
  | .calling c next resume :: rest, w =>
    (resume w.st :: (turn rest { st := next w.st, trace := w.trace ++ [c] }).1,
      (turn rest { st := next w.st, trace := w.trace ++ [c] }).2)

/-- The exception of the first callback of the list that has settled with one. -/
def firstRejection {σ α : Type} : List (Callback σ α) → Option String
  | [] => none
  | .settled (.error e) :: _ => some e
  | _ :: rest => firstRejection rest

/-- The values of the callbacks, when every one of them has settled with a value. -/
def values {σ α : Type} : List (Callback σ α) → Option (List α)
  | [] => some []
  | .settled (.ok a) :: rest => (values rest).map (fun vs => a :: vs)
  | _ :: _ => none

end Callback

instance {σ : Type} : Monad (Callback σ) where
  pure := Callback.ret
  bind := Callback.andThen

/-- The turns of the event loop after the callbacks have started; `rejected` is the first
exception so far.  When the turns are over, the promise of the fan-out holds the first
exception in time if a callback threw, and the values of the callbacks otherwise. -/
def Op.allTurns {σ α : Type} :
    Nat → List (Callback σ α) → Option String → World σ → Except String (List α) × World σ
  | 0, callbacks, rejected, w =>
    match rejected, Callback.values callbacks with
    | some e, _ => (.error e, w)
    | none, some vs => (.ok vs, w)
    | none, none => (.error "a callback never settled", w)
  | turns + 1, callbacks, rejected, w =>
    Op.allTurns turns (Callback.turn callbacks w).1
      (rejected.orElse (fun _ => Callback.firstRejection (Callback.turn callbacks w).1))
      (Callback.turn callbacks w).2

/-- The pattern `await Promise.all(xs.map(async (x) => ...))` for callbacks with at most
`awaits` awaits each.  The callbacks are started in the order of the list and each runs up to
its first call; the answers come back in the order of the calls, so turn after turn every
callback resumes in the order of the list and runs up to its next call.  The world left is the
one reached when every callback has settled. -/
def Op.all {σ α : Type} (awaits : Nat) (callbacks : List (Callback σ α)) : Op σ (List α) :=
  ⟨fun w => Op.allTurns awaits callbacks (Callback.firstRejection callbacks) w⟩

namespace Sdk

variable {σ : Type}

/-- The call `this.sdk.ok(this.sdk.create_query(body))` in a callback of a fan-out. -/
def awaitCreateQuery (sdk : Sdk σ) (body : Obj) : Callback σ Obj :=
  Callback.request (.create_query body) (sdk.create_query body)

/-- The call `this.sdk.ok(this.sdk.run_query({ query_id, result_format }))` in a callback of a
fan-out. -/
def awaitRunQuery (sdk : Sdk σ) (queryId : Json) (resultFormat : String) : Callback σ RunResult :=
  Callback.request (.run_query queryId resultFormat) (sdk.run_query queryId resultFormat)

end Sdk

variable {σ : Type}

/-! ## ensureDashboardCopyInFolder, saveDashboardCopy -/

/-- The callback of `dashboardsInFolder.find` in `ensureDashboardCopyInFolder`. -/
def isExistingCopy (folderId : JsVal) (copyTitle : String) (dashboard : Dashboard) : Bool :=
  if !dashboard.id.truthy || dashboard.deleted.truthy then false
  else
    let isSameFolder := dashboard.folder_id.toStr == folderId.toStr
    let titleMatches :=
      match dashboard.title with
      | .str t => normStr t == normStr copyTitle
      | _ => false
    isSameFolder && titleMatches

/-- The tail of `ensureDashboardCopyInFolder`: copy the original and rename the copy. -/
def copyAndRename (sdk : Sdk σ) (originalDashboardId folderId : JsVal) (copyTitle : String) :
    Op σ String := do
  let copiedDashboard ← sdk.okCopyDashboard originalDashboardId folderId
  if !copiedDashboard.id.truthy then
    Op.fail "Failed to copy dashboard: missing id"
  else do
    sdk.okUpdateDashboard copiedDashboard.id copyTitle
    pure copiedDashboard.id.toStr

/-- The method `ensureDashboardCopyInFolder(originalDashboardId, folderId, copyTitle)`. -/
def ensureDashboardCopyInFolder (sdk : Sdk σ) (originalDashboardId folderId : JsVal)
    (copyTitle : String) : Op σ String := do
  let dashboardsInFolder ← sdk.okSearchDashboards
    { folder_id := folderId, fields := some "id,title,folder_id,deleted", per_page := some 200 }
  match dashboardsInFolder.find? (isExistingCopy folderId copyTitle) with
  | some existingCopy =>
    if existingCopy.id.truthy then
      if existingCopy.title ≠ .str copyTitle then do
        sdk.okUpdateDashboard existingCopy.id copyTitle
        pure existingCopy.id.toStr
      else
        pure existingCopy.id.toStr
    else
      copyAndRename sdk originalDashboardId folderId copyTitle
  | none => copyAndRename sdk originalDashboardId folderId copyTitle

/-- The method `saveDashboardCopy(currentDashboardId, folderId, customName)`. -/
def saveDashboardCopy (sdk : Sdk σ) (currentDashboardId folderId : JsVal) (customName : String) :
    Op σ String := do
  let existingDashboards ← sdk.okSearchDashboards { folder_id := folderId, title := some customName }
  if existingDashboards.length > 0 then
    Op.fail ("A dashboard named \"" ++ customName ++ "\" already exists in the folder.")
  else do
    let copiedDashboard ← sdk.okCopyDashboard currentDashboardId folderId
    sdk.okUpdateDashboard copiedDashboard.id customName
    pure copiedDashboard.id.toStr

/-! ## getDashboardListForUI -/

/-- An entry of the list returned by `getDashboardListForUI`. -/
structure UiEntry where
  id : String
  title : JsVal
deriving DecidableEq, Repr

/-- The projection `{ id: String(dashboard.id), title: dashboard.title }`. -/
def uiEntry (dashboard : Dashboard) : UiEntry :=
  { id := dashboard.id.toStr, title := dashboard.title }

/-- The method `getDashboardListForUI(folderId, originalDashboardId)`. -/
def getDashboardListForUI (sdk : Sdk σ) (folderId originalDashboardId : JsVal) :
    Op σ (List UiEntry) := do
  let dashboardsInFolder ← sdk.okSearchDashboards { folder_id := folderId }
  let dashboards := (dashboardsInFolder.filter (fun dashboard => !dashboard.deleted.truthy)).map uiEntry
  if !originalDashboardId.truthy then
    pure dashboards
  else
    let isOriginalInList := dashboards.any (fun dashboard => dashboard.id == originalDashboardId.toStr)
    if isOriginalInList then
      pure dashboards
    else do
      let originalDashboard ← sdk.okDashboard originalDashboardId
      if !originalDashboard.id.truthy || !originalDashboard.title.truthy then
        pure dashboards
      else
        pure (dashboards ++ [uiEntry originalDashboard])

/-! ## findDashboardInNestedPath -/

/-- The argument `pathSegments`: an array of segments or a `/`-delimited string. -/
inductive PathArg where
  | arr (segments : List String)
  | str (path : String)

/-- The normalised segments `(Array.isArray(p) ? p : p.split('/')).map(trim, lower)`. -/
def pathParts : PathArg → List String
  | .arr segments => segments.map normStr
  | .str path => (splitSlash path).map normStr

/-- A callback `(x) => x.name?.trim().toLowerCase() === target` run by `find`: the first
element whose string name normalises to the target; a name that is neither a string nor
absent has no `trim` and throws `err`. -/
def findByNormName {α : Type} (nameOf : α → JsVal) (target err : String) :
    List α → Except String (Option α)
  | [] => .ok none
  | x :: xs =>
    match nameOf x with
    | .str n => if normStr n = target then .ok (some x) else findByNormName nameOf target err xs
    | .undefined => findByNormName nameOf target err xs
    | .null => findByNormName nameOf target err xs
    | _ => .error err

/-- The expression `xs.join(', ') || 'None'`. -/
def joinOrNone (xs : List String) : String :=
  if joinComma xs = "" then "None" else joinComma xs

/-- The loop `for (let i = 0; i < parts.length; i++)` of `findDashboardInNestedPath`, from
index `i` with the segments still to walk and the current folder id (`none` is `null`). -/
def walkFolders (sdk : Sdk σ) : Nat → List String → Option String → Op σ (Option String)
  | _, [], currentFolderId => pure currentFolderId
  | i, folderNameNorm :: rest, currentFolderId =>
    if i = 0 ∧ folderNameNorm = "shared" then do
      let me ← sdk.okMe
      if !me.home_folder_id.truthy then
        Op.fail "home_folder_id not found for current user"
      else
        walkFolders sdk (i + 1) rest (some me.home_folder_id.toStr)
    else do
      let parentFolderId := currentFolderId
      let folders ← sdk.okSearchFolders
        { parent_id := parentFolderId, name := some folderNameNorm,
          fields := some "id,name,parent_id", per_page := some 200 }
      let matchedFolder ← Op.ofExcept
        (findByNormName Folder.name folderNameNorm "f.name?.trim is not a function" folders)
      match matchedFolder with
      | none => do
        let siblings ← sdk.okSearchFolders
          { parent_id := parentFolderId, fields := some "id,name,parent_id", per_page := some 200 }
        let available := joinOrNone (siblings.map (fun f => joinStr f.name))
        Op.fail ("Folder \"" ++ folderNameNorm ++ "\" not found. Available: " ++ available)
      | some matchedFolder => walkFolders sdk (i + 1) rest (some matchedFolder.id.toStr)

/-- The end of `findDashboardInNestedPath`: from the dashboards `inFolder` found in the folder
reached, the one returned, or the error that lists the titles available. -/
def pickDashboard (sdk : Sdk σ) (currentFolderId dashboardTitle : String)
    (inFolder : List Dashboard) : Op σ String :=
  match inFolder with
  | [] => do
    let allInFolder ← sdk.okSearchDashboards
      { folder_id := .str currentFolderId, fields := some "id,title,folder_id,deleted",
        per_page := some 200 }
    let availableTitles := joinOrNone
      ((((allInFolder.filter (fun d => !d.deleted.truthy)).map (fun d => d.title)).filter
        JsVal.truthy).map joinStr)
    Op.fail ("Dashboard titled \"" ++ dashboardTitle ++ "\" not found in folder ID \"" ++
      currentFolderId ++ "\". Available: " ++ availableTitles)
  | first :: _ => do
    let exactMatch ← Op.ofExcept
      (findByNormName Dashboard.title (normStr dashboardTitle) "d.title?.trim is not a function"
        inFolder)
    let dashboard := exactMatch.getD first
    if !dashboard.id.truthy then
      Op.fail "Found dashboard has no ID"
    else
      pure dashboard.id.toStr

/-- The part of `findDashboardInNestedPath` after the folder walk: the dashboard search in
the folder reached, kept to the non-deleted dashboards of that folder. -/
def findDashboardInFolder (sdk : Sdk σ) (currentFolderId : String) (dashboardTitle : String) :
    Op σ String := do
  let dashboards ← sdk.okSearchDashboards
    { folder_id := .str currentFolderId, title := some (jsTrim dashboardTitle),
      fields := some "id,title,folder_id,deleted", per_page := some 200 }
  let inFolder := dashboards.filter
    (fun d => d.folder_id.toStr == currentFolderId && !d.deleted.truthy)
  pickDashboard sdk currentFolderId dashboardTitle inFolder

/-- The body of the `try` block of `findDashboardInNestedPath`. -/
def findDashboardBody (sdk : Sdk σ) (pathSegments : PathArg) (dashboardTitle : String) :
    Op σ String :=
  let parts := pathParts pathSegments
  if parts.length = 0 then
    Op.fail "Path is empty"
  else do
    let currentFolderId ← walkFolders sdk 0 parts none
    match currentFolderId with
    | none => Op.fail "Failed to resolve folder path: currentFolderId is null"
    | some folderId =>
      if folderId = "" then
        Op.fail "Failed to resolve folder path: currentFolderId is null"
      else
        findDashboardInFolder sdk folderId dashboardTitle

/-- The method `findDashboardInNestedPath(pathSegments, dashboardTitle)`: every exception of
the body is rethrown with the dashboard title in front. -/
def findDashboardInNestedPath (sdk : Sdk σ) (pathSegments : PathArg) (dashboardTitle : String) :
    Op σ String :=
  Op.tryCatch (findDashboardBody sdk pathSegments dashboardTitle)
    (fun errorMessage =>
      Op.fail ("Failed to locate dashboard \"" ++ dashboardTitle ++ "\": " ++ errorMessage))

/-! ## ensureTileListeners -/

/-- The key of a listener in `byKey`: the template of its filter name, `::` and its field. -/
def listenKey (listen : Listen) : String :=
  listen.dashboard_filter_name.toStr ++ "::" ++ listen.field.toStr

/-- The first loop: `byKey.set(key, listen)` for every current listener. -/
def seedListens (currentListens : List Listen) : List (String × Listen) :=
  currentListens.foldl (fun byKey listen => setKey byKey (listenKey listen) listen) []

/-- The second loop: a listener is added for a selected dimension whose key is absent. -/
def addDimensions (filterNameMap : Dict) (selectedFilterDimensions : List JsVal)
    (byKey : List (String × Listen)) : List (String × Listen) :=
  selectedFilterDimensions.foldl
    (fun byKey dimension =>
      let dashFilterName := (filterNameMap.get dimension.toStr).orElse dimension
      let key := dashFilterName.toStr ++ "::" ++ dimension.toStr
      if byKey.any (fun e => e.1 == key) then byKey
      else setKey byKey key { dashboard_filter_name := dashFilterName, field := dimension })
    byKey

/-- The list `Array.from(byKey.values())` computed for a tile. -/
def updatedListens (filterNameMap : Dict) (selectedFilterDimensions : List JsVal)
    (currentListens : List Listen) : List Listen :=
  (addDimensions filterNameMap selectedFilterDimensions (seedListens currentListens)).map Prod.snd

/-- The callback of `updatedListens.some`, position by position: a position without a current
listener, or with another filter name or field, is a difference. -/
def someDiffers : List Listen → List Listen → Bool
  | [], _ => false
  | _ :: _, [] => true
  | updated :: us, current :: cs =>
    (updated.dashboard_filter_name != current.dashboard_filter_name ||
      updated.field != current.field) || someDiffers us cs

/-- The flag `changed`. -/
def listensChanged (updated currentListens : List Listen) : Bool :=
  updated.length != currentListens.length || someDiffers updated currentListens

/-- The expression `element.result_maker?.filterables?.[0]`. -/
def firstFilterable (element : Element) : Option Filterable :=
  match element.result_maker with
  | none => none
  | some rm =>
    match rm.filterables with
    | none => none
    | some fs => fs.head?

/-- The body written for a tile: its result maker with the single filterable carrying the
updated listeners. -/
def listenPatch (element : Element) (filterable : Filterable) (updated : List Listen) :
    ElementPatch :=
  .result_maker
    { (element.result_maker.getD {}) with
      filterables := some [{ filterable with listen := some updated }] }

/-- The loop `for (const element of elements)` of `ensureTileListeners`. -/
def ensureTileListenersLoop (sdk : Sdk σ) (selectedFilterDimensions : List JsVal)
    (filterNameMap : Dict) : List Element → Op σ Unit
  | [] => pure ()
  | element :: rest =>
    match firstFilterable element with
    | none => ensureTileListenersLoop sdk selectedFilterDimensions filterNameMap rest
    | some filterable =>
      let currentListens := filterable.listen.getD []
      let updated := updatedListens filterNameMap selectedFilterDimensions currentListens
      if !listensChanged updated currentListens then
        ensureTileListenersLoop sdk selectedFilterDimensions filterNameMap rest
      else do
        sdk.okUpdateDashboardElement element.id (listenPatch element filterable updated)
        ensureTileListenersLoop sdk selectedFilterDimensions filterNameMap rest

/-- The method `ensureTileListeners(dashboardId, selectedFilterDimensions, filterNameMap)`. -/
def ensureTileListeners (sdk : Sdk σ) (dashboardId : JsVal) (selectedFilterDimensions : List JsVal)
    (filterNameMap : Dict) : Op σ Unit := do
  let elements ← sdk.okDashboardElements dashboardId
  ensureTileListenersLoop sdk selectedFilterDimensions filterNameMap elements

/-! ## updateDashboard -/

/-- The object `queryConfig` passed to `create_query`; `now` is `Date.now()`. -/
def buildQueryConfig (cfg : Config) (originalQuery : Obj) (selectedColumns : Json) (now : Int) :
    Obj :=
  let rest := dropKey (dropKey (dropKey originalQuery "id") "client_id") "slug"
  let queryConfig :=
    setKey (setKey rest "fields" selectedColumns) "client_id"
      (.val (.str ("custom_client_id_" ++ toString now)))
  if cfg.tileTitle.truthy then
    let base : Obj := if (objGet rest "vis_config").truthy then spreadProps (objGet rest "vis_config") else []
    setKey queryConfig "vis_config"
      (.obj
        (setKey
          (setKey
            (setKey (setKey base "type" (.val (.str "table"))) "column_order" selectedColumns)
            "show_row_numbers" (.val (.bool true)))
          "table_theme" (.val (.str "editable"))))
  else queryConfig

/-- The first filter loop: existing filters whose dimension is not selected are deleted. -/
def deleteUnselectedFilters (sdk : Sdk σ) (selectedFilterDimensions : List JsVal) :
    List DashboardFilter → Op σ Unit
  | [] => pure ()
  | filter :: rest =>
    if filter.dimension.truthy && !selectedFilterDimensions.contains filter.dimension then do
      sdk.okDeleteDashboardFilter filter.id
      deleteUnselectedFilters sdk selectedFilterDimensions rest
    else
      deleteUnselectedFilters sdk selectedFilterDimensions rest

/-- The object `filterData` built for a selected dimension. -/
def filterDataFor (cfg : Config) (currentDashboardId : JsVal) (filtersFromRequest filterNameMap : Dict)
    (dimension : JsVal) : FilterData :=
  let title := (filterNameMap.get dimension.toStr).orElse dimension
  let defaultValue :=
    if title.truthy then (filtersFromRequest.get title.toStr).orElse (.str "") else .str ""
  { dashboard_id := currentDashboardId
    title := title
    type := "field_filter"
    model := cfg.model
    explore := cfg.explore
    dimension := dimension
    row := 0
    allow_multiple_values := true
    required := false
    name := title
    default_value := defaultValue
    ui_config := [("display", .str "popover"), ("type", .str "advanced")]
    listens_to_filters := [] }

/-- The second filter loop: update the existing filter of a selected dimension or create one. -/
def upsertFilters (sdk : Sdk σ) (cfg : Config) (currentDashboardId : JsVal)
    (filtersFromRequest filterNameMap : Dict) (existingFilters : List DashboardFilter) :
    List JsVal → Op σ Unit
  | [] => pure ()
  | dimension :: rest => do
    let filterData := filterDataFor cfg currentDashboardId filtersFromRequest filterNameMap dimension
    match existingFilters.find? (fun existing => existing.dimension == dimension) with
    | some existing => sdk.okUpdateDashboardFilter existing.id filterData
    | none => sdk.okCreateDashboardFilter filterData
    upsertFilters sdk cfg currentDashboardId filtersFromRequest filterNameMap existingFilters rest

/-- The expression `tile.query_id || tile.result_maker?.query_id`. -/
def tileQueryId (tile : Element) : JsVal :=
  tile.query_id.orElse
    (match tile.result_maker with
     | some rm => rm.query_id
     | none => .undefined)

/-- The method `updateDashboard(currentDashboardId, originalDashboardId, selectedColumns,
selectedFilterDimensions, filtersFromRequest, filterNameMap)`; `now` is `Date.now()`. -/
def updateDashboard (sdk : Sdk σ) (cfg : Config) (now : Int)
    (currentDashboardId originalDashboardId : JsVal) (selectedColumns : Json)
    (selectedFilterDimensions : List JsVal) (filtersFromRequest filterNameMap : Dict) : Op σ Unit :=
  if currentDashboardId = originalDashboardId then
    Op.fail "Original dashboard cannot be updated"
  else do
    let dashboard ← sdk.okDashboard currentDashboardId
    let tile : Option Element :=
      match dashboard.dashboard_elements with
      | some elements => elements.find? (fun (element : Element) => element.title == cfg.tileTitle)
      | none => none
    match tile with
    | none => Op.fail "Tile not found or missing ID"
    | some tile =>
      if !tile.id.truthy then
        Op.fail "Tile not found or missing ID"
      else
        let queryId := tileQueryId tile
        if !queryId.truthy then
          Op.fail "No query_id found â€” tile has neither query_id nor result_maker.query_id"
        else do
          let originalQuery ← sdk.okQuery queryId
          let queryConfig := buildQueryConfig cfg originalQuery selectedColumns now
          let newQuery ← sdk.okCreateQuery queryConfig
          sdk.okUpdateDashboardElement tile.id (.query_id (objGet newQuery "id"))
          let existingFilters := dashboard.dashboard_filters.getD []
          deleteUnselectedFilters sdk selectedFilterDimensions existingFilters
          upsertFilters sdk cfg currentDashboardId filtersFromRequest filterNameMap existingFilters
            selectedFilterDimensions
          ensureTileListeners sdk currentDashboardId selectedFilterDimensions filterNameMap

/-! ## getFilterValues -/

/-- An entry of the result of `getFilterValues`. -/
structure FilterValues where
  dimension : JsVal
  values : List String
deriving DecidableEq, Repr

/-- The object `queryConfig` of `getFilterValues` for a dimension. -/
def filterValuesQuery (cfg : Config) (dimension selectedMeasure : JsVal) : Obj :=
  let measureToUse := selectedMeasure.orElse (.str "count")
  let queryConfig : Obj :=
    [("model", .val cfg.model), ("view", .val cfg.explore),
     ("fields", .arr [.val dimension, .val measureToUse]),
     ("sorts", .arr [.val (.str (measureToUse.toStr ++ " desc"))]),
     ("limit", .val (.num 300))]
  if cfg.baseFilters.truthy then setKey queryConfig "filters" cfg.baseFilters else queryConfig

/-- The pair `{ value: String(row[dimension]), count: Number(row[measure]) || 0 }`. -/
def valueAndCount (dimension selectedMeasure : JsVal) (row : Dict) : String × JsNumber :=
  ((row.get dimension.toStr).toStr,
    numberOr (row.get (selectedMeasure.orElse (.str "count")).toStr) 0)

/-- The template `value (count)`. -/
def formatValue (vc : String × JsNumber) : String := vc.1 ++ " (" ++ vc.2.toStr ++ ")"

/-- The list `formattedValues` computed from the answer of `run_query`. -/
def formatFilterValues (cfg : Config) (dimension selectedMeasure : JsVal) (queryResult : RunResult) :
    List String :=
  let parsedValues : List Dict :=
    match queryResult with
    | .rows rs => rs
    | _ => []
  let allValues :=
    (parsedValues.map (valueAndCount dimension selectedMeasure)).filter (fun vc => vc.1 != "null")
  sliceTo ((allValues.map formatValue).filter (fun value => value != "null (0)"))
    (numberOr cfg.limitResults 5)

/-- The callback of `dimensions.map` in `getFilterValues`. -/
def filterValuesFor (sdk : Sdk σ) (cfg : Config) (selectedMeasure dimension : JsVal) :
    Callback σ FilterValues :=
  if !dimension.truthy then
    pure { dimension := dimension, values := [] }
  else
    Callback.tryCatch
      (do
        let query ← sdk.awaitCreateQuery (filterValuesQuery cfg dimension selectedMeasure)
        let queryResult ← sdk.awaitRunQuery (objGet query "id") "json"
        pure { dimension := dimension,
               values := formatFilterValues cfg dimension selectedMeasure queryResult })
      (fun _ => pure { dimension := dimension, values := [] })

/-- The method `getFilterValues(dimensions, selectedMeasure)`; a callback has two awaits. -/
def getFilterValues (sdk : Sdk σ) (cfg : Config) (dimensions : List JsVal) (selectedMeasure : JsVal) :
    Op σ (List FilterValues) :=
  Op.all 2 (dimensions.map (filterValuesFor sdk cfg selectedMeasure))

/-! ## getDateRangeCounts -/

/-- An entry of the result of `getDateRangeCounts`. -/
structure DateRangeCounts where
  dimension : JsVal
  counts : List (String × JsNumber)
deriving DecidableEq, Repr

/-- The constant `rangeOptions`. -/
def rangeOptions : List String :=
  ["last 1 month", "last 4 months", "last 1 year", "last 2 years", "last 5 years"]

/-- The expression `queryResult[0]?.[key]`; reading index `0` of `null` or `undefined`
throws. -/
def firstCell (queryResult : RunResult) (key : String) : Except String JsVal :=
  match queryResult with
  | .rows (row :: _) => .ok (row.get key)
  | .rows [] => .ok .undefined
  | .other => .ok .undefined
  | .nothing => .error "Cannot read properties of undefined (reading 0)"

/-- The body of the loop over `rangeOptions`: the count of one range, `0` when anything in
the `try` block throws. -/
def countForRange (sdk : Sdk σ) (cfg : Config) (selectedMeasure : JsVal) (dimension range : String) :
    Callback σ JsNumber :=
  Callback.tryCatch
    (do
      let query ← sdk.awaitCreateQuery
        [("model", .val cfg.model), ("view", .val cfg.explore),
         ("fields", .arr [.val (selectedMeasure.orElse (.str "count"))]),
         ("filters", .obj [(dimension, .val (.str range))]),
         ("limit", .val (.str "1"))]
      let queryResult ← sdk.awaitRunQuery (objGet query "id") "json"
      let cell ← Callback.settled (firstCell queryResult (selectedMeasure.orElse (.str "count")).toStr)
      let count := cell.orElse (.num 0)
      pure (jsNumber count))
    (fun _ => pure (.fin 0))

/-- The loop `for (const range of rangeOptions)` filling `counts`. -/
def countRanges (sdk : Sdk σ) (cfg : Config) (selectedMeasure : JsVal) (dimension : String) :
    List String → List (String × JsNumber) → Callback σ (List (String × JsNumber))
  | [], counts => pure counts
  | range :: rest, counts => do
    let count ← countForRange sdk cfg selectedMeasure dimension range
    countRanges sdk cfg selectedMeasure dimension rest (setKey counts range count)

/-- The callback of `dimensions.map` in `getDateRangeCounts`. -/
def dateRangeCountsFor (sdk : Sdk σ) (cfg : Config) (selectedMeasure dimension : JsVal) :
    Callback σ DateRangeCounts :=
  if !dimension.truthy then
    pure { dimension := dimension, counts := [] }
  else
    match dimension with
    | .str name =>
      let isDateField := jsIncludes (jsLower name) "date"
      if !isDateField then
        pure { dimension := dimension, counts := [] }
      else do
        let counts ← countRanges sdk cfg selectedMeasure name rangeOptions []
        pure { dimension := dimension, counts := counts }
    | _ => Callback.settled (.error "dimension.toLowerCase is not a function")

/-- The method `getDateRangeCounts(dimensions, selectedMeasure)`.  The value `latestDate` is
computed by the source and not used afterwards; only the calls and the exception of its
computation are kept.  A callback of the fan-out has two awaits for each of the five ranges. -/
def getDateRangeCounts (sdk : Sdk σ) (cfg : Config) (dimensions : List JsVal)
    (selectedMeasure : JsVal) : Op σ (List DateRangeCounts) :=
  if !cfg.dateField.truthy then
    pure (dimensions.map (fun dimension => { dimension := dimension, counts := [] }))
  else do
    let latestDateQuery ← sdk.okCreateQuery
      [("model", .val cfg.model), ("view", .val cfg.explore),
       ("fields", .arr [.val cfg.dateField]),
       ("sorts", .arr [.val (.str (cfg.dateField.toStr ++ " desc"))]),
       ("limit", .val (.str "1"))]
    let latestDateResult ← sdk.okRunQuery (objGet latestDateQuery "id") "json"
    let _ ← Op.ofExcept (firstCell latestDateResult cfg.dateField.toStr)
    Op.all 10 (dimensions.map (dateRangeCountsFor sdk cfg selectedMeasure))

/-! ## The constructor and createService -/

/-- A service object: the client handle and the configuration object it was constructed
with. -/
structure Service (σ : Type) where
  sdk : Sdk σ
  config : Obj

/-- The constructor `new DashboardService(sdk, config = {})`.  A handle of `none` is a falsy
`sdk` (`null`, `undefined`); a configuration of `none` is an omitted argument. -/
def newDashboardService (sdk : Option (Sdk σ)) (config : Option Obj) : Except String (Service σ) :=
  match sdk with
  | none => .error "Looker SDK instance is required to use DashboardService."
  | some handle => .ok { sdk := handle, config := config.getD [] }

/-- The function `parseConfigFromQuery(query)` of `routes.js`; `jsonParse` is `JSON.parse` and
`query = none` is a `null` or `undefined` query. -/
def parseConfigFromQuery (jsonParse : String → Except String Json) (query : Option Obj) :
    Except String Json :=
  let config : Json :=
    match query with
    | some q => objGet q "config"
    | none => .val .undefined
  if !config.truthy then
    .ok (.obj [])
  else
    match config with
    | .val (.str text) =>
      match jsonParse text with
      | .ok parsed => .ok parsed
      | .error _ => .error "Invalid config value. Expected JSON string."
    | other => .ok other

/-- The function `createService(sdk, query, overrides = {})` of `routes.js`: the service is
constructed with `{ ...config, ...overrides }`. -/
def createService (jsonParse : String → Except String Json) (sdk : Option (Sdk σ))
    (query : Option Obj) (overrides : Obj) : Except String (Service σ) :=
  match parseConfigFromQuery jsonParse query with
  | .error e => .error e
  | .ok config =>
    newDashboardService sdk (some (spreadOver (spreadOver [] (spreadProps config)) overrides))

/-! ## getDashboardTilesWithResults -/

/-- An entry of `tiles` in the result of `getDashboardTilesWithResults`. -/
structure TileResult where
  title : String
  query_id : String
  data : List Dict
deriving DecidableEq, Repr

/-- The result of `getDashboardTilesWithResults`: the fields of `dashboard` and the tiles. -/
structure TilesWithResults where
  id : String
  title : JsVal
  description : JsVal
  tiles : List TileResult
deriving DecidableEq, Repr

/-- The expression `tile?.query?.vis_config?.type || tile.result_maker?.vis_config?.type`. -/
def tileVisType (tile : Element) : JsVal :=
  tile.query_vis_type.orElse
    (match tile.result_maker with
     | some rm => rm.vis_type
     | none => .undefined)

/-- The test `!queryId || visConfigType === 'looker_grid' || visConfigType === 'table'`. -/
def tileSkipped (tile : Element) : Bool :=
  !(tileQueryId tile).truthy || tileVisType tile == .str "looker_grid" ||
    tileVisType tile == .str "table"

/-- The object passed to `create_query` for a tile: the attributes of the original query, with
`filters` the original filters overridden by `finalFilters`. -/
def tileQueryBody (originalQuery finalFilters : Obj) : Obj :=
  [("model", objGet originalQuery "model"),
   ("view", objGet originalQuery "view"),
   ("fields", objGet originalQuery "fields"),
   ("filters",
     .obj (spreadOver (spreadOver [] (spreadProps (objGet originalQuery "filters"))) finalFilters)),
   ("sorts", objGet originalQuery "sorts"),
   ("limit", objGet originalQuery "limit"),
   ("column_limit", objGet originalQuery "column_limit"),
   ("pivots", objGet originalQuery "pivots"),
   ("total", objGet originalQuery "total"),
   ("row_total", objGet originalQuery "row_total"),
   ("dynamic_fields", objGet originalQuery "dynamic_fields"),
   ("filter_expression", objGet originalQuery "filter_expression"),
   ("vis_config", objGet originalQuery "vis_config")]

/-- The `try` block of the loop of `getDashboardTilesWithResults` for a tile that is not
skipped: the entry pushed, or `none` when a call throws. -/
def tileStep (sdk : Sdk σ) (finalFilters : Obj) (tile : Element) : Op σ (Option TileResult) :=
  let queryId := tileQueryId tile
  Op.tryCatch
    (do
      let originalQuery ← sdk.okQuery queryId
      let newQuery ← sdk.okCreateQuery (tileQueryBody originalQuery finalFilters)
      let queryResult ← sdk.okRunQuery (objGet newQuery "id") "json"
      pure (some
        { title := if tile.title.truthy then tile.title.toStr else "Tile " ++ tile.id.toStr
          query_id := queryId.toStr
          data :=
            match queryResult with
            | .rows rs => rs
            | _ => [] }))
    (fun _ => pure none)

/-- The loop `for (const tile of dashboard.dashboard_elements || [])`, with the entries pushed
so far. -/
def tilesLoop (sdk : Sdk σ) (finalFilters : Obj) :
    List Element → List TileResult → Op σ (List TileResult)
  | [], tilesWithResults => pure tilesWithResults
  | tile :: rest, tilesWithResults =>
    if tileSkipped tile then
      tilesLoop sdk finalFilters rest tilesWithResults
    else do
      let pushed ← tileStep sdk finalFilters tile
      match pushed with
      | some entry => tilesLoop sdk finalFilters rest (tilesWithResults ++ [entry])
      | none => tilesLoop sdk finalFilters rest tilesWithResults

/-- The object returned by `getDashboardTilesWithResults` for a dashboard and its tiles. -/
def tilesResult (dashboard : Dashboard) (dashboardId : JsVal) (tiles : List TileResult) :
    TilesWithResults :=
  { id := (dashboard.id.coalesce dashboardId).toStr
    title := dashboard.title.coalesce (.str "")
    description := dashboard.description.coalesce .undefined
    tiles := tiles }

/-- The method `getDashboardTilesWithResults(dashboardId, finalFilters = {})`. -/
def getDashboardTilesWithResults (sdk : Sdk σ) (dashboardId : JsVal) (finalFilters : Obj) :
    Op σ TilesWithResults := do
  let dashboard ← sdk.okDashboard dashboardId
  let tiles ← tilesLoop sdk finalFilters (dashboard.dashboard_elements.getD []) []
  pure (tilesResult dashboard dashboardId tiles)

/-! ## getDefaultColumnsAndFilterNameMap -/

/-- The result of `getDefaultColumnsAndFilterNameMap`. -/
structure DefaultsResult where
  default_columns : Json
  filterNameMap : Dict

/-- Equality as a `Set` sees it: scalars by value; two arrays or objects are never the same
element. -/
def jsonSameValue : Json → Json → Bool
  | .val a, .val b => a == b
  | _, _ => false

/-- The array `[...new Set(xs)]`: the first occurrence of every element, in order. -/
def dedupe : List Json → List Json
  | [] => []
  | x :: xs => x :: (dedupe xs).filter (fun y => !jsonSameValue x y)

/-- The expression `tile?.query_id ?? tile?.result_maker?.query_id`. -/
def defaultsQueryId (tile : Element) : JsVal :=
  tile.query_id.coalesce
    (match tile.result_maker with
     | some rm => rm.query_id
     | none => .undefined)

/-- The object `filterNameMap` filled by `listens.forEach`. -/
def listenNameMap (listens : List Listen) : Dict :=
  listens.foldl
    (fun m l =>
      if l.field.truthy && l.dashboard_filter_name.truthy then
        setKey m l.field.toStr l.dashboard_filter_name
      else m)
    []

/-- The value `defaultColumns`: `originalQuery.fields || []`, passed through a `Set` when a tile
title is configured; a truthy value that cannot be iterated throws. -/
def defaultColumns (cfg : Config) (originalQuery : Obj) : Except String Json :=
  let fields : Json :=
    if (objGet originalQuery "fields").truthy then objGet originalQuery "fields" else .arr []
  if cfg.tileTitle.truthy then
    match fields with
    | .arr xs => .ok (.arr (dedupe xs))
    | .val (.str s) =>
      .ok (.arr (dedupe (s.data.map (fun c => Json.val (.str (String.singleton c))))))
    | _ => .error "object is not iterable"
  else .ok fields

/-- The method `getDefaultColumnsAndFilterNameMap(dashboardId, tileTitle)`; an omitted
`tileTitle` is `undefined`, and a `listen` that is not an array is read as an absent one. -/
def getDefaultColumnsAndFilterNameMap (sdk : Sdk σ) (cfg : Config) (dashboardId tileTitle : JsVal) :
    Op σ DefaultsResult := do
  let dashboard ← sdk.okDashboard dashboardId
  let targetTitle := tileTitle.orElse cfg.tileTitle
  let tile : Option Element :=
    match dashboard.dashboard_elements with
    | some elements => elements.find? (fun (element : Element) => element.title == targetTitle)
    | none => none
  match tile with
  | none => Op.fail ("Tile with title \"" ++ targetTitle.toStr ++ "\" not found in dashboard")
  | some tile =>
    let queryId := defaultsQueryId tile
    if !queryId.truthy then
      Op.fail ("No query_id found for tile titled \"" ++ tileTitle.toStr ++ "\"")
    else do
      let originalQuery ← sdk.okQuery queryId
      let listens : List Listen :=
        match firstFilterable tile with
        | some filterable => filterable.listen.getD []
        | none => []
      let filterNameMap := listenNameMap listens
      let columns ← Op.ofExcept (defaultColumns cfg originalQuery)
      pure { default_columns := columns, filterNameMap := filterNameMap }

/-! ## The schedule of getFilterValues -/

/-- The client state after the `create_query` calls of a batch issued from the state `s`: one
call for each truthy dimension, in the order of the list. -/
def afterCreates (sdk : Sdk σ) (cfg : Config) (selectedMeasure : JsVal) : List JsVal → σ → σ
  | [], s => s
  | dimension :: rest, s =>
    if dimension.truthy then
      afterCreates sdk cfg selectedMeasure rest
        (sdk.create_query (filterValuesQuery cfg dimension selectedMeasure) s).2
    else afterCreates sdk cfg selectedMeasure rest s

/-- The client state after the `run_query` calls of a batch whose `create_query` calls were
issued from the state `created`, the `run_query` calls being issued from the state `s`: one
call for each truthy dimension whose query was created, in the order of the list. -/
def afterRuns (sdk : Sdk σ) (cfg : Config) (selectedMeasure : JsVal) : List JsVal → σ → σ → σ
  | [], _, s => s
  | dimension :: rest, created, s =>
    if dimension.truthy then
      match (sdk.create_query (filterValuesQuery cfg dimension selectedMeasure) created).1 with
      | .ok query =>
        afterRuns sdk cfg selectedMeasure rest
          (sdk.create_query (filterValuesQuery cfg dimension selectedMeasure) created).2
          (sdk.run_query (objGet query "id") "json" s).2
      | .error _ =>
        afterRuns sdk cfg selectedMeasure rest
          (sdk.create_query (filterValuesQuery cfg dimension selectedMeasure) created).2 s
    else afterRuns sdk cfg selectedMeasure rest created s

/-- The `create_query` calls of a batch: one for each truthy dimension, in order. -/
def createCalls (cfg : Config) (selectedMeasure : JsVal) (dimensions : List JsVal) : List Call :=
  (dimensions.filter JsVal.truthy).map
    (fun dimension => Call.create_query (filterValuesQuery cfg dimension selectedMeasure))

/-- The `run_query` calls of a batch whose `create_query` calls were issued from the state
`created`: one for each truthy dimension whose query was created, in order. -/
def runCalls (sdk : Sdk σ) (cfg : Config) (selectedMeasure : JsVal) : List JsVal → σ → List Call
  | [], _ => []
  | dimension :: rest, created =>
    if dimension.truthy then
      match (sdk.create_query (filterValuesQuery cfg dimension selectedMeasure) created).1 with
      | .ok query =>
        Call.run_query (objGet query "id") "json" ::
          runCalls sdk cfg selectedMeasure rest
            (sdk.create_query (filterValuesQuery cfg dimension selectedMeasure) created).2
      | .error _ =>
        runCalls sdk cfg selectedMeasure rest
          (sdk.create_query (filterValuesQuery cfg dimension selectedMeasure) created).2
    else runCalls sdk cfg selectedMeasure rest created

/-- The values of a dimension from the answers to its own two calls: none when the dimension
is falsy, when its query is not created or when its query is not run, and otherwise the values
formatted from the result of its run. -/
def valuesFrom (cfg : Config) (selectedMeasure dimension : JsVal)
    (created : Except String Obj) (ran : Obj → Except String RunResult) : List String :=
  if !dimension.truthy then []
  else
    match created with
    | .error _ => []
    | .ok query =>
      match ran query with
      | .error _ => []
      | .ok queryResult => formatFilterValues cfg dimension selectedMeasure queryResult

/-- The entries of a batch whose `create_query` calls are issued from the state `created` and
whose `run_query` calls are issued from the state `s`. -/
def batchEntries (sdk : Sdk σ) (cfg : Config) (selectedMeasure : JsVal) :
    List JsVal → σ → σ → List FilterValues
  | [], _, _ => []
  | dimension :: rest, created, s =>
    { dimension := dimension,
      values := valuesFrom cfg selectedMeasure dimension
        (sdk.create_query (filterValuesQuery cfg dimension selectedMeasure) created).1
        (fun query => (sdk.run_query (objGet query "id") "json" s).1) } ::
      batchEntries sdk cfg selectedMeasure rest (afterCreates sdk cfg selectedMeasure [dimension] created)
        (afterRuns sdk cfg selectedMeasure [dimension] created s)

/-- The callback of a truthy dimension once its `create_query` call, issued in the state
`created`, is answered: settled without values when the query is not created, about to run the
query otherwise. -/
def afterCreate (sdk : Sdk σ) (cfg : Config) (selectedMeasure dimension : JsVal) (created : σ) :
    Callback σ FilterValues :=
  match (sdk.create_query (filterValuesQuery cfg dimension selectedMeasure) created).1 with
  | .error _ => .settled (.ok { dimension := dimension, values := [] })
  | .ok query =>
    .calling (.run_query (objGet query "id") "json")
      (fun s => (sdk.run_query (objGet query "id") "json" s).2)
      (fun s => .settled (.ok
        { dimension := dimension,
          values :=
            match (sdk.run_query (objGet query "id") "json" s).1 with
            | .error _ => []
            | .ok queryResult => formatFilterValues cfg dimension selectedMeasure queryResult }))

/-- The callbacks of a batch after the first turn, the `create_query` calls having been issued
from the state `created`. -/
def afterFirstTurn (sdk : Sdk σ) (cfg : Config) (selectedMeasure : JsVal) :
    List JsVal → σ → List (Callback σ FilterValues)
  | [], _ => []
  | dimension :: rest, created =>
    if dimension.truthy then
      afterCreate sdk cfg selectedMeasure dimension created ::
        afterFirstTurn sdk cfg selectedMeasure rest
          (sdk.create_query (filterValuesQuery cfg dimension selectedMeasure) created).2
    else
      .settled (.ok { dimension := dimension, values := [] }) ::
        afterFirstTurn sdk cfg selectedMeasure rest created

/-! ## What the client holds after a call of ensureTileListeners -/

/-- The tile `stored` is how the client holds `element` once a call of `ensureTileListeners`
with these inputs has gone through: a tile without filterable still has none; otherwise the
listeners of its first filterable are the list that call wrote, or the list it found when it
wrote nothing. -/
def StoredAfter (selectedFilterDimensions : List JsVal) (filterNameMap : Dict)
    (element stored : Element) : Prop :=
  match firstFilterable element with
  | none => firstFilterable stored = none
  | some filterable =>
    ∃ kept, firstFilterable stored = some kept ∧
      kept.listen.getD [] =
        if listensChanged
            (updatedListens filterNameMap selectedFilterDimensions (filterable.listen.getD []))
            (filterable.listen.getD [])
        then updatedListens filterNameMap selectedFilterDimensions (filterable.listen.getD [])
        else filterable.listen.getD []

/-- Every key of the map `byKey` is the key of its listener, and no key occurs twice. -/
def WellKeyed (byKey : List (String × Listen)) : Prop :=
  (byKey.map Prod.fst).Nodup ∧ ∀ e ∈ byKey, e.1 = listenKey e.2

/-! ## The folder walk, as the specification words it -/

/-- The search for the child folders of `parent` named `name`. -/
abbrev childSearch (parent : Option String) (name : String) : FolderSearch :=
  { parent_id := parent, name := some name, fields := some "id,name,parent_id",
    per_page := some 200 }

/-- The search for all the child folders of `parent`. -/
abbrev siblingSearch (parent : Option String) : FolderSearch :=
  { parent_id := parent, fields := some "id,name,parent_id", per_page := some 200 }

/-- The search for the dashboards titled `title` in `folder`. -/
abbrev titleSearch (folder : String) (title : String) : DashboardSearch :=
  { folder_id := .str folder, title := some (jsTrim title),
    fields := some "id,title,folder_id,deleted", per_page := some 200 }

/-- The name `v` of a folder is absent, or a string other than `segment` once trimmed and
lower-cased. -/
def NameDiffers (segment : String) (v : JsVal) : Prop :=
  v = .undefined ∨ v = .null ∨ ∃ m, v = .str m ∧ normStr m ≠ segment

/-- A successful walk of normalised segments, from position `i` of the path, client state `s`
and current folder `cur`; it lists the calls issued and ends in a client state and a folder.
At position `0` the segment `shared` is the home folder of the current user; any other segment
is the first folder, among those the client returns for the current parent, whose trimmed
lower-cased name is the segment. -/
inductive Walk (sdk : Sdk σ) :
    Nat → σ → Option String → List String → List Call → σ → Option String → Prop where
  | done (i : Nat) (s : σ) (cur : Option String) : Walk sdk i s cur [] [] s cur
  | home (s s1 s2 : σ) (cur fin : Option String) (user : User) (rest : List String)
      (calls : List Call) :
      sdk.me s = (.ok user, s1) → user.home_folder_id.truthy = true →
      Walk sdk 1 s1 (some user.home_folder_id.toStr) rest calls s2 fin →
      Walk sdk 0 s cur ("shared" :: rest) (Call.me :: calls) s2 fin
  | child (i : Nat) (s s1 s2 : σ) (cur fin : Option String) (segment : String)
      (rest : List String) (pre post : List Folder) (f : Folder) (n : String)
      (calls : List Call) :
      ¬ (i = 0 ∧ segment = "shared") →
      sdk.search_folders (childSearch cur segment) s = (.ok (pre ++ f :: post), s1) →
      (∀ g ∈ pre, NameDiffers segment g.name) →
      f.name = .str n → normStr n = segment →
      Walk sdk (i + 1) s1 (some f.id.toStr) rest calls s2 fin →
      Walk sdk i s cur (segment :: rest) (Call.search_folders (childSearch cur segment) :: calls)
        s2 fin

/-- Whether a call is a dashboard search. -/
def Call.isDashboardSearch : Call → Bool
  | .search_dashboards _ => true
  | _ => false

/-- An operation only adds calls to the trace. -/
def Op.Grows {α : Type} (m : Op σ α) : Prop :=
  ∀ w, ∃ tail, (m.run w).2.trace = w.trace ++ tail

/-! ## Clients used by the concrete instances -/

/-- A client whose every call fails. -/
def deadSdk : Sdk Unit where
  me := fun s => (.error "unavailable", s)
  search_folders := fun _ s => (.error "unavailable", s)
  search_dashboards := fun _ s => (.error "unavailable", s)
  copy_dashboard := fun _ _ s => (.error "unavailable", s)
  update_dashboard := fun _ _ s => (.error "unavailable", s)
  dashboard := fun _ s => (.error "unavailable", s)
  dashboard_dashboard_elements := fun _ s => (.error "unavailable", s)
  update_dashboard_element := fun _ _ s => (.error "unavailable", s)
  query := fun _ s => (.error "unavailable", s)
  create_query := fun _ s => (.error "unavailable", s)
  run_query := fun _ _ s => (.error "unavailable", s)
  delete_dashboard_filter := fun _ s => (.error "unavailable", s)
  update_dashboard_filter := fun _ _ s => (.error "unavailable", s)
  create_dashboard_filter := fun _ s => (.error "unavailable", s)

/-- The world before any call. -/
def startWorld : World Unit := { st := (), trace := [] }

/-- Fixed answers for a scripted client. -/
structure Script where
  user : User := {}
  folders : FolderSearch → List Folder := fun _ => []
  dashboards : DashboardSearch → List Dashboard := fun _ => []
  dashboard : JsVal → Except String Dashboard := fun _ => .error "Not found"
  copied : Dashboard := { id := .undefined }
  elements : List Element := []
  query : Obj := []
  created : Obj := []
  result : RunResult := .rows []

/-- A client that answers every call from a script and keeps no state. -/
def scriptedSdk (sc : Script) : Sdk Unit where
  me := fun s => (.ok sc.user, s)
  search_folders := fun req s => (.ok (sc.folders req), s)
  search_dashboards := fun req s => (.ok (sc.dashboards req), s)
  copy_dashboard := fun _ _ s => (.ok sc.copied, s)
  update_dashboard := fun _ _ s => (.ok (), s)
  dashboard := fun id s => (sc.dashboard id, s)
  dashboard_dashboard_elements := fun _ s => (.ok sc.elements, s)
  update_dashboard_element := fun _ _ s => (.ok (), s)
  query := fun _ s => (.ok sc.query, s)
  create_query := fun _ s => (.ok sc.created, s)
  run_query := fun _ _ s => (.ok sc.result, s)
  delete_dashboard_filter := fun _ s => (.ok (), s)
  update_dashboard_filter := fun _ _ s => (.ok (), s)
  create_dashboard_filter := fun _ s => (.ok (), s)

/-- A folder listing: a deleted namesake, a dashboard without id, the live copy, a later
namesake. -/
def copyFolderListing : List Dashboard :=
  [{ id := .num 5, title := .str "My Copy", folder_id := .str "12", deleted := .bool true },
   { id := .num 0, title := .str "My Copy", folder_id := .str "12" },
   { id := .num 7, title := .str " my COPY ", folder_id := .str "12", deleted := .bool false },
   { id := .num 8, title := .str "My Copy", folder_id := .str "12" }]

/-- The query client of the filter-value example: rows `East/10` and `West/0`. -/
def regionSdk : Sdk Unit :=
  scriptedSdk
    { created := [("id", .val (.num 1))]
      result := .rows [[("region", .str "East"), ("count", .num 10)],
                       [("region", .str "West"), ("count", .num 0)]] }

/-- A query client whose rows include a null-valued one. -/
def nullRowSdk : Sdk Unit :=
  scriptedSdk
    { created := [("id", .val (.num 1))]
      result := .rows [[("region", .str "East"), ("count", .num 10)],
                       [("region", .null), ("count", .num 4)],
                       [("region", .str "West"), ("count", .num 0)]] }

/-- A client that keeps the tiles of one dashboard: it lists them and stores the result maker
written to the tile of a given id. -/
def memorySdk : Sdk (List Element) :=
  { me := fun s => (.error "unavailable", s)
    search_folders := fun _ s => (.error "unavailable", s)
    search_dashboards := fun _ s => (.error "unavailable", s)
    copy_dashboard := fun _ _ s => (.error "unavailable", s)
    update_dashboard := fun _ _ s => (.error "unavailable", s)
    dashboard := fun _ s => (.error "unavailable", s)
    dashboard_dashboard_elements := fun _ s => (.ok s, s)
    update_dashboard_element := fun id body s =>
      (.ok (), s.map (fun e =>
        if e.id = id then
          match body with
          | .result_maker rm => { e with result_maker := some rm }
          | .query_id _ => e
        else e))
    query := fun _ s => (.error "unavailable", s)
    create_query := fun _ s => (.error "unavailable", s)
    run_query := fun _ _ s => (.error "unavailable", s)
    delete_dashboard_filter := fun _ s => (.error "unavailable", s)
    update_dashboard_filter := fun _ _ s => (.error "unavailable", s)
    create_dashboard_filter := fun _ s => (.error "unavailable", s) }

/-- Two tiles: one listening to `Region` twice and one without result maker. -/
def listenerTiles : List Element :=
  [{ id := .num 1,
     result_maker := some
       { filterables := some
           [{ listen := some
                [{ dashboard_filter_name := .str "Region", field := .str "orders.region" },
                 { dashboard_filter_name := .str "Region", field := .str "orders.region" }] }] } },
   { id := .num 2 }]

/-- A folder with two live dashboards and a deleted one; dashboard `42` lives elsewhere. -/
def listingSdk : Sdk Unit :=
  scriptedSdk
    { dashboards := fun _ =>
        [{ id := .num 1, title := .str "Sales" },
         { id := .num 2, title := .str "Old", deleted := .bool true },
         { id := .num 3, title := .str "Ops" }]
      dashboard := fun _ => .ok { id := .num 42, title := .str "Master" } }

/-- A folder with one dashboard; the dashboard fetched directly has an empty title. -/
def untitledOriginalSdk : Sdk Unit :=
  scriptedSdk
    { dashboards := fun _ => [{ id := .num 1, title := .str "Sales" }]
      dashboard := fun _ => .ok { id := .str "42", title := .str "" } }

/-- An empty folder; the dashboard fetched directly is soft-deleted. -/
def deletedOriginalSdk : Sdk Unit :=
  scriptedSdk
    { dashboards := fun _ => []
      dashboard := fun _ =>
        .ok { id := .str "7", title := .str "Old report", deleted := .bool true } }

/-- A folder whose only dashboard is a soft-deleted one titled `Q3`; copies get id `900`. -/
def deletedNamesakeSdk : Sdk Unit :=
  scriptedSdk
    { dashboards := fun _ =>
        [{ id := .num 5, title := .str "Q3", folder_id := .str "12", deleted := .bool true }]
      copied := { id := .num 900 } }

/-- The folder tree of the path examples: the home folder `100` holds `Alpha` and ` A `, the
folder ` A ` (id `200`) holds `B` and `C`, and `B` (id `300`) holds the dashboard `Report X`. -/
def pathSdk : Sdk Unit :=
  scriptedSdk
    { user := { home_folder_id := .num 100 }
      folders := fun req =>
        match req.parent_id, req.name with
        | some "100", some "a" =>
          [{ id := .num 150, name := .str "Alpha" }, { id := .num 200, name := .str " A " }]
        | some "200", some "b" => [{ id := .num 300, name := .str "B" }]
        | some "200", none =>
          [{ id := .num 300, name := .str "B" }, { id := .num 301, name := .str "C" }]
        | _, _ => []
      dashboards := fun _ =>
        [{ id := .num 7, title := .str "Report X", folder_id := .str "300" }] }

/-- A stand-in for `JSON.parse` that knows one text, the object
`folderName: Reports, limitResults: 5`, and rejects any other. -/
def stubJsonParse (text : String) : Except String Json :=
  if text = "\x7b\"folderName\":\"Reports\",\"limitResults\":5\x7d" then
    .ok (.obj [("folderName", .val (.str "Reports")), ("limitResults", .val (.num 5))])
  else
    .error "Unexpected token"

/-! ## Reading a trace -/

/-- The name of the client method a call went to. -/
def Call.name : Call → String
  | .me => "me"
  | .search_folders _ => "search_folders"
  | .search_dashboards _ => "search_dashboards"
  | .copy_dashboard _ _ => "copy_dashboard"
  | .update_dashboard _ _ => "update_dashboard"
  | .dashboard _ => "dashboard"
  | .dashboard_dashboard_elements _ => "dashboard_dashboard_elements"
  | .update_dashboard_element _ _ => "update_dashboard_element"
  | .query _ => "query"
  | .create_query _ => "create_query"
  | .run_query _ _ => "run_query"
  | .delete_dashboard_filter _ => "delete_dashboard_filter"
  | .update_dashboard_filter _ _ => "update_dashboard_filter"
  | .create_dashboard_filter _ => "create_dashboard_filter"

/-- Whether a call deletes, updates or creates a dashboard filter. -/
def Call.isFilterCall : Call → Bool
  | .delete_dashboard_filter _ => true
  | .update_dashboard_filter _ _ => true
  | .create_dashboard_filter _ => true
  | _ => false

/-- An operation only adds calls to the trace, and every call it adds satisfies `p`. -/
def Op.GrowsWith {α : Type} (p : Call → Bool) (m : Op σ α) : Prop :=
  ∀ w, ∃ tail, (m.run w).2.trace = w.trace ++ tail ∧ ∀ c ∈ tail, p c = true

/-- A dashboard with the tile `Orders`, a date filter that has no dimension and a field filter
on `orders.status`; the query of the tile is `5` and created queries get id `6`. -/
def dateFilterSdk : Sdk Unit :=
  scriptedSdk
    { dashboard := fun _ =>
        .ok { id := .num 20, title := .str "Mine",
              dashboard_elements := some
                [{ id := .num 1, title := .str "Orders", query_id := .num 5 }],
              dashboard_filters := some
                [{ id := .num 11, title := .str "Date", type := .str "date_filter" },
                 { id := .num 12, title := .str "Status", type := .str "field_filter",
                   dimension := .str "orders.status" }] }
      query :=
        [("id", .val (.num 5)), ("slug", .val (.str "abc")), ("client_id", .val (.str "xyz")),
         ("model", .val (.str "sales")), ("view", .val (.str "orders")),
         ("fields", .arr [.val (.str "orders.id")]),
         ("vis_config", .obj [("type", .val (.str "looker_bar")),
                              ("show_legend", .val (.bool true))])]
      created := [("id", .val (.num 6))] }

/-! ## When ensureTileListeners writes a tile, on the inputs -/

/-- The key `<dashboard_filter_name>::<field>` of the listener a selected dimension implies. -/
def dimensionKey (filterNameMap : Dict) (dimension : JsVal) : String :=
  ((filterNameMap.get dimension.toStr).orElse dimension).toStr ++ "::" ++ dimension.toStr

/-- Some selected dimension has no current listener with its key, or two current listeners
share a key. -/
def needsWrite (filterNameMap : Dict) (selectedFilterDimensions : List JsVal)
    (currentListens : List Listen) : Bool :=
  selectedFilterDimensions.any
      (fun d => !(currentListens.map listenKey).contains (dimensionKey filterNameMap d)) ||
    !decide ((currentListens.map listenKey).Nodup)

/-- A tile whose two listeners are different pairs with the same key
`Sales::EU::orders.region`. -/
def collidingTiles : List Element :=
  [{ id := .num 1,
     result_maker := some
       { filterables := some
           [{ listen := some
                [{ dashboard_filter_name := .str "Sales::EU", field := .str "orders.region" },
                 { dashboard_filter_name := .str "Sales", field := .str "EU::orders.region" }] }] } }]

/-- A query client on which the query of the dimension `broken` cannot be created and the
query of the dimension `slow` cannot be run; any other query runs to the row `East/10`. -/
def flakySdk : Sdk Unit :=
  { scriptedSdk {} with
    create_query := fun body s =>
      match objGet body "fields" with
      | .arr (.val (.str "broken") :: _) => (.error "create failed", s)
      | .arr (.val d :: _) => (.ok [("id", .val d)], s)
      | _ => (.ok [("id", .val .null)], s)
    run_query := fun id _ s =>
      match id with
      | .val (.str "slow") => (.error "timeout", s)
      | _ => (.ok (.rows [[("region", .str "East"), ("count", .num 10)]]), s) }

/-- The tiles of the chart example: a grid tile, a tile without query, a tile whose result
maker says `table`, a tile whose query says `table`, and the bar chart `Chart` on query `5`. -/
def chartTiles : List Element :=
  [{ id := .num 1, title := .str "Grid", query_id := .num 4,
     query_vis_type := .str "looker_grid" },
   { id := .num 2, title := .str "Text" },
   { id := .num 3, title := .str "Rows", query_id := .num 7,
     result_maker := some { vis_type := .str "table" } },
   { id := .num 4, title := .str "Sheet", result_maker := some { query_id := .num 8 },
     query_vis_type := .str "table" },
   { id := .num 5, title := .str "Chart", query_id := .num 5,
     result_maker := some { vis_type := .str "looker_bar" } }]

/-- A dashboard with the tiles of the chart example; every query has the filters
`region = East` and `year = 2024`, and created queries get id `6`. -/
def chartSdk : Sdk Unit :=
  scriptedSdk
    { dashboard := fun _ =>
        .ok { id := .num 20, title := .str "Mine", dashboard_elements := some chartTiles }
      query :=
        [("id", .val (.num 5)), ("model", .val (.str "sales")), ("view", .val (.str "orders")),
         ("fields", .arr [.val (.str "orders.region"), .val (.str "orders.count")]),
         ("filters", .obj [("region", .val (.str "East")), ("year", .val (.str "2024"))]),
         ("limit", .val (.str "500"))]
      created := [("id", .val (.num 6))]
      result := .rows [[("orders.region", .str "West"), ("orders.count", .num 3)]] }

/-- A dashboard whose tile `Orders` has an empty direct `query_id` and the query `42` on its
result maker. -/
def emptyQueryIdSdk : Sdk Unit :=
  scriptedSdk
    { dashboard := fun _ =>
        .ok { id := .num 20, title := .str "Mine",
              dashboard_elements := some
                [{ id := .num 1, title := .str "Orders", query_id := .str "",
                   result_maker := some { query_id := .num 42 } }] }
      query := [("id", .val (.num 42)), ("fields", .arr [.val (.str "orders.id")])]
      created := [("id", .val (.num 43))] }

/-- A query client whose rows carry counts of several kinds: numbers, a fraction, numerals in
strings (with a fraction, with an exponent, hexadecimal, infinite) and a text that is no
numeral. -/
def mixedCountSdk : Sdk Unit :=
  scriptedSdk
    { created := [("id", .val (.num 1))]
      result := .rows [[("region", .str "East"), ("count", .num 10)],
                       [("region", .null), ("count", .num 4)],
                       [("region", .str "West"), ("count", .num 0)],
                       [("region", .str "North"), ("count", .str "12.5")],
                       [("region", .str "South"), ("count", .str " 1e3 ")],
                       [("region", .str "Centre"), ("count", .str "many")],
                       [("region", .str "Islands"), ("count", .num 2.5)],
                       [("region", .str "Hills"), ("count", .str "0x10")],
                       [("region", .str "Lakes"), ("count", .str "-Infinity")],
                       [("region", .str "Coast"), ("count", .num 7)]] }

/-- A query client that answers its first two calls and fails from the third on; the query
created for a dimension has the dimension as id, and a run returns one row. -/
def quotaSdk : Sdk Nat :=
  { me := fun s => (.error "unavailable", s)
    search_folders := fun _ s => (.error "unavailable", s)
    search_dashboards := fun _ s => (.error "unavailable", s)
    copy_dashboard := fun _ _ s => (.error "unavailable", s)
    update_dashboard := fun _ _ s => (.error "unavailable", s)
    dashboard := fun _ s => (.error "unavailable", s)
    dashboard_dashboard_elements := fun _ s => (.error "unavailable", s)
    update_dashboard_element := fun _ _ s => (.error "unavailable", s)
    query := fun _ s => (.error "unavailable", s)
    create_query := fun body s =>
      if s < 2 then
        (.ok [("id", match objGet body "fields" with
                     | .arr (first :: _) => first
                     | _ => .val .null)], s + 1)
      else (.error "quota exceeded", s + 1)
    run_query := fun _ _ s =>
      if s < 2 then (.ok (.rows [[("a", .str "x"), ("b", .str "y"), ("count", .num 1)]]), s + 1)
      else (.error "quota exceeded", s + 1)
    delete_dashboard_filter := fun _ s => (.error "unavailable", s)
    update_dashboard_filter := fun _ _ s => (.error "unavailable", s)
    create_dashboard_filter := fun _ s => (.error "unavailable", s) }

/-- The writes a call of `ensureTileListeners` owes to the tiles: for every tile with a
filterable result maker whose current listeners need a write, in the order of the tiles, the
update of that tile with the list computed for it. -/
def owedWrites (filterNameMap : Dict) (selectedFilterDimensions : List JsVal)
    (elements : List Element) : List Call :=
  elements.filterMap (fun e =>
    match firstFilterable e with
    | none => none
    | some f =>
      if needsWrite filterNameMap selectedFilterDimensions (f.listen.getD []) = true then
        some (Call.update_dashboard_element e.id
          (listenPatch e f (updatedListens filterNameMap selectedFilterDimensions
            (f.listen.getD []))))
      else none)

/-- A client that lists the tiles it keeps and rejects every write to a tile. -/
def rejectingSdk : Sdk (List Element) :=
  { memorySdk with update_dashboard_element := fun _ _ s => (.error "rejected", s) }

/-- Two tiles that both need a write when `orders.region` is selected: the first listens to
`Region` twice, the second has no listener. -/
def unwrittenTiles : List Element :=
  [{ id := .num 1,
     result_maker := some
       { filterables := some
           [{ listen := some
                [{ dashboard_filter_name := .str "Region", field := .str "orders.region" },
                 { dashboard_filter_name := .str "Region", field := .str "orders.region" }] }] } },
   { id := .num 2, result_maker := some { filterables := some [{ listen := some [] }] } }]

/-- A client with no folder at all, whose listing of all the folders under a parent fails. -/
def listingDownSdk : Sdk Unit :=
  { scriptedSdk {} with
    search_folders := fun req s =>
      match req.name with
      | some _ => (.ok [], s)
      | none => (.error "listing unavailable", s) }

/-! ## Laws of operations -/

@[simp] theorem Op.run_ret {α : Type} (a : α) (w : World σ) :
    (Op.ret a : Op σ α).run w = (.ok a, w) := rfl

@[simp] theorem Op.run_pure {α : Type} (a : α) (w : World σ) :
    (pure a : Op σ α).run w = (.ok a, w) := rfl

@[simp] theorem Op.run_fail {α : Type} (msg : String) (w : World σ) :
    (Op.fail msg : Op σ α).run w = (.error msg, w) := rfl

theorem Op.run_bind {α β : Type} (m : Op σ α) (f : α → Op σ β) (w : World σ) :
    (m >>= f).run w =
      match m.run w with
      | (.ok a, w1) => (f a).run w1
      | (.error e, w1) => (.error e, w1) := rfl

theorem Op.run_bind_ok {α β : Type} (m : Op σ α) (f : α → Op σ β) (w w1 : World σ) (a : α)
    (h : m.run w = (.ok a, w1)) : (m >>= f).run w = (f a).run w1 := by
  rw [Op.run_bind, h]

theorem Op.run_bind_error {α β : Type} (m : Op σ α) (f : α → Op σ β) (w w1 : World σ)
    (e : String) (h : m.run w = (.error e, w1)) : (m >>= f).run w = (.error e, w1) := by
  rw [Op.run_bind, h]

@[simp] theorem Op.run_request {α : Type} (c : Call) (answer : σ → Except String α × σ)
    (w : World σ) :
    (Op.request c answer).run w =
      ((answer w.st).1, { st := (answer w.st).2, trace := w.trace ++ [c] }) := rfl

theorem Op.run_tryCatch {α : Type} (m : Op σ α) (h : String → Op σ α) (w : World σ) :
    (Op.tryCatch m h).run w =
      match m.run w with
      | (.ok a, w1) => (.ok a, w1)
      | (.error e, w1) => (h e).run w1 := rfl

/-! ## updateDashboard: the original is refused -/

/-- C1: for every dashboard id `x` and all other arguments, `updateDashboard(x, x, ...)` throws
`Original dashboard cannot be updated` and leaves the client untouched: the call trace and the
client state are those it started from, so no call of any kind was issued. -/
theorem updateDashboard_original_refused (sdk : Sdk σ) (cfg : Config) (now : Int) (x : JsVal)
    (selectedColumns : Json) (selectedFilterDimensions : List JsVal)
    (filtersFromRequest filterNameMap : Dict) (w : World σ) :
    (updateDashboard sdk cfg now x x selectedColumns selectedFilterDimensions filtersFromRequest
        filterNameMap).run w
      = (.error "Original dashboard cannot be updated", w) := by
  simp [updateDashboard]

/-! ## getDateRangeCounts without a date field -/

/-- C10: when `config.dateField` is falsy, `getDateRangeCounts` returns one entry per input
dimension, in input order, each with `counts` the empty object, and issues no client call. -/
theorem getDateRangeCounts_without_dateField (sdk : Sdk σ) (cfg : Config)
    (dimensions : List JsVal) (selectedMeasure : JsVal) (w : World σ)
    (h : cfg.dateField.truthy = false) :
    (getDateRangeCounts sdk cfg dimensions selectedMeasure).run w
      = (.ok (dimensions.map (fun d => { dimension := d, counts := [] })), w) := by
  simp [getDateRangeCounts, h]

/-- C10 at a concrete input: no date field, two dimensions, a client that would fail. -/
theorem getDateRangeCounts_without_dateField_witness :
    ({ model := .str "sales" } : Config).dateField.truthy = false ∧
    (getDateRangeCounts deadSdk { model := .str "sales" }
        [.str "created_date", .str "region"] (.str "count")).run startWorld
      = (.ok [{ dimension := .str "created_date", counts := [] },
              { dimension := .str "region", counts := [] }], startWorld) :=
  ⟨rfl, getDateRangeCounts_without_dateField deadSdk { model := .str "sales" }
    [.str "created_date", .str "region"] (.str "count") startWorld rfl⟩

/-! ## ensureDashboardCopyInFolder: an existing copy is reused -/

theorem find?_first_match {α : Type} (p : α → Bool) (pre post : List α) (d : α)
    (hpre : ∀ x ∈ pre, p x = false) (hd : p d = true) :
    (pre ++ d :: post).find? p = some d := by
  induction pre with
  | nil => simp [List.find?, hd]
  | cons x xs ih =>
    have hx : p x = false := hpre x (by simp)
    have hxs : ∀ y ∈ xs, p y = false := fun y hy => hpre y (by simp [hy])
    simp [List.find?, hx, ih hxs]

theorem isExistingCopy_iff (folderId : JsVal) (copyTitle : String) (d : Dashboard) :
    isExistingCopy folderId copyTitle d = true ↔
      (d.id.truthy = true ∧ d.deleted.truthy = false ∧ d.folder_id.toStr = folderId.toStr ∧
        ∃ t, d.title = .str t ∧ normStr t = normStr copyTitle) := by
  unfold isExistingCopy
  cases hid : d.id.truthy <;> cases hdel : d.deleted.truthy <;> cases ht : d.title <;> simp

/-- C2: when the folder search returns a list whose first dashboard with a truthy id, a falsy
`deleted`, `String(folder_id) === String(folderId)` and a string title equal to `copyTitle`
after trimming and lower-casing is `d`, then `ensureDashboardCopyInFolder` issues, after the
search, exactly one `update_dashboard(d.id, { title: copyTitle })` when the title of `d` differs
from `copyTitle` and nothing when it is the same string (so `copy_dashboard` is never called),
and it returns `String(d.id)`: directly when no rename is needed, and as soon as the rename
call succeeds otherwise (a failed rename is rethrown). -/
theorem ensureDashboardCopyInFolder_reuses_existing (sdk : Sdk σ) (w : World σ)
    (originalDashboardId folderId : JsVal) (copyTitle : String)
    (pre post : List Dashboard) (d : Dashboard) (t : String) (s1 : σ)
    (hsearch : sdk.search_dashboards
        { folder_id := folderId, fields := some "id,title,folder_id,deleted", per_page := some 200 }
        w.st = (.ok (pre ++ d :: post), s1))
    (hid : d.id.truthy = true) (hdel : d.deleted.truthy = false)
    (hfolder : d.folder_id.toStr = folderId.toStr)
    (htitle : d.title = .str t) (hnorm : normStr t = normStr copyTitle)
    (hfirst : ∀ x ∈ pre, ¬ (x.id.truthy = true ∧ x.deleted.truthy = false ∧
        x.folder_id.toStr = folderId.toStr ∧
        ∃ u, x.title = .str u ∧ normStr u = normStr copyTitle)) :
    ((ensureDashboardCopyInFolder sdk originalDashboardId folderId copyTitle).run w).2.trace
        = w.trace ++
          Call.search_dashboards
            { folder_id := folderId, fields := some "id,title,folder_id,deleted",
              per_page := some 200 } ::
          (if t = copyTitle then [] else [Call.update_dashboard d.id copyTitle]) ∧
    (t = copyTitle →
      ((ensureDashboardCopyInFolder sdk originalDashboardId folderId copyTitle).run w).1
        = .ok d.id.toStr) ∧
    (t ≠ copyTitle →
      ((ensureDashboardCopyInFolder sdk originalDashboardId folderId copyTitle).run w).1
        = match (sdk.update_dashboard d.id copyTitle s1).1 with
          | .ok _ => .ok d.id.toStr
          | .error e => .error e) := by
  have hfind : (pre ++ d :: post).find? (isExistingCopy folderId copyTitle) = some d := by
    apply find?_first_match
    · intro x hx
      have := hfirst x hx
      rw [← isExistingCopy_iff] at this
      simpa using this
    · exact (isExistingCopy_iff folderId copyTitle d).2 ⟨hid, hdel, hfolder, t, htitle, hnorm⟩
  have hrun : (ensureDashboardCopyInFolder sdk originalDashboardId folderId copyTitle).run w
      = if t = copyTitle then
          (.ok d.id.toStr,
            { st := s1, trace := w.trace ++ [Call.search_dashboards
              { folder_id := folderId, fields := some "id,title,folder_id,deleted",
                per_page := some 200 }] })
        else
          ((match (sdk.update_dashboard d.id copyTitle s1).1 with
            | .ok _ => .ok d.id.toStr
            | .error e => .error e),
            { st := (sdk.update_dashboard d.id copyTitle s1).2,
              trace := w.trace ++ [Call.search_dashboards
                { folder_id := folderId, fields := some "id,title,folder_id,deleted",
                  per_page := some 200 }] ++ [Call.update_dashboard d.id copyTitle] }) := by
    unfold ensureDashboardCopyInFolder
    rw [Op.run_bind]
    simp only [Sdk.okSearchDashboards, Op.run_request, hsearch, hfind, hid, if_true, htitle]
    by_cases hEq : t = copyTitle
    · simp [hEq]
    · have hne : JsVal.str t ≠ JsVal.str copyTitle := fun h => hEq (JsVal.str.inj h)
      simp only [ne_eq, hne, not_false_eq_true, if_true, hEq, if_false]
      rw [Op.run_bind]
      simp only [Sdk.okUpdateDashboard, Op.run_request]
      cases hup : sdk.update_dashboard d.id copyTitle s1 with
      | mk r s2 => cases r <;> simp
  rw [hrun]
  by_cases hEq : t = copyTitle
  · simp [hEq]
  · simp [hEq]

/-- C2 at concrete inputs.  Folder `12` lists a deleted namesake, an entry without id, the live
copy `7` titled ` my COPY ` and a later namesake; the copy titled `My Copy` is asked for:
dashboard `7` is renamed and returned, and nothing is copied.  Folder `12` lists `5` titled
`ÉTÉ` and `7` titled `été`; the copy titled `été` is asked for: dashboard `5` is the first
match, it is renamed and returned. -/
theorem ensureDashboardCopyInFolder_reuses_existing_witness :
    ((ensureDashboardCopyInFolder (scriptedSdk { dashboards := fun _ => copyFolderListing })
        (.num 1) (.num 12) "My Copy").run startWorld).2.trace
      = [Call.search_dashboards
          { folder_id := .num 12, fields := some "id,title,folder_id,deleted",
            per_page := some 200 },
         Call.update_dashboard (.num 7) "My Copy"] ∧
    ((ensureDashboardCopyInFolder (scriptedSdk { dashboards := fun _ => copyFolderListing })
        (.num 1) (.num 12) "My Copy").run startWorld).1 = .ok "7" ∧
    (ensureDashboardCopyInFolder
        (scriptedSdk { dashboards := fun _ =>
          [{ id := .num 5, title := .str "ÉTÉ", folder_id := .num 12 },
           { id := .num 7, title := .str "été", folder_id := .num 12 }] })
        (.num 1) (.num 12) "été").run startWorld
      = (.ok "5",
          { st := (),
            trace := [Call.search_dashboards
                { folder_id := .num 12, fields := some "id,title,folder_id,deleted",
                  per_page := some 200 },
              Call.update_dashboard (.num 5) "été"] }) := by
  have h := ensureDashboardCopyInFolder_reuses_existing
    (scriptedSdk { dashboards := fun _ => copyFolderListing }) startWorld (.num 1) (.num 12)
    "My Copy"
    [{ id := .num 5, title := .str "My Copy", folder_id := .str "12", deleted := .bool true },
     { id := .num 0, title := .str "My Copy", folder_id := .str "12" }]
    [{ id := .num 8, title := .str "My Copy", folder_id := .str "12" }]
    { id := .num 7, title := .str " my COPY ", folder_id := .str "12", deleted := .bool false }
    " my COPY " () rfl (by decide) (by decide) (by decide) rfl (by decide)
    (by
      intro x hx
      simp only [List.mem_cons, List.mem_singleton, List.not_mem_nil, or_false] at hx
      rcases hx with rfl | rfl
      · intro hx2
        exact absurd hx2.2.1 (by decide)
      · intro hx2
        exact absurd hx2.1 (by decide))
  refine ⟨?_, ?_, rfl⟩
  · rw [h.1]
    rfl
  · rw [h.2.2 (by decide)]
    rfl

/-! ## getFilterValues: which rows are kept -/

/-- A formatted entry is the literal `null (0)` only when its value is `null`. -/
theorem formatValue_ne_null_zero (v : String) (c : JsNumber) (hv : v ≠ "null") :
    formatValue (v, c) ≠ "null (0)" := by
  intro h
  apply hv
  unfold formatValue at h
  have h2 := congrArg String.data h
  simp only [String.data_append] at h2
  apply String.ext
  generalize c.toStr.data = ts at h2
  rcases hvd : v.data with _ | ⟨a0, _ | ⟨a1, _ | ⟨a2, _ | ⟨a3, _ | ⟨a4, _ | ⟨a5, _ | ⟨a6, _ | ⟨a7, r⟩⟩⟩⟩⟩⟩⟩⟩ <;>
    rw [hvd] at h2 <;> simp_all

theorem formatted_rows (dimension selectedMeasure : JsVal) (rs : List Dict) :
    (((rs.map (valueAndCount dimension selectedMeasure)).filter (fun vc => vc.1 != "null")).map
        formatValue).filter (fun value => value != "null (0)") =
      (rs.filter (fun row => (row.get dimension.toStr).toStr != "null")).map
        (fun row => (row.get dimension.toStr).toStr ++ " (" ++
          (numberOr (row.get (selectedMeasure.orElse (.str "count")).toStr) 0).toStr ++ ")") := by
  induction rs with
  | nil => rfl
  | cons row rs ih =>
    by_cases hnull : (row.get dimension.toStr).toStr = "null"
    · simpa [valueAndCount, hnull] using ih
    · have hfmt := formatValue_ne_null_zero (row.get dimension.toStr).toStr
        (numberOr (row.get (selectedMeasure.orElse (.str "count")).toStr) 0) hnull
      have hfmt2 : formatValue (valueAndCount dimension selectedMeasure row) ≠ "null (0)" := hfmt
      simp only [List.map_cons]
      rw [List.filter_cons_of_pos (by simpa [valueAndCount] using hnull)]
      rw [List.filter_cons_of_pos (by simpa using hnull)]
      simp only [List.map_cons]
      rw [List.filter_cons_of_pos (by simpa using hfmt2)]
      rw [ih]
      rfl

theorem formatFilterValues_rows (cfg : Config) (dimension selectedMeasure : JsVal)
    (rs : List Dict) :
    formatFilterValues cfg dimension selectedMeasure (.rows rs) =
      sliceTo
        ((rs.filter (fun row => (row.get dimension.toStr).toStr != "null")).map
          (fun row => (row.get dimension.toStr).toStr ++ " (" ++
            (numberOr (row.get (selectedMeasure.orElse (.str "count")).toStr) 0).toStr ++ ")"))
        (numberOr cfg.limitResults 5) := by
  rw [← formatted_rows]
  rfl

/-! ## getFilterValues: the two turns of a batch -/

theorem Callback.turn_nil {α : Type} (w : World σ) :
    Callback.turn ([] : List (Callback σ α)) w = ([], w) := rfl

theorem Callback.turn_settled {α : Type} (r : Except String α) (rest : List (Callback σ α))
    (w : World σ) :
    Callback.turn (.settled r :: rest) w
      = (.settled r :: (Callback.turn rest w).1, (Callback.turn rest w).2) := rfl

theorem Callback.turn_calling {α : Type} (c : Call) (next : σ → σ) (resume : σ → Callback σ α)
    (rest : List (Callback σ α)) (w : World σ) :
    Callback.turn (.calling c next resume :: rest) w
      = (resume w.st :: (Callback.turn rest { st := next w.st, trace := w.trace ++ [c] }).1,
          (Callback.turn rest { st := next w.st, trace := w.trace ++ [c] }).2) := rfl

theorem filterValuesFor_falsy (sdk : Sdk σ) (cfg : Config) (selectedMeasure dimension : JsVal)
    (h : dimension.truthy = false) :
    filterValuesFor sdk cfg selectedMeasure dimension
      = .settled (.ok { dimension := dimension, values := [] }) := by
  unfold filterValuesFor
  simp only [h, Bool.not_false, if_true]
  rfl

theorem filterValuesFor_truthy (sdk : Sdk σ) (cfg : Config) (selectedMeasure dimension : JsVal)
    (h : dimension.truthy = true) :
    filterValuesFor sdk cfg selectedMeasure dimension
      = .calling (.create_query (filterValuesQuery cfg dimension selectedMeasure))
          (fun s => (sdk.create_query (filterValuesQuery cfg dimension selectedMeasure) s).2)
          (fun s => afterCreate sdk cfg selectedMeasure dimension s) := by
  unfold filterValuesFor
  simp only [h, Bool.not_true, Bool.false_eq_true, if_false]
  show Callback.tryCatch (Callback.andThen (Sdk.awaitCreateQuery sdk _) _) _ = _
  unfold Sdk.awaitCreateQuery Callback.request
  simp only [Callback.andThen, Callback.tryCatch]
  congr 1
  funext s
  unfold afterCreate
  cases hc : (sdk.create_query (filterValuesQuery cfg dimension selectedMeasure) s).1 with
  | error e =>
    simp only [Callback.andThen, Callback.tryCatch]
    rfl
  | ok query =>
    simp only [Callback.andThen]
    show Callback.tryCatch (Callback.andThen (Sdk.awaitRunQuery sdk _ _) _) _ = _
    unfold Sdk.awaitRunQuery Callback.request
    simp only [Callback.andThen, Callback.tryCatch]
    congr 1
    funext s2
    cases hr : (sdk.run_query (objGet query "id") "json" s2).1 with
    | error e =>
      simp only [Callback.andThen, Callback.tryCatch]
      rfl
    | ok r =>
      simp only [Callback.andThen]
      rfl

theorem turn_first (sdk : Sdk σ) (cfg : Config) (selectedMeasure : JsVal)
    (dimensions : List JsVal) (w : World σ) :
    Callback.turn (dimensions.map (filterValuesFor sdk cfg selectedMeasure)) w
      = (afterFirstTurn sdk cfg selectedMeasure dimensions w.st,
          { st := afterCreates sdk cfg selectedMeasure dimensions w.st,
            trace := w.trace ++ createCalls cfg selectedMeasure dimensions }) := by
  induction dimensions generalizing w with
  | nil => simp [Callback.turn_nil, afterFirstTurn, afterCreates, createCalls]
  | cons d ds ih =>
    cases hd : d.truthy with
    | false =>
      rw [List.map_cons, filterValuesFor_falsy sdk cfg selectedMeasure d hd, Callback.turn_settled,
        ih w]
      simp [afterFirstTurn, afterCreates, createCalls, hd]
    | true =>
      rw [List.map_cons, filterValuesFor_truthy sdk cfg selectedMeasure d hd,
        Callback.turn_calling, ih]
      simp [afterFirstTurn, afterCreates, createCalls, hd]

theorem turn_second (sdk : Sdk σ) (cfg : Config) (selectedMeasure : JsVal)
    (dimensions : List JsVal) (created : σ) (w : World σ) :
    Callback.turn (afterFirstTurn sdk cfg selectedMeasure dimensions created) w
      = ((batchEntries sdk cfg selectedMeasure dimensions created w.st).map
            (fun v => Callback.settled (.ok v)),
          { st := afterRuns sdk cfg selectedMeasure dimensions created w.st,
            trace := w.trace ++ runCalls sdk cfg selectedMeasure dimensions created }) := by
  induction dimensions generalizing created w with
  | nil => simp [Callback.turn_nil, afterFirstTurn, afterRuns, runCalls, batchEntries]
  | cons d ds ih =>
    cases hd : d.truthy with
    | false =>
      simp only [afterFirstTurn, hd, Bool.false_eq_true, if_false]
      rw [Callback.turn_settled, ih created w]
      simp [batchEntries, afterRuns, afterCreates, runCalls, valuesFrom, hd]
    | true =>
      simp only [afterFirstTurn, hd, if_true]
      cases hc : (sdk.create_query (filterValuesQuery cfg d selectedMeasure) created).1 with
      | error e =>
        simp only [afterCreate, hc]
        rw [Callback.turn_settled, ih]
        simp [batchEntries, afterRuns, afterCreates, runCalls, valuesFrom, hd, hc]
      | ok query =>
        simp only [afterCreate, hc]
        rw [Callback.turn_calling, ih]
        cases hr : (sdk.run_query (objGet query "id") "json" w.st).1 <;>
          simp [batchEntries, afterRuns, afterCreates, runCalls, valuesFrom, hd, hc, hr]

theorem firstRejection_map_filterValuesFor (sdk : Sdk σ) (cfg : Config) (selectedMeasure : JsVal)
    (dimensions : List JsVal) :
    Callback.firstRejection (dimensions.map (filterValuesFor sdk cfg selectedMeasure)) = none := by
  induction dimensions with
  | nil => rfl
  | cons d ds ih =>
    cases hd : d.truthy with
    | false =>
      rw [List.map_cons, filterValuesFor_falsy sdk cfg selectedMeasure d hd]
      simpa [Callback.firstRejection] using ih
    | true =>
      rw [List.map_cons, filterValuesFor_truthy sdk cfg selectedMeasure d hd]
      simpa [Callback.firstRejection] using ih

theorem firstRejection_afterFirstTurn (sdk : Sdk σ) (cfg : Config) (selectedMeasure : JsVal)
    (dimensions : List JsVal) (created : σ) :
    Callback.firstRejection (afterFirstTurn sdk cfg selectedMeasure dimensions created) = none := by
  induction dimensions generalizing created with
  | nil => rfl
  | cons d ds ih =>
    cases hd : d.truthy with
    | false =>
      simp only [afterFirstTurn, hd, Bool.false_eq_true, if_false]
      simpa [Callback.firstRejection] using ih created
    | true =>
      simp only [afterFirstTurn, hd, if_true]
      cases hc : (sdk.create_query (filterValuesQuery cfg d selectedMeasure) created).1 with
      | error e =>
        simp only [afterCreate, hc]
        simpa [Callback.firstRejection] using ih _
      | ok query =>
        simp only [afterCreate, hc]
        simpa [Callback.firstRejection] using ih _

theorem firstRejection_settled_values {α : Type} (vs : List α) :
    Callback.firstRejection (vs.map (fun v => (Callback.settled (.ok v) : Callback σ α))) = none := by
  induction vs with
  | nil => rfl
  | cons v vs ih => simpa [Callback.firstRejection] using ih

theorem values_settled {α : Type} (vs : List α) :
    Callback.values (vs.map (fun v => (Callback.settled (.ok v) : Callback σ α))) = some vs := by
  induction vs with
  | nil => rfl
  | cons v vs ih => simp [Callback.values, ih]

/-- The run of a batch: the `create_query` calls of the truthy dimensions, in order, then the
`run_query` calls of the queries created, in order; it returns the entries of the batch. -/
theorem getFilterValues_run (sdk : Sdk σ) (cfg : Config) (dimensions : List JsVal)
    (selectedMeasure : JsVal) (w : World σ) :
    (getFilterValues sdk cfg dimensions selectedMeasure).run w
      = (.ok (batchEntries sdk cfg selectedMeasure dimensions w.st
                (afterCreates sdk cfg selectedMeasure dimensions w.st)),
          { st := afterRuns sdk cfg selectedMeasure dimensions w.st
                    (afterCreates sdk cfg selectedMeasure dimensions w.st),
            trace := w.trace ++ createCalls cfg selectedMeasure dimensions ++
              runCalls sdk cfg selectedMeasure dimensions w.st }) := by
  unfold getFilterValues Op.all
  simp only [Op.allTurns, turn_first, turn_second, firstRejection_map_filterValuesFor,
    firstRejection_afterFirstTurn, firstRejection_settled_values, values_settled, Option.orElse]

theorem afterCreates_cons (sdk : Sdk σ) (cfg : Config) (selectedMeasure d : JsVal)
    (rest : List JsVal) (s : σ) :
    afterCreates sdk cfg selectedMeasure (d :: rest) s
      = afterCreates sdk cfg selectedMeasure rest (afterCreates sdk cfg selectedMeasure [d] s) := by
  cases hd : d.truthy <;> simp [afterCreates, hd]

theorem afterRuns_cons (sdk : Sdk σ) (cfg : Config) (selectedMeasure d : JsVal)
    (rest : List JsVal) (created s : σ) :
    afterRuns sdk cfg selectedMeasure (d :: rest) created s
      = afterRuns sdk cfg selectedMeasure rest (afterCreates sdk cfg selectedMeasure [d] created)
          (afterRuns sdk cfg selectedMeasure [d] created s) := by
  cases hd : d.truthy with
  | false => simp [afterRuns, afterCreates, hd]
  | true =>
    cases hc : (sdk.create_query (filterValuesQuery cfg d selectedMeasure) created).1 <;>
      simp [afterRuns, afterCreates, hd, hc]

theorem afterCreates_append (sdk : Sdk σ) (cfg : Config) (selectedMeasure : JsVal)
    (xs ys : List JsVal) (s : σ) :
    afterCreates sdk cfg selectedMeasure (xs ++ ys) s
      = afterCreates sdk cfg selectedMeasure ys (afterCreates sdk cfg selectedMeasure xs s) := by
  induction xs generalizing s with
  | nil => rfl
  | cons d xs ih =>
    rw [List.cons_append, afterCreates_cons, ih, afterCreates_cons sdk cfg selectedMeasure d xs]

theorem afterRuns_append (sdk : Sdk σ) (cfg : Config) (selectedMeasure : JsVal)
    (xs ys : List JsVal) (created s : σ) :
    afterRuns sdk cfg selectedMeasure (xs ++ ys) created s
      = afterRuns sdk cfg selectedMeasure ys (afterCreates sdk cfg selectedMeasure xs created)
          (afterRuns sdk cfg selectedMeasure xs created s) := by
  induction xs generalizing created s with
  | nil => rfl
  | cons d xs ih =>
    rw [List.cons_append, afterRuns_cons, ih, afterRuns_cons sdk cfg selectedMeasure d xs,
      afterCreates_cons sdk cfg selectedMeasure d xs]

theorem batchEntries_append (sdk : Sdk σ) (cfg : Config) (selectedMeasure : JsVal)
    (xs ys : List JsVal) (created s : σ) :
    batchEntries sdk cfg selectedMeasure (xs ++ ys) created s
      = batchEntries sdk cfg selectedMeasure xs created s ++
          batchEntries sdk cfg selectedMeasure ys (afterCreates sdk cfg selectedMeasure xs created)
            (afterRuns sdk cfg selectedMeasure xs created s) := by
  induction xs generalizing created s with
  | nil => rfl
  | cons d xs ih =>
    rw [List.cons_append, batchEntries, batchEntries, ih, List.cons_append,
      afterCreates_cons sdk cfg selectedMeasure d xs, afterRuns_cons sdk cfg selectedMeasure d xs]

theorem batchEntries_dimensions (sdk : Sdk σ) (cfg : Config) (selectedMeasure : JsVal)
    (dimensions : List JsVal) (created s : σ) :
    (batchEntries sdk cfg selectedMeasure dimensions created s).map FilterValues.dimension
      = dimensions := by
  induction dimensions generalizing created s with
  | nil => rfl
  | cons d ds ih => simp only [batchEntries, List.map_cons, ih]

theorem runCalls_are_runs (sdk : Sdk σ) (cfg : Config) (selectedMeasure : JsVal)
    (dimensions : List JsVal) (created : σ) :
    ∀ c ∈ runCalls sdk cfg selectedMeasure dimensions created, c.name = "run_query" := by
  induction dimensions generalizing created with
  | nil => simp [runCalls]
  | cons d ds ih =>
    intro c hc
    unfold runCalls at hc
    split at hc
    · split at hc
      · rcases List.mem_cons.1 hc with h | h
        · rw [h]; rfl
        · exact ih _ c h
      · exact ih _ c hc
    · exact ih _ c hc

/-- The values of the entry of a dimension, by cases on the dimension and on the answers to its
own two calls. -/
theorem valuesFrom_cases (sdk : Sdk σ) (cfg : Config) (selectedMeasure d : JsVal)
    (created s : σ) :
    (d.truthy = false →
      valuesFrom cfg selectedMeasure d
          (sdk.create_query (filterValuesQuery cfg d selectedMeasure) created).1
          (fun query => (sdk.run_query (objGet query "id") "json" s).1) = []) ∧
    (d.truthy = true →
      (∀ e s1, sdk.create_query (filterValuesQuery cfg d selectedMeasure) created
          = (.error e, s1) →
        valuesFrom cfg selectedMeasure d
          (sdk.create_query (filterValuesQuery cfg d selectedMeasure) created).1
          (fun query => (sdk.run_query (objGet query "id") "json" s).1) = []) ∧
      (∀ q s1, sdk.create_query (filterValuesQuery cfg d selectedMeasure) created
          = (.ok q, s1) →
        (∀ e s2, sdk.run_query (objGet q "id") "json" s = (.error e, s2) →
          valuesFrom cfg selectedMeasure d
            (sdk.create_query (filterValuesQuery cfg d selectedMeasure) created).1
            (fun query => (sdk.run_query (objGet query "id") "json" s).1) = []) ∧
        (∀ r s2, sdk.run_query (objGet q "id") "json" s = (.ok r, s2) →
          valuesFrom cfg selectedMeasure d
            (sdk.create_query (filterValuesQuery cfg d selectedMeasure) created).1
            (fun query => (sdk.run_query (objGet query "id") "json" s).1)
            = formatFilterValues cfg d selectedMeasure r))) := by
  refine ⟨fun hd => by simp [valuesFrom, hd], fun hd => ⟨?_, ?_⟩⟩
  · intro e s1 hc
    simp [valuesFrom, hd, hc]
  · intro q s1 hc
    refine ⟨?_, ?_⟩
    · intro e s2 hr
      simp [valuesFrom, hd, hc, hr]
    · intro r s2 hr
      simp [valuesFrom, hd, hc, hr]

/-- C3, as the code has it: for every truthy dimension of a batch, when its query is created
and its run returns the rows `rs`, the entry of that dimension in the result of
`getFilterValues` carries the strings `String(row[dimension]) (count)`, with
`count = Number(row[measure]) || 0`, in row order, of exactly the rows whose
`String(row[dimension])` is not `null` (rows with a zero count are kept), cut by
`slice(0, Number(limitResults) || 5)`.  The query of the dimension is created in the state the
client is in after the `create_query` calls of the dimensions before it, and run in the state
it is in after every `create_query` call of the batch and the `run_query` calls of the
dimensions before it. -/
theorem getFilterValues_entry_values (sdk : Sdk σ) (cfg : Config) (w : World σ)
    (pre post : List JsVal) (dimension selectedMeasure : JsVal) (q : Obj) (rs : List Dict)
    (s1 s2 : σ)
    (hd : dimension.truthy = true)
    (hcreate : sdk.create_query (filterValuesQuery cfg dimension selectedMeasure)
        (afterCreates sdk cfg selectedMeasure pre w.st) = (.ok q, s1))
    (hrun : sdk.run_query (objGet q "id") "json"
        (afterRuns sdk cfg selectedMeasure pre w.st
          (afterCreates sdk cfg selectedMeasure (pre ++ dimension :: post) w.st))
        = (.ok (.rows rs), s2)) :
    ∃ before after,
      ((getFilterValues sdk cfg (pre ++ dimension :: post) selectedMeasure).run w).1
        = .ok (before ++
            { dimension := dimension,
              values := sliceTo
                ((rs.filter (fun row => (row.get dimension.toStr).toStr != "null")).map
                  (fun row => (row.get dimension.toStr).toStr ++ " (" ++
                    (numberOr (row.get (selectedMeasure.orElse (.str "count")).toStr) 0).toStr
                    ++ ")"))
                (numberOr cfg.limitResults 5) } :: after) ∧
      before.length = pre.length ∧ after.length = post.length := by
  refine ⟨batchEntries sdk cfg selectedMeasure pre w.st
      (afterCreates sdk cfg selectedMeasure (pre ++ dimension :: post) w.st),
    batchEntries sdk cfg selectedMeasure post
      (afterCreates sdk cfg selectedMeasure [dimension]
        (afterCreates sdk cfg selectedMeasure pre w.st))
      (afterRuns sdk cfg selectedMeasure [dimension]
        (afterCreates sdk cfg selectedMeasure pre w.st)
        (afterRuns sdk cfg selectedMeasure pre w.st
          (afterCreates sdk cfg selectedMeasure (pre ++ dimension :: post) w.st))), ?_, ?_, ?_⟩
  · rw [getFilterValues_run]
    simp only
    rw [batchEntries_append, batchEntries]
    have hv := ((valuesFrom_cases sdk cfg selectedMeasure dimension
      (afterCreates sdk cfg selectedMeasure pre w.st)
      (afterRuns sdk cfg selectedMeasure pre w.st
        (afterCreates sdk cfg selectedMeasure (pre ++ dimension :: post) w.st))).2 hd).2
      q s1 hcreate
    rw [hv.2 (.rows rs) s2 hrun, formatFilterValues_rows]
  · have h := congrArg List.length (batchEntries_dimensions sdk cfg selectedMeasure pre
      w.st (afterCreates sdk cfg selectedMeasure (pre ++ dimension :: post) w.st))
    simpa using h
  · have h := congrArg List.length (batchEntries_dimensions sdk cfg selectedMeasure post
      (afterCreates sdk cfg selectedMeasure [dimension]
        (afterCreates sdk cfg selectedMeasure pre w.st))
      (afterRuns sdk cfg selectedMeasure [dimension]
        (afterCreates sdk cfg selectedMeasure pre w.st)
        (afterRuns sdk cfg selectedMeasure pre w.st
          (afterCreates sdk cfg selectedMeasure (pre ++ dimension :: post) w.st))))
    simpa using h

/-- C3 at a concrete input: rows `East/10`, `null/4`, `West/0`, `North/'12.5'`, `South/' 1e3 '`,
`Centre/'many'`, `Islands/2.5`, `Hills/'0x10'`, `Lakes/'-Infinity'` and `Coast/7` with
`limitResults = '8.9'`.  The null-valued row is dropped and the zero-count row is kept; the
counts read `10`, `0`, `12.5`, `1000`, `0`, `2.5`, `16` and `-Infinity`; the limit is `8.9`, so
eight entries are kept. -/
theorem getFilterValues_entry_values_witness :
    ((getFilterValues mixedCountSdk { limitResults := .str "8.9" } [.str "region"]
        (.str "count")).run startWorld).1
      = .ok [{ dimension := .str "region",
               values := ["East (10)", "West (0)", "North (12.5)", "South (1000)",
                          "Centre (0)", "Islands (2.5)", "Hills (16)",
                          "Lakes (-Infinity)"] }] := by
  obtain ⟨before, after, h, hb, ha⟩ :=
    getFilterValues_entry_values mixedCountSdk { limitResults := .str "8.9" } startWorld [] []
      (.str "region") (.str "count") [("id", .val (.num 1))]
      [[("region", .str "East"), ("count", .num 10)],
       [("region", .null), ("count", .num 4)],
       [("region", .str "West"), ("count", .num 0)],
       [("region", .str "North"), ("count", .str "12.5")],
       [("region", .str "South"), ("count", .str " 1e3 ")],
       [("region", .str "Centre"), ("count", .str "many")],
       [("region", .str "Islands"), ("count", .num 2.5)],
       [("region", .str "Hills"), ("count", .str "0x10")],
       [("region", .str "Lakes"), ("count", .str "-Infinity")],
       [("region", .str "Coast"), ("count", .num 7)]] () () rfl rfl rfl
  have hb0 : before = [] := List.length_eq_zero.mp hb
  have ha0 : after = [] := List.length_eq_zero.mp ha
  subst hb0 ha0
  rw [List.nil_append] at h
  rw [h]
  rfl

/-- C3 fails as stated: with rows `[{region: East, count: 10}, {region: West, count: 0}]` and
`limitResults = 5`, `getFilterValues(["region"], "count")` returns `East (10)` and `West (0)`:
the zero-count row is not excluded. -/
theorem getFilterValues_keeps_zero_count_row :
    ((getFilterValues regionSdk { limitResults := .num 5 } [.str "region"]
        (.str "count")).run startWorld).1
      = .ok [{ dimension := .str "region", values := ["East (10)", "West (0)"] }] ∧
    ((getFilterValues regionSdk { limitResults := .num 5 } [.str "region"]
        (.str "count")).run startWorld).1
      ≠ .ok [{ dimension := .str "region", values := ["East (10)"] }] := by
  have h : ((getFilterValues regionSdk { limitResults := .num 5 } [.str "region"]
        (.str "count")).run startWorld).1
      = .ok [{ dimension := .str "region", values := ["East (10)", "West (0)"] }] := rfl
  refine ⟨h, ?_⟩
  rw [h]
  intro hEq
  have hlist := Except.ok.inj hEq
  exact absurd hlist (by decide)

/-! ## ensureTileListeners: a second call writes nothing -/

theorem setKey_of_not_mem {β : Type} (m : List (String × β)) (k : String) (v : β)
    (h : k ∉ m.map Prod.fst) : setKey m k v = m ++ [(k, v)] := by
  induction m with
  | nil => rfl
  | cons e m ih =>
    obtain ⟨k1, v1⟩ := e
    simp only [List.map_cons, List.mem_cons, not_or] at h
    have hne : ¬ k1 = k := fun hEq => h.1 hEq.symm
    simp [setKey, hne, ih h.2]

theorem keys_setKey {β : Type} (m : List (String × β)) (k : String) (v : β) :
    (setKey m k v).map Prod.fst =
      if k ∈ m.map Prod.fst then m.map Prod.fst else m.map Prod.fst ++ [k] := by
  induction m with
  | nil => simp [setKey]
  | cons e m ih =>
    obtain ⟨k1, v1⟩ := e
    by_cases hEq : k1 = k
    · simp [setKey, hEq]
    · have hne : ¬ k = k1 := fun h => hEq h.symm
      simp only [setKey, hEq, if_false, List.map_cons, ih, List.mem_cons, hne, false_or]
      split <;> simp

theorem mem_setKey {β : Type} (m : List (String × β)) (k : String) (v : β) (e : String × β)
    (h : e ∈ setKey m k v) : e = (k, v) ∨ e ∈ m := by
  induction m with
  | nil => simpa [setKey] using h
  | cons e1 m ih =>
    obtain ⟨k1, v1⟩ := e1
    by_cases hEq : k1 = k
    · simp only [setKey, hEq, if_true, List.mem_cons] at h
      rcases h with h | h
      · exact Or.inl h
      · exact Or.inr (List.mem_cons_of_mem _ h)
    · simp only [setKey, hEq, if_false, List.mem_cons] at h
      rcases h with h | h
      · exact Or.inr (by simp [h])
      · rcases ih h with h2 | h2
        · exact Or.inl h2
        · exact Or.inr (List.mem_cons_of_mem _ h2)

theorem WellKeyed.setKey (byKey : List (String × Listen)) (listen : Listen)
    (h : WellKeyed byKey) : WellKeyed (setKey byKey (listenKey listen) listen) := by
  refine ⟨?_, ?_⟩
  · rw [keys_setKey]
    split
    · exact h.1
    · rename_i hk
      exact List.Nodup.append h.1 (List.nodup_singleton _) (by simpa using hk)
  · intro e he
    rcases mem_setKey _ _ _ _ he with h2 | h2
    · rw [h2]
    · exact h.2 e h2

theorem keys_subset_setKey {β : Type} (m : List (String × β)) (k : String) (v : β) (x : String)
    (h : x ∈ m.map Prod.fst) : x ∈ (setKey m k v).map Prod.fst := by
  rw [keys_setKey]
  split
  · exact h
  · exact List.mem_append_left _ h

theorem key_mem_setKey {β : Type} (m : List (String × β)) (k : String) (v : β) :
    k ∈ (setKey m k v).map Prod.fst := by
  rw [keys_setKey]
  split
  · assumption
  · simp

theorem seed_fold_wellKeyed (ls : List Listen) (byKey : List (String × Listen))
    (h : WellKeyed byKey) :
    WellKeyed (ls.foldl (fun byKey listen => setKey byKey (listenKey listen) listen) byKey) := by
  induction ls generalizing byKey with
  | nil => exact h
  | cons l ls ih => exact ih _ (WellKeyed.setKey byKey l h)

theorem wellKeyed_nil : WellKeyed [] := ⟨by simp, by simp⟩

/-- Seeding the map from the values of a well-keyed map gives that map back. -/
theorem seed_fold_values (m2 m1 : List (String × Listen)) (h : WellKeyed (m1 ++ m2)) :
    (m2.map Prod.snd).foldl (fun byKey listen => setKey byKey (listenKey listen) listen) m1
      = m1 ++ m2 := by
  induction m2 generalizing m1 with
  | nil => simp
  | cons e m2 ih =>
    obtain ⟨k, v⟩ := e
    have hk : k = listenKey v := h.2 (k, v) (by simp)
    have hnot : listenKey v ∉ m1.map Prod.fst := by
      have hnd := h.1
      rw [List.map_append, List.map_cons] at hnd
      have := (List.nodup_append.1 hnd).2.2
      intro hmem
      exact this hmem (by simp [hk])
    simp only [List.map_cons, List.foldl_cons]
    rw [setKey_of_not_mem m1 (listenKey v) v hnot, ← hk]
    have h2 : WellKeyed ((m1 ++ [(k, v)]) ++ m2) := by simpa using h
    rw [ih (m1 ++ [(k, v)]) h2]
    simp

/-- One step of the second loop of `ensureTileListeners`. -/
theorem addDimensions_cons (filterNameMap : Dict) (d : JsVal) (ds : List JsVal)
    (byKey : List (String × Listen)) :
    addDimensions filterNameMap (d :: ds) byKey =
      addDimensions filterNameMap ds
        (if byKey.any (fun e => e.1 == ((filterNameMap.get d.toStr).orElse d).toStr ++ "::" ++ d.toStr)
         then byKey
         else setKey byKey (((filterNameMap.get d.toStr).orElse d).toStr ++ "::" ++ d.toStr)
           { dashboard_filter_name := (filterNameMap.get d.toStr).orElse d, field := d }) := rfl

theorem any_key_iff (byKey : List (String × Listen)) (k : String) :
    byKey.any (fun e => e.1 == k) = true ↔ k ∈ byKey.map Prod.fst := by
  simp [List.any_eq_true]

theorem addDimensions_wellKeyed (filterNameMap : Dict) (ds : List JsVal)
    (byKey : List (String × Listen)) (h : WellKeyed byKey) :
    WellKeyed (addDimensions filterNameMap ds byKey) := by
  induction ds generalizing byKey with
  | nil => exact h
  | cons d ds ih =>
    rw [addDimensions_cons]
    apply ih
    split
    · exact h
    · exact WellKeyed.setKey byKey
        { dashboard_filter_name := (filterNameMap.get d.toStr).orElse d, field := d } h

theorem addDimensions_keys_mono (filterNameMap : Dict) (ds : List JsVal)
    (byKey : List (String × Listen)) (x : String) (h : x ∈ byKey.map Prod.fst) :
    x ∈ (addDimensions filterNameMap ds byKey).map Prod.fst := by
  induction ds generalizing byKey with
  | nil => exact h
  | cons d ds ih =>
    rw [addDimensions_cons]
    apply ih
    split
    · exact h
    · exact keys_subset_setKey _ _ _ _ h

/-- After the second loop the key of every selected dimension is in the map. -/
theorem addDimensions_covers (filterNameMap : Dict) (ds : List JsVal)
    (byKey : List (String × Listen)) (d : JsVal) (hd : d ∈ ds) :
    ((filterNameMap.get d.toStr).orElse d).toStr ++ "::" ++ d.toStr
      ∈ (addDimensions filterNameMap ds byKey).map Prod.fst := by
  induction ds generalizing byKey with
  | nil => simp at hd
  | cons d1 ds ih =>
    rw [addDimensions_cons]
    rcases List.mem_cons.1 hd with hEq | hmem
    · subst hEq
      apply addDimensions_keys_mono
      split
      · rename_i hany
        exact (any_key_iff _ _).1 hany
      · exact key_mem_setKey _ _ _
    · exact ih _ hmem

/-- The second loop changes nothing when every selected dimension has its key in the map. -/
theorem addDimensions_of_covered (filterNameMap : Dict) (ds : List JsVal)
    (byKey : List (String × Listen))
    (h : ∀ d ∈ ds, ((filterNameMap.get d.toStr).orElse d).toStr ++ "::" ++ d.toStr
      ∈ byKey.map Prod.fst) :
    addDimensions filterNameMap ds byKey = byKey := by
  induction ds with
  | nil => rfl
  | cons d ds ih =>
    rw [addDimensions_cons]
    have hd := (any_key_iff _ _).2 (h d (by simp))
    rw [if_pos hd]
    exact ih (fun x hx => h x (by simp [hx]))

/-- The list a call computes is a fixed point: computing again from it gives it back. -/
theorem updatedListens_fixed (filterNameMap : Dict) (ds : List JsVal) (current : List Listen) :
    updatedListens filterNameMap ds (updatedListens filterNameMap ds current)
      = updatedListens filterNameMap ds current := by
  have hwk : WellKeyed (addDimensions filterNameMap ds (seedListens current)) :=
    addDimensions_wellKeyed _ _ _ (seed_fold_wellKeyed current [] wellKeyed_nil)
  have hseed : seedListens (updatedListens filterNameMap ds current)
      = addDimensions filterNameMap ds (seedListens current) := by
    have := seed_fold_values (addDimensions filterNameMap ds (seedListens current)) []
      (by simpa using hwk)
    simpa [seedListens, updatedListens] using this
  unfold updatedListens at hseed ⊢
  rw [hseed, addDimensions_of_covered]
  intro d hd
  exact addDimensions_covers _ _ _ d hd

theorem someDiffers_self (ls : List Listen) : someDiffers ls ls = false := by
  induction ls with
  | nil => rfl
  | cons l ls ih => simp [someDiffers, ih]

theorem listensChanged_self (ls : List Listen) : listensChanged ls ls = false := by
  simp [listensChanged, someDiffers_self]

theorem someDiffers_false (us cs : List Listen) (hlen : us.length = cs.length)
    (h : someDiffers us cs = false) :
    us.map (fun l => (l.dashboard_filter_name, l.field))
      = cs.map (fun l => (l.dashboard_filter_name, l.field)) := by
  induction us generalizing cs with
  | nil =>
    cases cs with
    | nil => rfl
    | cons c cs => simp at hlen
  | cons u us ih =>
    cases cs with
    | nil => simp at hlen
    | cons c cs =>
      simp only [someDiffers, Bool.or_eq_false_iff, bne_eq_false_iff_eq] at h
      simp only [List.length_cons, Nat.add_right_cancel_iff] at hlen
      simp [h.1.1, h.1.2, ih cs hlen h.2]

/-- An unchanged tile: the computed list agrees with the current one in length and, position
by position, in filter name and field. -/
theorem listensChanged_false (us cs : List Listen) (h : listensChanged us cs = false) :
    us.map (fun l => (l.dashboard_filter_name, l.field))
      = cs.map (fun l => (l.dashboard_filter_name, l.field)) := by
  simp only [listensChanged, Bool.or_eq_false_iff, bne_eq_false_iff_eq] at h
  exact someDiffers_false us cs h.1 h.2

theorem storedAfter_unchanged (ds : List JsVal) (filterNameMap : Dict) (e stored : Element)
    (h : StoredAfter ds filterNameMap e stored) (kept : Filterable)
    (hk : firstFilterable stored = some kept) :
    listensChanged (updatedListens filterNameMap ds (kept.listen.getD [])) (kept.listen.getD [])
      = false := by
  unfold StoredAfter at h
  cases hf : firstFilterable e with
  | none =>
    rw [hf] at h
    simp only at h
    rw [h] at hk
    exact absurd hk (by simp)
  | some f =>
    rw [hf] at h
    simp only at h
    obtain ⟨kept2, hk2, hlisten⟩ := h
    rw [hk] at hk2
    have hEq : kept = kept2 := Option.some.inj hk2
    subst hEq
    rw [hlisten]
    cases hc : listensChanged (updatedListens filterNameMap ds (f.listen.getD []))
        (f.listen.getD []) with
    | true => simp only [if_true, updatedListens_fixed, listensChanged_self]
    | false => simpa using hc

theorem ensureTileListenersLoop_quiet (sdk : Sdk σ) (ds : List JsVal) (filterNameMap : Dict)
    (els : List Element) (w : World σ)
    (h : ∀ e ∈ els, ∀ f, firstFilterable e = some f →
      listensChanged (updatedListens filterNameMap ds (f.listen.getD [])) (f.listen.getD [])
        = false) :
    (ensureTileListenersLoop sdk ds filterNameMap els).run w = (.ok (), w) := by
  induction els with
  | nil => rfl
  | cons e els ih =>
    have ih2 := ih (fun x hx => h x (List.mem_cons_of_mem _ hx))
    unfold ensureTileListenersLoop
    cases hf : firstFilterable e with
    | none => simpa using ih2
    | some f =>
      have hq := h e (by simp) f hf
      simp only [hq, Bool.not_false, if_true]
      exact ih2

theorem forall₂_left_of_mem {α β : Type} {r : α → β → Prop} {xs : List α} {ys : List β}
    (h : List.Forall₂ r xs ys) (y : β) (hy : y ∈ ys) : ∃ x, x ∈ xs ∧ r x y := by
  induction h with
  | nil => simp at hy
  | cons hab _ ih =>
    rcases List.mem_cons.1 hy with hEq | hmem
    · subst hEq
      exact ⟨_, by simp, hab⟩
    · obtain ⟨x, hx1, hx2⟩ := ih hmem
      exact ⟨x, List.mem_cons_of_mem _ hx1, hx2⟩

/-- C4: let `stored` be the tiles as the client holds them after a first call of
`ensureTileListeners` with the same dimensions and name map (each tile carries the listen list
that call wrote, or the one it found when it wrote nothing).  A second call that fetches
`stored` returns after the fetch alone, with no `update_dashboard_element` call, and for every
tile the list it computes agrees with the stored one in length and, position by position, in
`dashboard_filter_name` and `field`. -/
theorem ensureTileListeners_second_call_quiet (sdk : Sdk σ) (w : World σ) (dashboardId : JsVal)
    (selectedFilterDimensions : List JsVal) (filterNameMap : Dict)
    (elements stored : List Element) (s1 : σ)
    (hstored : List.Forall₂ (StoredAfter selectedFilterDimensions filterNameMap) elements stored)
    (hfetch : sdk.dashboard_dashboard_elements dashboardId w.st = (.ok stored, s1)) :
    (ensureTileListeners sdk dashboardId selectedFilterDimensions filterNameMap).run w
      = (.ok (), { st := s1,
                   trace := w.trace ++ [Call.dashboard_dashboard_elements dashboardId] }) ∧
    ∀ tile ∈ stored, ∀ f, firstFilterable tile = some f →
      (updatedListens filterNameMap selectedFilterDimensions (f.listen.getD [])).map
          (fun l => (l.dashboard_filter_name, l.field))
        = (f.listen.getD []).map (fun l => (l.dashboard_filter_name, l.field)) := by
  have hquiet : ∀ tile ∈ stored, ∀ f, firstFilterable tile = some f →
      listensChanged (updatedListens filterNameMap selectedFilterDimensions (f.listen.getD []))
        (f.listen.getD []) = false := by
    intro tile htile f hf
    obtain ⟨e, _, he⟩ := forall₂_left_of_mem hstored tile htile
    exact storedAfter_unchanged _ _ e tile he f hf
  refine ⟨?_, ?_⟩
  · unfold ensureTileListeners
    rw [Op.run_bind]
    simp only [Sdk.okDashboardElements, Op.run_request, hfetch]
    exact ensureTileListenersLoop_quiet sdk _ _ stored _ hquiet
  · intro tile htile f hf
    exact listensChanged_false _ _ (hquiet tile htile f hf)

/-- C4 at a concrete input, on a client that stores what is written: a first call rewrites
tile `1` (its duplicate listener is merged and `orders.status` is added), and the second call
with the same inputs only fetches the tiles. -/
theorem ensureTileListeners_second_call_quiet_witness :
    (((ensureTileListeners memorySdk (.num 9) [.str "orders.region", .str "orders.status"]
        [("orders.region", .str "Region")]).run
          { st := listenerTiles, trace := [] }).2.trace.length = 2) ∧
    ((ensureTileListeners memorySdk (.num 9) [.str "orders.region", .str "orders.status"]
        [("orders.region", .str "Region")]).run
          ((ensureTileListeners memorySdk (.num 9) [.str "orders.region", .str "orders.status"]
            [("orders.region", .str "Region")]).run { st := listenerTiles, trace := [] }).2).2.trace
      = ((ensureTileListeners memorySdk (.num 9) [.str "orders.region", .str "orders.status"]
            [("orders.region", .str "Region")]).run { st := listenerTiles, trace := [] }).2.trace
          ++ [Call.dashboard_dashboard_elements (.num 9)] := by
  have h := ensureTileListeners_second_call_quiet memorySdk
    ((ensureTileListeners memorySdk (.num 9) [.str "orders.region", .str "orders.status"]
      [("orders.region", .str "Region")]).run { st := listenerTiles, trace := [] }).2
    (.num 9) [.str "orders.region", .str "orders.status"] [("orders.region", .str "Region")]
    listenerTiles
    ((ensureTileListeners memorySdk (.num 9) [.str "orders.region", .str "orders.status"]
      [("orders.region", .str "Region")]).run { st := listenerTiles, trace := [] }).2.st
    ((ensureTileListeners memorySdk (.num 9) [.str "orders.region", .str "orders.status"]
      [("orders.region", .str "Region")]).run { st := listenerTiles, trace := [] }).2.st
    (List.Forall₂.cons ⟨_, rfl, rfl⟩ (List.Forall₂.cons rfl List.Forall₂.nil))
    rfl
  refine ⟨rfl, ?_⟩
  rw [h.1]

/-! ## getDashboardListForUI -/

/-- C5, as the code has it: let `found` be the folder search result and `originalDashboardId`
an id whose string form is not that of any non-deleted dashboard of `found`.  When
`originalDashboardId` is falsy (not supplied) the folder list is returned and nothing is
fetched.  Otherwise the dashboard is fetched; when the fetch answers a dashboard with a truthy
id and a truthy title, the result is the `{id, title}` entries of the non-deleted dashboards of
`found`, in their order, followed by exactly one entry with the id and title of the fetched
dashboard (one more than the folder list); when the fetched dashboard lacks an id or a title
the folder list is returned unchanged. -/
theorem getDashboardListForUI_appends_original (sdk : Sdk σ) (w : World σ)
    (folderId originalDashboardId : JsVal) (found : List Dashboard) (s1 : σ)
    (hsearch : sdk.search_dashboards { folder_id := folderId } w.st = (.ok found, s1))
    (habsent : ∀ d ∈ found, d.deleted.truthy = false → d.id.toStr ≠ originalDashboardId.toStr) :
    (originalDashboardId.truthy = false →
      (getDashboardListForUI sdk folderId originalDashboardId).run w
        = (.ok ((found.filter (fun d => !d.deleted.truthy)).map uiEntry),
            { st := s1, trace := w.trace ++ [Call.search_dashboards { folder_id := folderId }] })) ∧
    (originalDashboardId.truthy = true →
      ∀ (original : Dashboard) (s2 : σ),
        sdk.dashboard originalDashboardId s1 = (.ok original, s2) →
        ((getDashboardListForUI sdk folderId originalDashboardId).run w).1
          = .ok (if original.id.truthy = true ∧ original.title.truthy = true
              then (found.filter (fun d => !d.deleted.truthy)).map uiEntry ++
                [{ id := original.id.toStr, title := original.title }]
              else (found.filter (fun d => !d.deleted.truthy)).map uiEntry) ∧
        (original.id.truthy = true → original.title.truthy = true →
          ∃ list, ((getDashboardListForUI sdk folderId originalDashboardId).run w).1 = .ok list ∧
            list.length = ((found.filter (fun d => !d.deleted.truthy)).map uiEntry).length + 1)) := by
  have hnot : ((found.filter (fun d => !d.deleted.truthy)).map uiEntry).any
      (fun dashboard => dashboard.id == originalDashboardId.toStr) = false := by
    rw [List.any_eq_false]
    intro e he
    simp only [List.mem_map, List.mem_filter] at he
    obtain ⟨d, ⟨hd1, hd2⟩, hde⟩ := he
    have := habsent d hd1 (by simpa using hd2)
    subst hde
    simpa [uiEntry] using this
  refine ⟨?_, ?_⟩
  · intro hfalsy
    unfold getDashboardListForUI
    rw [Op.run_bind]
    simp [Sdk.okSearchDashboards, hsearch, hfalsy]
  · intro htruthy original s2 hfetch
    have hrun : ((getDashboardListForUI sdk folderId originalDashboardId).run w).1
        = .ok (if original.id.truthy = true ∧ original.title.truthy = true
            then (found.filter (fun d => !d.deleted.truthy)).map uiEntry ++
              [{ id := original.id.toStr, title := original.title }]
            else (found.filter (fun d => !d.deleted.truthy)).map uiEntry) := by
      unfold getDashboardListForUI
      rw [Op.run_bind]
      simp only [Sdk.okSearchDashboards, Op.run_request, hsearch, htruthy, Bool.not_true,
        Bool.false_eq_true, if_false, hnot]
      rw [Op.run_bind]
      simp only [Sdk.okDashboard, Op.run_request, hfetch]
      cases hid : original.id.truthy <;> cases htl : original.title.truthy <;> simp [uiEntry]
    refine ⟨hrun, ?_⟩
    intro hid htl
    refine ⟨_, hrun, ?_⟩
    simp [hid, htl]

/-- C5 at a concrete input: a folder with the live dashboards `1` and `3` and the deleted `2`;
the original `42` lives elsewhere and is appended after the folder entries. -/
theorem getDashboardListForUI_appends_original_witness :
    ((getDashboardListForUI listingSdk (.str "12") (.str "42")).run startWorld).1
      = .ok [{ id := "1", title := .str "Sales" }, { id := "3", title := .str "Ops" },
             { id := "42", title := .str "Master" }] := by
  have h := (getDashboardListForUI_appends_original listingSdk startWorld (.str "12") (.str "42")
    [{ id := .num 1, title := .str "Sales" },
     { id := .num 2, title := .str "Old", deleted := .bool true },
     { id := .num 3, title := .str "Ops" }] () rfl
    (by
      intro d hd _
      simp only [List.mem_cons, List.mem_singleton, List.not_mem_nil, or_false] at hd
      rcases hd with rfl | rfl | rfl <;> decide)).2 rfl
    { id := .num 42, title := .str "Master" } () rfl
  rw [h.1]
  rfl

/-- C5 fails as stated.  (a) The id `42` is supplied and is in the folder list of no dashboard,
and the dashboard fetched for it has an empty title: the list returned has the folder entry
alone, not one more.  (b) The id is not supplied (`undefined`): nothing is appended. -/
theorem getDashboardListForUI_no_extra_entry :
    ((getDashboardListForUI untitledOriginalSdk (.str "12") (.str "42")).run startWorld).1
      = .ok [{ id := "1", title := .str "Sales" }] ∧
    ((getDashboardListForUI listingSdk (.str "12") .undefined).run startWorld).1
      = .ok [{ id := "1", title := .str "Sales" }, { id := "3", title := .str "Ops" }] :=
  ⟨rfl, rfl⟩

/-- C6 fails as stated: the folder is empty and the dashboard fetched for
`originalDashboardId = 7` has `deleted = true`; it is listed all the same. -/
theorem getDashboardListForUI_lists_deleted_original :
    ((getDashboardListForUI deletedOriginalSdk (.str "12") (.str "7")).run startWorld).1
      = .ok [{ id := "7", title := .str "Old report" }] :=
  rfl

/-- C6, as the code has it: the list returned is the `{id, title}` entries of the dashboards of
the folder search result whose `deleted` flag is not set, in their order, and nothing else but,
possibly, one last entry: that of the dashboard fetched for `originalDashboardId`, whose
`deleted` flag is not looked at.  When that fetch fails, the call fails with its error. -/
theorem getDashboardListForUI_entries (sdk : Sdk σ) (w : World σ)
    (folderId originalDashboardId : JsVal) (found : List Dashboard) (s1 : σ)
    (hsearch : sdk.search_dashboards { folder_id := folderId } w.st = (.ok found, s1)) :
    (∀ e ∈ (found.filter (fun d => !d.deleted.truthy)).map uiEntry,
      ∃ d ∈ found, d.deleted.truthy = false ∧ e = uiEntry d) ∧
    (((getDashboardListForUI sdk folderId originalDashboardId).run w).1
        = .ok ((found.filter (fun d => !d.deleted.truthy)).map uiEntry) ∨
      (∃ original s2, sdk.dashboard originalDashboardId s1 = (.ok original, s2) ∧
        ((getDashboardListForUI sdk folderId originalDashboardId).run w).1
          = .ok ((found.filter (fun d => !d.deleted.truthy)).map uiEntry ++
              [{ id := original.id.toStr, title := original.title }])) ∨
      (∃ e s2, sdk.dashboard originalDashboardId s1 = (.error e, s2) ∧
        ((getDashboardListForUI sdk folderId originalDashboardId).run w).1 = .error e)) ∧
    (∀ original s2, originalDashboardId.truthy = true →
      (∀ d ∈ found, d.deleted.truthy = false → d.id.toStr ≠ originalDashboardId.toStr) →
      sdk.dashboard originalDashboardId s1 = (.ok original, s2) →
      original.id.truthy = true → original.title.truthy = true →
      ((getDashboardListForUI sdk folderId originalDashboardId).run w).1
        = .ok ((found.filter (fun d => !d.deleted.truthy)).map uiEntry ++
            [{ id := original.id.toStr, title := original.title }])) := by
  refine ⟨?_, ?_, ?_⟩
  · intro e he
    simp only [List.mem_map, List.mem_filter] at he
    obtain ⟨d, ⟨hd1, hd2⟩, hde⟩ := he
    exact ⟨d, hd1, by simpa using hd2, hde.symm⟩
  · unfold getDashboardListForUI
    rw [Op.run_bind]
    simp only [Sdk.okSearchDashboards, Op.run_request, hsearch]
    cases ht : originalDashboardId.truthy with
    | false => exact Or.inl (by simp)
    | true =>
      simp only [Bool.not_true, Bool.false_eq_true, if_false]
      split
      · exact Or.inl (by simp)
      · rw [Op.run_bind]
        simp only [Sdk.okDashboard, Op.run_request]
        cases hf : sdk.dashboard originalDashboardId s1 with
        | mk r s2 =>
          cases r with
          | error e => exact Or.inr (Or.inr ⟨e, s2, rfl, rfl⟩)
          | ok original =>
            simp only
            split
            · exact Or.inl (by simp)
            · exact Or.inr (Or.inl ⟨original, s2, rfl, by simp [uiEntry]⟩)
  · intro original s2 htruthy habsent hfetch hid htl
    have hnot : ((found.filter (fun d => !d.deleted.truthy)).map uiEntry).any
        (fun dashboard => dashboard.id == originalDashboardId.toStr) = false := by
      rw [List.any_eq_false]
      intro e he
      simp only [List.mem_map, List.mem_filter] at he
      obtain ⟨d, ⟨hd1, hd2⟩, hde⟩ := he
      have := habsent d hd1 (by simpa using hd2)
      subst hde
      simpa [uiEntry] using this
    unfold getDashboardListForUI
    rw [Op.run_bind]
    simp only [Sdk.okSearchDashboards, Op.run_request, hsearch, htruthy, Bool.not_true,
      Bool.false_eq_true, if_false, hnot]
    rw [Op.run_bind]
    simp only [Sdk.okDashboard, Op.run_request, hfetch]
    simp [hid, htl, uiEntry]

/-- C6 at a concrete input: of the folder entries `1`, `2` (deleted) and `3`, the deleted one
is left out; the original `7` is fetched, is soft-deleted, and is the last entry. -/
theorem getDashboardListForUI_entries_witness :
    ((getDashboardListForUI
        (scriptedSdk
          { dashboards := fun _ =>
              [{ id := .num 1, title := .str "Sales" },
               { id := .num 2, title := .str "Old", deleted := .bool true },
               { id := .num 3, title := .str "Ops" }]
            dashboard := fun _ =>
              .ok { id := .str "7", title := .str "Old report", deleted := .bool true } })
        (.str "12") (.str "7")).run startWorld).1
      = .ok [{ id := "1", title := .str "Sales" }, { id := "3", title := .str "Ops" },
             { id := "7", title := .str "Old report" }] := by
  have h := (getDashboardListForUI_entries
    (scriptedSdk
      { dashboards := fun _ =>
          [{ id := .num 1, title := .str "Sales" },
           { id := .num 2, title := .str "Old", deleted := .bool true },
           { id := .num 3, title := .str "Ops" }]
        dashboard := fun _ =>
          .ok { id := .str "7", title := .str "Old report", deleted := .bool true } })
    startWorld (.str "12") (.str "7")
    [{ id := .num 1, title := .str "Sales" },
     { id := .num 2, title := .str "Old", deleted := .bool true },
     { id := .num 3, title := .str "Ops" }] () rfl).2.2
    { id := .str "7", title := .str "Old report", deleted := .bool true } () rfl
    (by
      intro d hd _
      simp only [List.mem_cons, List.mem_singleton, List.not_mem_nil, or_false] at hd
      rcases hd with rfl | rfl | rfl <;> decide)
    rfl rfl rfl
  rw [h]
  rfl

/-- When every dashboard of the search result is soft-deleted, `ensureDashboardCopyInFolder`
copies the original and renames the copy, and returns the id of the copy once the rename has
succeeded. -/
theorem ensureDashboardCopyInFolder_ignores_deleted (sdk : Sdk σ) (w : World σ)
    (originalDashboardId folderId : JsVal) (copyTitle : String) (found : List Dashboard)
    (copied : Dashboard) (s1 s2 s3 : σ)
    (hsearch : sdk.search_dashboards
        { folder_id := folderId, fields := some "id,title,folder_id,deleted", per_page := some 200 }
        w.st = (.ok found, s1))
    (hdeleted : ∀ d ∈ found, d.deleted.truthy = true)
    (hcopy : sdk.copy_dashboard originalDashboardId folderId s1 = (.ok copied, s2))
    (hid : copied.id.truthy = true)
    (hrename : sdk.update_dashboard copied.id copyTitle s2 = (.ok (), s3)) :
    (ensureDashboardCopyInFolder sdk originalDashboardId folderId copyTitle).run w
      = (.ok copied.id.toStr,
          { st := s3,
            trace := w.trace ++
              [Call.search_dashboards
                { folder_id := folderId, fields := some "id,title,folder_id,deleted",
                  per_page := some 200 },
               Call.copy_dashboard originalDashboardId folderId,
               Call.update_dashboard copied.id copyTitle] }) := by
  have hfind : found.find? (isExistingCopy folderId copyTitle) = none := by
    rw [List.find?_eq_none]
    intro d hd
    simp [isExistingCopy, hdeleted d hd]
  unfold ensureDashboardCopyInFolder
  rw [Op.run_bind]
  simp only [Sdk.okSearchDashboards, Op.run_request, hsearch, hfind]
  unfold copyAndRename
  rw [Op.run_bind]
  simp only [Sdk.okCopyDashboard, Op.run_request, hcopy, hid, Bool.not_true, Bool.false_eq_true,
    if_false]
  rw [Op.run_bind]
  simp [Sdk.okUpdateDashboard, hrename]

/-- C7 fails on the code for `saveDashboardCopy`: the folder search returns only a soft-deleted
dashboard titled `Q3`.  `ensureDashboardCopyInFolder` ignores it, copies the original and
returns the id of the copy; `saveDashboardCopy` throws that the name already exists and
issues no copy. -/
theorem saveDashboardCopy_counts_deleted_namesake :
    ((ensureDashboardCopyInFolder deletedNamesakeSdk (.num 1) (.str "12") "Q3").run
        startWorld).1 = .ok "900" ∧
    (saveDashboardCopy deletedNamesakeSdk (.num 1) (.str "12") "Q3").run startWorld
      = (.error "A dashboard named \"Q3\" already exists in the folder.",
          { st := (), trace := [Call.search_dashboards
              { folder_id := .str "12", title := some "Q3" }] }) :=
  ⟨rfl, rfl⟩

/-! ## findDashboardInNestedPath: the folder walk -/

theorem findByNormName_first {α : Type} (nameOf : α → JsVal) (target err : String)
    (pre post : List α) (x : α) (n : String)
    (hpre : ∀ g ∈ pre, NameDiffers target (nameOf g)) (hx : nameOf x = .str n)
    (hn : normStr n = target) :
    findByNormName nameOf target err (pre ++ x :: post) = .ok (some x) := by
  induction pre with
  | nil => simp [findByNormName, hx, hn]
  | cons g pre ih =>
    have hg := hpre g (by simp)
    have ih2 := ih (fun y hy => hpre y (List.mem_cons_of_mem _ hy))
    rcases hg with hg | hg | ⟨m, hg, hm⟩
    · simp [findByNormName, hg, ih2]
    · simp [findByNormName, hg, ih2]
    · simp [findByNormName, hg, hm, ih2]

theorem findByNormName_none {α : Type} (nameOf : α → JsVal) (target err : String)
    (xs : List α) (h : ∀ g ∈ xs, NameDiffers target (nameOf g)) :
    findByNormName nameOf target err xs = .ok none := by
  induction xs with
  | nil => rfl
  | cons g xs ih =>
    have hg := h g (by simp)
    have ih2 := ih (fun y hy => h y (List.mem_cons_of_mem _ hy))
    rcases hg with hg | hg | ⟨m, hg, hm⟩
    · simp [findByNormName, hg, ih2]
    · simp [findByNormName, hg, ih2]
    · simp [findByNormName, hg, hm, ih2]

/-- The loop of the code follows a successful walk: on the segments of the walk followed by
`more`, it issues the calls of the walk and goes on with `more` from the folder reached. -/
theorem walkFolders_of_walk (sdk : Sdk σ) (i : Nat) (s : σ) (cur : Option String)
    (segs : List String) (calls : List Call) (s2 : σ) (fin : Option String)
    (h : Walk sdk i s cur segs calls s2 fin) (more : List String) (tr : List Call) :
    (walkFolders sdk i (segs ++ more) cur).run { st := s, trace := tr }
      = (walkFolders sdk (i + segs.length) more fin).run { st := s2, trace := tr ++ calls } := by
  induction h generalizing tr with
  | done i s cur => simp
  | home s s1 s2 cur fin user rest calls hme hhome _ ih =>
    simp only [List.cons_append, walkFolders, true_and, if_true]
    rw [Op.run_bind]
    simp only [Sdk.okMe, Op.run_request, hme, hhome, Bool.not_true, Bool.false_eq_true, if_false]
    refine (ih _).trans ?_
    have e1 : 1 + rest.length = 0 + ("shared" :: rest).length := by
      simp [Nat.add_comm]
    have e2 : (tr ++ [Call.me]) ++ calls = tr ++ Call.me :: calls := by simp
    rw [e1, e2]
  | child i s s1 s2 cur fin segment rest pre post f n calls hnot hsearch hpre hname hnorm _ ih =>
    simp only [List.cons_append, walkFolders, hnot, if_false]
    rw [Op.run_bind]
    simp only [Sdk.okSearchFolders, Op.run_request, hsearch]
    rw [Op.run_bind, findByNormName_first Folder.name segment _ pre post f n hpre hname hnorm]
    simp only [Op.ofExcept, Op.run_ret]
    refine (ih _).trans ?_
    have e1 : i + 1 + rest.length = i + (segment :: rest).length := by
      simp [Nat.add_comm, Nat.add_left_comm]
    have e2 : (tr ++ [Call.search_folders (childSearch cur segment)]) ++ calls
        = tr ++ Call.search_folders (childSearch cur segment) :: calls := by simp
    rw [e1, e2]

theorem walk_calls_length (sdk : Sdk σ) (i : Nat) (s : σ) (cur : Option String)
    (segs : List String) (calls : List Call) (s2 : σ) (fin : Option String)
    (h : Walk sdk i s cur segs calls s2 fin) : calls.length = segs.length := by
  induction h with
  | done => rfl
  | home _ _ _ _ _ _ _ _ _ _ _ ih => simp [ih]
  | child _ _ _ _ _ _ _ _ _ _ _ _ _ _ _ _ _ _ _ ih => simp [ih]

theorem walk_calls_no_dashboard_search (sdk : Sdk σ) (i : Nat) (s : σ) (cur : Option String)
    (segs : List String) (calls : List Call) (s2 : σ) (fin : Option String)
    (h : Walk sdk i s cur segs calls s2 fin) : ∀ c ∈ calls, c.isDashboardSearch = false := by
  induction h with
  | done => simp
  | home _ _ _ _ _ _ _ _ _ _ _ ih =>
    intro c hc
    rcases List.mem_cons.1 hc with hEq | hmem
    · rw [hEq]; rfl
    · exact ih c hmem
  | child _ _ _ _ _ _ _ _ _ _ _ _ _ _ _ _ _ _ _ ih =>
    intro c hc
    rcases List.mem_cons.1 hc with hEq | hmem
    · rw [hEq]; rfl
    · exact ih c hmem

theorem Op.grows_pure {α : Type} (a : α) : (pure a : Op σ α).Grows :=
  fun w => ⟨[], by simp⟩

theorem Op.grows_fail {α : Type} (msg : String) : (Op.fail msg : Op σ α).Grows :=
  fun w => ⟨[], by simp⟩

theorem Op.grows_request {α : Type} (c : Call) (answer : σ → Except String α × σ) :
    (Op.request c answer).Grows :=
  fun w => ⟨[c], by simp⟩

theorem Op.grows_ofExcept {α : Type} (r : Except String α) : (Op.ofExcept r : Op σ α).Grows := by
  cases r with
  | ok a => exact fun w => ⟨[], by simp [Op.ofExcept]⟩
  | error e => exact fun w => ⟨[], by simp [Op.ofExcept]⟩

theorem Op.grows_bind {α β : Type} (m : Op σ α) (f : α → Op σ β) (hm : m.Grows)
    (hf : ∀ a, (f a).Grows) : (m >>= f).Grows := by
  intro w
  obtain ⟨t1, h1⟩ := hm w
  rw [Op.run_bind]
  cases hrun : m.run w with
  | mk r w1 =>
    rw [hrun] at h1
    cases r with
    | error e => exact ⟨t1, h1⟩
    | ok a =>
      obtain ⟨t2, h2⟩ := hf a w1
      refine ⟨t1 ++ t2, ?_⟩
      simp only at h1 ⊢
      rw [h2, h1, List.append_assoc]

theorem pickDashboard_grows (sdk : Sdk σ) (folder title : String) (inFolder : List Dashboard) :
    (pickDashboard sdk folder title inFolder).Grows := by
  unfold pickDashboard
  cases inFolder with
  | nil => exact Op.grows_bind _ _ (Op.grows_request _ _) (fun _ => Op.grows_fail _)
  | cons first restList =>
    refine Op.grows_bind _ _ (Op.grows_ofExcept _) (fun em => ?_)
    simp only
    split
    · exact Op.grows_fail _
    · exact Op.grows_pure _

/-- The dashboard search in the folder reached is the first call of the last part of
`findDashboardInNestedPath`. -/
theorem findDashboardInFolder_trace (sdk : Sdk σ) (folder title : String) (w : World σ) :
    ∃ tail, ((findDashboardInFolder sdk folder title).run w).2.trace
      = w.trace ++ Call.search_dashboards (titleSearch folder title) :: tail := by
  unfold findDashboardInFolder
  rw [Op.run_bind]
  simp only [Sdk.okSearchDashboards, Op.run_request]
  cases hres : (sdk.search_dashboards (titleSearch folder title) w.st).1 with
  | error e => exact ⟨[], by simp [titleSearch, hres]⟩
  | ok dashboards =>
    simp only [titleSearch] at hres
    simp only [hres]
    obtain ⟨tail, htail⟩ := pickDashboard_grows sdk folder title
      (dashboards.filter (fun d => d.folder_id.toStr == folder && !d.deleted.truthy))
      { st := (sdk.search_dashboards (titleSearch folder title) w.st).2,
        trace := w.trace ++ [Call.search_dashboards (titleSearch folder title)] }
    refine ⟨tail, ?_⟩
    simp only [titleSearch] at htail ⊢
    rw [htail]
    simp

theorem tryCatch_fail_world {α : Type} (m : Op σ α) (g : String → String) (w : World σ) :
    ((Op.tryCatch m (fun e => Op.fail (g e))).run w).2 = (m.run w).2 := by
  rw [Op.run_tryCatch]
  split <;> simp_all

theorem tryCatch_fail_result {α : Type} (m : Op σ α) (g : String → String) (w : World σ) :
    ((Op.tryCatch m (fun e => Op.fail (g e))).run w).1
      = match (m.run w).1 with
        | .ok a => .ok a
        | .error e => .error (g e) := by
  rw [Op.run_tryCatch]
  split <;> simp_all

/-- C8: for a path (array, or string split on `/`) whose first normalised segment is `shared`,
when `me` answers a user with a home folder and the later segments walk successfully (each one
to the first folder, among those returned for the current parent, whose trimmed lower-cased
name is the segment) down to a folder with a non-empty id `fid`, the calls issued are `me`,
then exactly one folder search per later segment (none for the first segment), each with
`parent_id` the folder resolved just before, then the dashboard search with
`folder_id = fid`. -/
theorem findDashboardInNestedPath_walks_from_home (sdk : Sdk σ) (w : World σ)
    (pathSegments : PathArg) (dashboardTitle : String) (segs : List String) (user : User)
    (s0 s1 : σ) (calls : List Call) (fid : String)
    (hparts : pathParts pathSegments = "shared" :: segs)
    (hme : sdk.me w.st = (.ok user, s0))
    (hhome : user.home_folder_id.truthy = true)
    (hwalk : Walk sdk 1 s0 (some user.home_folder_id.toStr) segs calls s1 (some fid))
    (hfid : fid ≠ "") :
    calls.length = segs.length ∧
    ∃ tail, ((findDashboardInNestedPath sdk pathSegments dashboardTitle).run w).2.trace
      = w.trace ++ Call.me :: calls ++
          Call.search_dashboards (titleSearch fid dashboardTitle) :: tail := by
  refine ⟨walk_calls_length sdk _ _ _ _ _ _ _ hwalk, ?_⟩
  have hfull : Walk sdk 0 w.st none ("shared" :: segs) (Call.me :: calls) s1 (some fid) :=
    Walk.home w.st s0 s1 none (some fid) user segs calls hme hhome hwalk
  have hrun : (walkFolders sdk 0 ("shared" :: segs) none).run w
      = (.ok (some fid), { st := s1, trace := w.trace ++ Call.me :: calls }) := by
    have h := walkFolders_of_walk sdk 0 w.st none _ _ s1 _ hfull [] w.trace
    rw [List.append_nil] at h
    exact h
  obtain ⟨tail, htail⟩ := findDashboardInFolder_trace sdk fid dashboardTitle
    { st := s1, trace := w.trace ++ Call.me :: calls }
  refine ⟨tail, ?_⟩
  unfold findDashboardInNestedPath
  rw [tryCatch_fail_world]
  unfold findDashboardBody
  simp only [hparts, List.length_cons, Nat.add_one_ne_zero, if_false]
  rw [Op.run_bind]
  rw [hrun]
  simp only [hfid, if_false]
  rw [htail]

/-- C8 at concrete inputs.  `findDashboardInNestedPath(["Shared","A","B"], "Report X")` asks
`me`, searches `a` under the home folder `100`, `b` under ` A ` (`200`), and the dashboard in
`B` (`300`).  The path `　SHARED /A` (an ideographic space in front) starts at the home folder
as well. -/
theorem findDashboardInNestedPath_walks_from_home_witness :
    (∃ tail, ((findDashboardInNestedPath pathSdk (.arr ["Shared", "A", "B"]) "Report X").run
        startWorld).2.trace
      = [Call.me, Call.search_folders (childSearch (some "100") "a"),
          Call.search_folders (childSearch (some "200") "b"),
          Call.search_dashboards (titleSearch "300" "Report X")] ++ tail) ∧
    pathParts (.str "　SHARED /A") = ["shared", "a"] ∧
    pathParts (.arr ["　Shared", "Été"]) = ["shared", "été"] ∧
    ((findDashboardInNestedPath pathSdk (.str "　SHARED /A") "Report X").run
        startWorld).2.trace.take 3
      = [Call.me, Call.search_folders (childSearch (some "100") "a"),
          Call.search_dashboards (titleSearch "200" "Report X")] := by
  have h := findDashboardInNestedPath_walks_from_home pathSdk startWorld
    (.arr ["Shared", "A", "B"]) "Report X" ["a", "b"] { home_folder_id := .num 100 } () ()
    [Call.search_folders (childSearch (some "100") "a"),
     Call.search_folders (childSearch (some "200") "b")] "300"
    (by decide) rfl rfl
    (Walk.child 1 () () () (some "100") (some "300") "a" ["b"]
      [{ id := .num 150, name := .str "Alpha" }] [] { id := .num 200, name := .str " A " } " A "
      [Call.search_folders (childSearch (some "200") "b")]
      (by decide) rfl
      (by
        intro g hg
        rw [List.mem_singleton] at hg
        subst hg
        exact Or.inr (Or.inr ⟨"Alpha", rfl, by decide⟩))
      rfl (by decide)
      (Walk.child 2 () () () (some "200") (some "300") "b" [] [] []
        { id := .num 300, name := .str "B" } "B" [] (by decide) rfl (by simp) rfl (by decide)
        (Walk.done 3 () (some "300"))))
    (by decide)
  obtain ⟨tail, htail⟩ := h.2
  exact ⟨⟨tail, by rw [htail]; rfl⟩, by decide, by decide, rfl⟩

/-! ## findDashboardInNestedPath: a missing segment -/

/-- C9, as the code has it: let the segments before `segment` walk successfully to the folder
`cur`, and let the search for `segment` (trimmed and lower-cased) under `cur` return folders
whose names are absent or strings other than `segment` once trimmed and lower-cased.  The
operation then lists the folders under `cur`.  When the listing returns `siblings`, the
operation throws `Failed to locate dashboard "<dashboardTitle>": Folder "<segment>" not found.
Available: <names>`, where `<names>` is the sibling names joined by `, `, or `None` when that
join is empty; when the listing fails, it throws `Failed to locate dashboard
"<dashboardTitle>": ` followed by the message of that failure.  In both cases the calls issued
are those of the walk and the two folder searches, none of them a dashboard search.  Moreover
every failure of the operation, for any path, title and world, carries a message that starts
with `Failed to locate dashboard "<dashboardTitle>": `. -/
theorem findDashboardInNestedPath_missing_segment (sdk : Sdk σ) (w : World σ)
    (pathSegments : PathArg) (dashboardTitle : String) (walked : List String) (segment : String)
    (rest : List String) (calls : List Call) (s1 s2 : σ) (cur : Option String)
    (folders : List Folder)
    (hparts : pathParts pathSegments = walked ++ segment :: rest)
    (hwalk : Walk sdk 0 w.st none walked calls s1 cur)
    (hlevel : ¬ (walked.length = 0 ∧ segment = "shared"))
    (hsearch : sdk.search_folders (childSearch cur segment) s1 = (.ok folders, s2))
    (hnone : ∀ f ∈ folders, NameDiffers segment f.name) :
    (∀ (siblings : List Folder) (s3 : σ),
      sdk.search_folders (siblingSearch cur) s2 = (.ok siblings, s3) →
      (findDashboardInNestedPath sdk pathSegments dashboardTitle).run w
        = (.error ("Failed to locate dashboard \"" ++ dashboardTitle ++ "\": " ++
              ("Folder \"" ++ segment ++ "\" not found. Available: " ++
                (if joinComma (siblings.map (fun f => joinStr f.name)) = "" then "None"
                 else joinComma (siblings.map (fun f => joinStr f.name))))),
            { st := s3,
              trace := w.trace ++ (calls ++ [Call.search_folders (childSearch cur segment),
                Call.search_folders (siblingSearch cur)]) })) ∧
    (∀ (failure : String) (s3 : σ),
      sdk.search_folders (siblingSearch cur) s2 = (.error failure, s3) →
      (findDashboardInNestedPath sdk pathSegments dashboardTitle).run w
        = (.error ("Failed to locate dashboard \"" ++ dashboardTitle ++ "\": " ++ failure),
            { st := s3,
              trace := w.trace ++ (calls ++ [Call.search_folders (childSearch cur segment),
                Call.search_folders (siblingSearch cur)]) })) ∧
    (∀ c ∈ calls ++ [Call.search_folders (childSearch cur segment),
        Call.search_folders (siblingSearch cur)], c.isDashboardSearch = false) ∧
    (∀ (anyPath : PathArg) (anyTitle : String) (anyWorld : World σ) (e : String),
      ((findDashboardInNestedPath sdk anyPath anyTitle).run anyWorld).1 = .error e →
      ∃ inner, e = "Failed to locate dashboard \"" ++ anyTitle ++ "\": " ++ inner) := by
  have hstep : (walkFolders sdk 0 (walked ++ segment :: rest) none).run w
      = (do
          let siblings ← sdk.okSearchFolders (siblingSearch cur)
          let available := joinOrNone (siblings.map (fun (f : Folder) => joinStr f.name))
          (Op.fail ("Folder \"" ++ segment ++ "\" not found. Available: " ++ available) :
            Op σ (Option String))).run
          { st := s2,
            trace := w.trace ++ calls ++ [Call.search_folders (childSearch cur segment)] } := by
    have h := walkFolders_of_walk sdk 0 w.st none _ _ s1 _ hwalk (segment :: rest) w.trace
    refine h.trans ?_
    have hlevel2 : ¬ (0 + walked.length = 0 ∧ segment = "shared") := by
      simpa using hlevel
    simp only [walkFolders, hlevel2, if_false]
    rw [Op.run_bind]
    simp only [Sdk.okSearchFolders, Op.run_request, hsearch]
    rw [Op.run_bind, findByNormName_none Folder.name segment _ folders hnone]
    simp only [Op.ofExcept, Op.run_ret]
  have hlen : ¬ ((walked ++ segment :: rest).length = 0) := by simp
  refine ⟨?_, ?_, ?_, ?_⟩
  · intro siblings s3 hsiblings
    unfold findDashboardInNestedPath
    rw [Op.run_tryCatch]
    unfold findDashboardBody
    simp only [hparts, hlen, if_false]
    rw [Op.run_bind, hstep, Op.run_bind]
    simp only [Sdk.okSearchFolders, Op.run_request, hsiblings, Op.run_fail]
    simp [joinOrNone, List.append_assoc]
  · intro failure s3 hsiblings
    unfold findDashboardInNestedPath
    rw [Op.run_tryCatch]
    unfold findDashboardBody
    simp only [hparts, hlen, if_false]
    rw [Op.run_bind, hstep, Op.run_bind]
    simp only [Sdk.okSearchFolders, Op.run_request, hsiblings, Op.run_fail]
    simp [List.append_assoc]
  · intro c hc
    rcases List.mem_append.1 hc with h1 | h2
    · exact walk_calls_no_dashboard_search sdk _ _ _ _ _ _ _ hwalk c h1
    · simp only [List.mem_cons, List.mem_singleton, List.not_mem_nil, or_false] at h2
      rcases h2 with h2 | h2 <;> rw [h2] <;> rfl
  · intro anyPath anyTitle anyWorld e he
    unfold findDashboardInNestedPath at he
    rw [tryCatch_fail_result] at he
    cases hb : ((findDashboardBody sdk anyPath anyTitle).run anyWorld).1 with
    | ok a => rw [hb] at he; simp at he
    | error inner =>
      rw [hb] at he
      simp only [Except.error.injEq] at he
      exact ⟨inner, he.symm⟩

/-- C9 at concrete inputs.  Under `Shared/A` there is no folder `Missing`: the error names the
lower-cased segment and lists the siblings `B` and `C`, after `me` and three folder searches.
The segment `Été` is searched and reported as `été`. -/
theorem findDashboardInNestedPath_missing_segment_witness :
    (findDashboardInNestedPath pathSdk (.str "Shared/A/Missing") "Report X").run startWorld
      = (.error
          "Failed to locate dashboard \"Report X\": Folder \"missing\" not found. Available: B, C",
          { st := (),
            trace := [Call.me, Call.search_folders (childSearch (some "100") "a"),
              Call.search_folders (childSearch (some "200") "missing"),
              Call.search_folders (siblingSearch (some "200"))] }) ∧
    (findDashboardInNestedPath (scriptedSdk {}) (.arr ["　Été "]) "Report X").run startWorld
      = (.error
          "Failed to locate dashboard \"Report X\": Folder \"été\" not found. Available: None",
          { st := (),
            trace := [Call.search_folders (childSearch none "été"),
              Call.search_folders (siblingSearch none)] }) := by
  have h := (findDashboardInNestedPath_missing_segment pathSdk startWorld
    (.str "Shared/A/Missing") "Report X" ["shared", "a"] "missing" []
    [Call.me, Call.search_folders (childSearch (some "100") "a")] () () (some "200")
    []
    (by decide)
    (Walk.home () () () none (some "200") { home_folder_id := .num 100 } ["a"]
      [Call.search_folders (childSearch (some "100") "a")] rfl rfl
      (Walk.child 1 () () () (some "100") (some "200") "a" []
        [{ id := .num 150, name := .str "Alpha" }] [] { id := .num 200, name := .str " A " } " A "
        [] (by decide) rfl
        (by
          intro g hg
          rw [List.mem_singleton] at hg
          subst hg
          exact Or.inr (Or.inr ⟨"Alpha", rfl, by decide⟩))
        rfl (by decide) (Walk.done 2 () (some "200"))))
    (by decide) rfl (by simp)).1
    [{ id := .num 300, name := .str "B" }, { id := .num 301, name := .str "C" }] () rfl
  have h2 := (findDashboardInNestedPath_missing_segment (scriptedSdk {}) startWorld
    (.arr ["　Été "]) "Report X" [] "été" [] [] () () none []
    (by decide) (Walk.done 0 () none) (by decide) rfl (by simp)).1 [] () rfl
  refine ⟨?_, ?_⟩
  · rw [h]
    rfl
  · rw [h2]
    rfl

/-- C9 fails as stated: no folder is named `missing`, but the listing of the sibling folders
fails; the message is that of the listing, wrapped, and not `Folder "missing" not found.
Available: ...`. -/
theorem findDashboardInNestedPath_listing_fails :
    (findDashboardInNestedPath listingDownSdk (.arr ["Missing"]) "Report X").run startWorld
      = (.error "Failed to locate dashboard \"Report X\": listing unavailable",
          { st := (),
            trace := [Call.search_folders (childSearch none "missing"),
              Call.search_folders (siblingSearch none)] }) :=
  rfl

/-! ## The constructor -/

/-- C11: constructing a service fails exactly when the client handle is absent, and then with
the message `Looker SDK instance is required to use DashboardService.`; with a handle present
construction succeeds and keeps the handle, and with the configuration argument omitted the
configuration of the service is the empty object. -/
theorem newDashboardService_requires_sdk (sdk : Option (Sdk σ)) (config : Option Obj) :
    ((∃ e, newDashboardService sdk config = .error e) ↔ sdk = none) ∧
    (sdk = none → newDashboardService sdk config
      = .error "Looker SDK instance is required to use DashboardService.") ∧
    (∀ handle, sdk = some handle →
      newDashboardService sdk config = .ok { sdk := handle, config := config.getD [] }) ∧
    (∀ handle : Sdk σ, newDashboardService (some handle) none = .ok { sdk := handle, config := [] }) := by
  cases sdk with
  | none => simp [newDashboardService]
  | some handle => simp [newDashboardService]

/-- C11 at the input of the unit test: `new DashboardService(null)` throws, and a present
handle with no configuration gives a service whose configuration is `{}`. -/
theorem newDashboardService_requires_sdk_witness :
    (newDashboardService (none : Option (Sdk Unit)) none
      = .error "Looker SDK instance is required to use DashboardService.") ∧
    (∃ s, newDashboardService (some deadSdk) none = .ok s ∧ s.config = []) :=
  ⟨(newDashboardService_requires_sdk (none : Option (Sdk Unit)) none).2.1 rfl,
    ⟨_, (newDashboardService_requires_sdk (some deadSdk) none).2.2.1 deadSdk rfl, rfl⟩⟩

/-! ## Configuration resolution -/

theorem objGet_cons_other (k1 k : String) (v1 : Json) (o : Obj) (hne : k1 ≠ k) :
    objGet ((k1, v1) :: o) k = objGet o k := by
  unfold objGet
  rw [List.find?_cons_of_neg]
  simpa using hne

theorem objGet_cons_same (k : String) (v : Json) (o : Obj) : objGet ((k, v) :: o) k = v := by
  unfold objGet
  rw [List.find?_cons_of_pos]
  simp

theorem objGet_nil (k : String) : objGet [] k = .val .undefined := rfl

theorem setKey_cons_same {β : Type} (k : String) (v1 v : β) (o : List (String × β)) :
    setKey ((k, v1) :: o) k v = (k, v) :: o := by
  simp [setKey]

theorem setKey_cons_other {β : Type} (k1 k : String) (v1 v : β) (o : List (String × β))
    (hne : k1 ≠ k) : setKey ((k1, v1) :: o) k v = (k1, v1) :: setKey o k v := by
  simp [setKey, hne]

theorem objGet_setKey_same (o : Obj) (k : String) (v : Json) : objGet (setKey o k v) k = v := by
  induction o with
  | nil => exact objGet_cons_same k v []
  | cons e o ih =>
    obtain ⟨k1, v1⟩ := e
    by_cases h : k1 = k
    · subst h
      rw [setKey_cons_same, objGet_cons_same]
    · rw [setKey_cons_other k1 k v1 v o h, objGet_cons_other k1 k v1 _ h, ih]

theorem objGet_setKey_other (o : Obj) (k k2 : String) (v : Json) (hne : k2 ≠ k) :
    objGet (setKey o k v) k2 = objGet o k2 := by
  induction o with
  | nil => exact objGet_cons_other k k2 v [] (fun h => hne h.symm)
  | cons e o ih =>
    obtain ⟨k1, v1⟩ := e
    by_cases h : k1 = k
    · subst h
      rw [setKey_cons_same, objGet_cons_other k1 k2 v o (fun h => hne h.symm),
        objGet_cons_other k1 k2 v1 o (fun h => hne h.symm)]
    · rw [setKey_cons_other k1 k v1 v o h]
      by_cases h2 : k1 = k2
      · subst h2
        rw [objGet_cons_same, objGet_cons_same]
      · rw [objGet_cons_other k1 k2 v1 _ h2, objGet_cons_other k1 k2 v1 _ h2, ih]

/-- A property read on `{ ...base, ...later }`: the value of `later` when it has the key, the
value of `base` otherwise. -/
theorem objGet_spreadOver (base later : Obj) (k : String)
    (hnodup : (later.map Prod.fst).Nodup) :
    objGet (spreadOver base later) k =
      if k ∈ later.map Prod.fst then objGet later k else objGet base k := by
  induction later generalizing base with
  | nil => simp [spreadOver]
  | cons e later ih =>
    obtain ⟨k1, v1⟩ := e
    simp only [List.map_cons, List.nodup_cons] at hnodup
    have hstep : spreadOver base ((k1, v1) :: later) = spreadOver (setKey base k1 v1) later := rfl
    rw [hstep, ih (setKey base k1 v1) hnodup.2]
    by_cases hk : k = k1
    · subst hk
      simp [hnodup.1, objGet_setKey_same, objGet_cons_same]
    · have hk2 : k1 ≠ k := fun h => hk h.symm
      simp only [List.map_cons, List.mem_cons, hk, false_or]
      rw [objGet_setKey_other base k1 k v1 hk, objGet_cons_other k1 k v1 later hk2]

theorem objGet_spreadOver_nil (props : Obj) (k : String)
    (hnodup : (props.map Prod.fst).Nodup) :
    objGet (spreadOver [] props) k = objGet props k := by
  rw [objGet_spreadOver [] props k hnodup]
  split
  · rfl
  · rename_i hk
    have : props.find? (fun e => e.1 == k) = none := by
      rw [List.find?_eq_none]
      intro e he
      simp only [beq_iff_eq]
      intro hEq
      exact hk (List.mem_map.2 ⟨e, he, hEq⟩)
    simp [objGet, this]

/-- C12: a service constructed with a configuration object `c` reads, at every key, the value
`c` has there; and `createService(sdk, query, overrides)` gives, when `query.config` parses to
`parsed`, a service whose configuration reads at every key the value of `overrides` when
`overrides` has the key and the value of `parsed` otherwise. -/
theorem createService_overrides_win (jsonParse : String → Except String Json) (handle : Sdk σ)
    (c : Obj) (query : Option Obj) (overrides : Obj) (parsed : Json)
    (hparse : parseConfigFromQuery jsonParse query = .ok parsed)
    (hparsed : ((spreadProps parsed).map Prod.fst).Nodup)
    (hoverrides : (overrides.map Prod.fst).Nodup) :
    (∃ s, newDashboardService (some handle) (some c) = .ok s ∧ s.config = c ∧
      ∀ k, objGet s.config k = objGet c k) ∧
    (∃ s, createService jsonParse (some handle) query overrides = .ok s ∧
      ∀ k, objGet s.config k =
        if k ∈ overrides.map Prod.fst then objGet overrides k
        else objGet (spreadProps parsed) k) := by
  refine ⟨⟨_, rfl, rfl, fun _ => rfl⟩, ?_⟩
  refine ⟨{ sdk := handle,
            config := spreadOver (spreadOver [] (spreadProps parsed)) overrides }, ?_, ?_⟩
  · simp [createService, hparse, newDashboardService]
  · intro k
    simp only
    rw [objGet_spreadOver _ overrides k hoverrides, objGet_spreadOver_nil _ k hparsed]

/-- C12 at concrete inputs: the configuration of the unit test is kept as given, and
`createService` with `query.config` the text of `folderName: Reports, limitResults: 5` and the
override `limitResults: 10` reads `Reports` and `10`. -/
theorem createService_overrides_win_witness :
    (∃ s, newDashboardService (some deadSdk)
        (some [("folderName", .val (.str "Custom Folder")), ("limitResults", .val (.num 10))])
        = .ok s ∧
      objGet s.config "folderName" = .val (.str "Custom Folder") ∧
      objGet s.config "limitResults" = .val (.num 10)) ∧
    (∃ s, createService stubJsonParse (some deadSdk)
        (some [("config",
          .val (.str "\x7b\"folderName\":\"Reports\",\"limitResults\":5\x7d"))])
        [("limitResults", .val (.num 10))] = .ok s ∧
      objGet s.config "folderName" = .val (.str "Reports") ∧
      objGet s.config "limitResults" = .val (.num 10)) := by
  have h := createService_overrides_win stubJsonParse deadSdk
    [("folderName", .val (.str "Custom Folder")), ("limitResults", .val (.num 10))]
    (some [("config", .val (.str "\x7b\"folderName\":\"Reports\",\"limitResults\":5\x7d"))])
    [("limitResults", .val (.num 10))]
    (.obj [("folderName", .val (.str "Reports")), ("limitResults", .val (.num 5))])
    rfl (by decide) (by decide)
  obtain ⟨⟨s1, h1, hc1, _⟩, ⟨s2, h2, hk2⟩⟩ := h
  refine ⟨⟨s1, h1, ?_, ?_⟩, ⟨s2, h2, ?_, ?_⟩⟩
  · rw [hc1]; rfl
  · rw [hc1]; rfl
  · rw [hk2]; rfl
  · rw [hk2]; rfl

/-! ## updateDashboard: the calls of a run -/

theorem Op.growsWith_pure {α : Type} (p : Call → Bool) (a : α) :
    (pure a : Op σ α).GrowsWith p :=
  fun w => ⟨[], by simp, by simp⟩

theorem Op.growsWith_fail {α : Type} (p : Call → Bool) (msg : String) :
    (Op.fail msg : Op σ α).GrowsWith p :=
  fun w => ⟨[], by simp, by simp⟩

theorem Op.growsWith_request {α : Type} (p : Call → Bool) (c : Call)
    (answer : σ → Except String α × σ) (hc : p c = true) : (Op.request c answer).GrowsWith p :=
  fun w => ⟨[c], by simp, by simpa using hc⟩

theorem Op.growsWith_bind {α β : Type} (p : Call → Bool) (m : Op σ α) (f : α → Op σ β)
    (hm : m.GrowsWith p) (hf : ∀ a, (f a).GrowsWith p) : (m >>= f).GrowsWith p := by
  intro w
  obtain ⟨t1, h1, hp1⟩ := hm w
  rw [Op.run_bind]
  cases hrun : m.run w with
  | mk r w1 =>
    rw [hrun] at h1
    cases r with
    | error e => exact ⟨t1, h1, hp1⟩
    | ok a =>
      obtain ⟨t2, h2, hp2⟩ := hf a w1
      refine ⟨t1 ++ t2, ?_, ?_⟩
      · simp only at h1 ⊢
        rw [h2, h1, List.append_assoc]
      · intro c hc
        rcases List.mem_append.1 hc with h | h
        · exact hp1 c h
        · exact hp2 c h

theorem Op.growsWith_grows {α : Type} (p : Call → Bool) (m : Op σ α) (h : m.GrowsWith p) :
    m.Grows := by
  intro w
  obtain ⟨tail, ht, _⟩ := h w
  exact ⟨tail, ht⟩

theorem ensureTileListenersLoop_growsWith (sdk : Sdk σ) (ds : List JsVal) (filterNameMap : Dict)
    (els : List Element) :
    (ensureTileListenersLoop sdk ds filterNameMap els).GrowsWith (fun c => !c.isFilterCall) := by
  induction els with
  | nil => exact Op.growsWith_pure _ _
  | cons e els ih =>
    unfold ensureTileListenersLoop
    split
    · exact ih
    · simp only
      split
      · exact ih
      · exact Op.growsWith_bind _ _ _ (Op.growsWith_request _ _ _ rfl) (fun _ => ih)

theorem ensureTileListeners_growsWith (sdk : Sdk σ) (dashboardId : JsVal) (ds : List JsVal)
    (filterNameMap : Dict) :
    (ensureTileListeners sdk dashboardId ds filterNameMap).GrowsWith
      (fun c => !c.isFilterCall) :=
  Op.growsWith_bind _ _ _ (Op.growsWith_request _ _ _ rfl)
    (fun els => ensureTileListenersLoop_growsWith sdk ds filterNameMap els)

/-- The run of the first filter loop on a client that accepts every deletion. -/
theorem deleteUnselectedFilters_run (sdk : Sdk σ) (ds : List JsVal)
    (hdelete : ∀ id s, (sdk.delete_dashboard_filter id s).1 = .ok ())
    (filters : List DashboardFilter) (w : World σ) :
    ∃ s1, (deleteUnselectedFilters sdk ds filters).run w
      = (.ok (), { st := s1,
                   trace := w.trace ++
                     (filters.filter (fun f => f.dimension.truthy && !ds.contains f.dimension)).map
                       (fun f => Call.delete_dashboard_filter f.id) }) := by
  induction filters generalizing w with
  | nil => exact ⟨w.st, by simp [deleteUnselectedFilters]⟩
  | cons f filters ih =>
    unfold deleteUnselectedFilters
    cases hc : (f.dimension.truthy && !ds.contains f.dimension) with
    | true =>
      simp only [if_true]
      rw [Op.run_bind]
      simp only [Sdk.okDeleteDashboardFilter, Op.run_request]
      have hok := hdelete f.id w.st
      cases hres : sdk.delete_dashboard_filter f.id w.st with
      | mk r s2 =>
        rw [hres] at hok
        simp only at hok
        subst hok
        simp only
        obtain ⟨s1, h1⟩ := ih { st := s2, trace := w.trace ++ [Call.delete_dashboard_filter f.id] }
        refine ⟨s1, ?_⟩
        have hcons : (f :: filters).filter
            (fun f => f.dimension.truthy && !ds.contains f.dimension)
            = f :: filters.filter (fun f => f.dimension.truthy && !ds.contains f.dimension) :=
          List.filter_cons_of_pos hc
        rw [h1, hcons]
        simp only [List.map_cons, List.append_assoc, List.singleton_append]
    | false =>
      simp only [Bool.false_eq_true, if_false]
      obtain ⟨s1, h1⟩ := ih w
      refine ⟨s1, ?_⟩
      have hcons : (f :: filters).filter
          (fun f => f.dimension.truthy && !ds.contains f.dimension)
          = filters.filter (fun f => f.dimension.truthy && !ds.contains f.dimension) :=
        List.filter_cons_of_neg (by rw [hc]; decide)
      rw [h1, hcons]

/-- The call issued for a selected dimension by the second filter loop. -/
theorem upsertFilters_run (sdk : Sdk σ) (cfg : Config) (currentDashboardId : JsVal)
    (filtersFromRequest filterNameMap : Dict) (existing : List DashboardFilter)
    (hupdate : ∀ id body s, (sdk.update_dashboard_filter id body s).1 = .ok ())
    (hcreate : ∀ body s, (sdk.create_dashboard_filter body s).1 = .ok ())
    (ds : List JsVal) (w : World σ) :
    ∃ s1, (upsertFilters sdk cfg currentDashboardId filtersFromRequest filterNameMap existing
        ds).run w
      = (.ok (), { st := s1,
                   trace := w.trace ++ ds.map (fun d =>
                     match existing.find? (fun e => e.dimension == d) with
                     | some e => Call.update_dashboard_filter e.id
                         (filterDataFor cfg currentDashboardId filtersFromRequest filterNameMap d)
                     | none => Call.create_dashboard_filter
                         (filterDataFor cfg currentDashboardId filtersFromRequest filterNameMap
                           d)) }) := by
  induction ds generalizing w with
  | nil => exact ⟨w.st, by simp [upsertFilters]⟩
  | cons d ds ih =>
    unfold upsertFilters
    simp only []
    cases hfind : existing.find? (fun e => e.dimension == d) with
    | some e =>
      simp only []
      rw [Op.run_bind]
      simp only [Sdk.okUpdateDashboardFilter, Op.run_request]
      have hok := hupdate e.id
        (filterDataFor cfg currentDashboardId filtersFromRequest filterNameMap d) w.st
      rw [hok]
      simp only
      obtain ⟨s1, h1⟩ := ih
        { st := (sdk.update_dashboard_filter e.id
            (filterDataFor cfg currentDashboardId filtersFromRequest filterNameMap d) w.st).2,
          trace := w.trace ++ [Call.update_dashboard_filter e.id
            (filterDataFor cfg currentDashboardId filtersFromRequest filterNameMap d)] }
      refine ⟨s1, ?_⟩
      rw [h1]
      simp only [List.map_cons, hfind, List.append_assoc, List.singleton_append]
    | none =>
      simp only []
      rw [Op.run_bind]
      simp only [Sdk.okCreateDashboardFilter, Op.run_request]
      have hok := hcreate
        (filterDataFor cfg currentDashboardId filtersFromRequest filterNameMap d) w.st
      rw [hok]
      simp only
      obtain ⟨s1, h1⟩ := ih
        { st := (sdk.create_dashboard_filter
            (filterDataFor cfg currentDashboardId filtersFromRequest filterNameMap d) w.st).2,
          trace := w.trace ++ [Call.create_dashboard_filter
            (filterDataFor cfg currentDashboardId filtersFromRequest filterNameMap d)] }
      refine ⟨s1, ?_⟩
      rw [h1]
      simp only [List.map_cons, hfind, List.append_assoc, List.singleton_append]

/-- The start of a run of `updateDashboard` that finds its tile and the query of the tile and
has the new query created: the calls so far, and what is left to run. -/
theorem updateDashboard_prelude (sdk : Sdk σ) (cfg : Config) (now : Int)
    (currentDashboardId originalDashboardId : JsVal) (selectedColumns : Json)
    (ds : List JsVal) (filtersFromRequest filterNameMap : Dict) (w : World σ)
    (dashboard : Dashboard) (tile : Element) (originalQuery newQuery : Obj) (s1 s2 s3 : σ)
    (hne : currentDashboardId ≠ originalDashboardId)
    (hdash : sdk.dashboard currentDashboardId w.st = (.ok dashboard, s1))
    (htile : (match dashboard.dashboard_elements with
        | some elements => elements.find? (fun (element : Element) => element.title == cfg.tileTitle)
        | none => none) = some tile)
    (htid : tile.id.truthy = true) (hqid : (tileQueryId tile).truthy = true)
    (hquery : sdk.query (tileQueryId tile) s1 = (.ok originalQuery, s2))
    (hcreate : sdk.create_query (buildQueryConfig cfg originalQuery selectedColumns now) s2
      = (.ok newQuery, s3)) :
    (updateDashboard sdk cfg now currentDashboardId originalDashboardId selectedColumns ds
        filtersFromRequest filterNameMap).run w
      = (do
          sdk.okUpdateDashboardElement tile.id (.query_id (objGet newQuery "id"))
          deleteUnselectedFilters sdk ds (dashboard.dashboard_filters.getD [])
          upsertFilters sdk cfg currentDashboardId filtersFromRequest filterNameMap
            (dashboard.dashboard_filters.getD []) ds
          ensureTileListeners sdk currentDashboardId ds filterNameMap).run
        { st := s3,
          trace := w.trace ++ [Call.dashboard currentDashboardId, Call.query (tileQueryId tile),
            Call.create_query (buildQueryConfig cfg originalQuery selectedColumns now)] } := by
  unfold updateDashboard
  simp only [hne, if_false]
  rw [Op.run_bind]
  simp only [Sdk.okDashboard, Op.run_request, hdash, htile, htid, hqid, Bool.not_true,
    Bool.false_eq_true, if_false]
  rw [Op.run_bind]
  simp only [Sdk.okQuery, Op.run_request, hquery]
  rw [Op.run_bind]
  simp only [Sdk.okCreateQuery, Op.run_request, hcreate, List.append_assoc, List.singleton_append,
    List.cons_append, List.nil_append]

/-- C13, as the code has it: on a run of `updateDashboard` that reaches the reconciliation
(tile and query found, new query created, tile repointed) with a client that accepts the filter
calls, the calls issued after the repointing are, in this order: one
`delete_dashboard_filter` for each existing filter that has a truthy dimension not among
`selectedFilterDimensions`, in the order of the filters (a filter without dimension is kept,
and so is every filter whose dimension is selected); then for each selected dimension `d`, in
order, `update_dashboard_filter` on the first existing filter with dimension `d` when there is
one and `create_dashboard_filter` otherwise, with `title = name = filterNameMap[d] || d`, type
`field_filter`, dimension `d`, `default_value = filtersFromRequest[title] || ''` when the title
is truthy and `''` otherwise, and `listens_to_filters = []`; no other filter call follows. -/
theorem updateDashboard_reconciles_filters (sdk : Sdk σ) (cfg : Config) (now : Int)
    (currentDashboardId originalDashboardId : JsVal) (selectedColumns : Json)
    (ds : List JsVal) (filtersFromRequest filterNameMap : Dict) (w : World σ)
    (dashboard : Dashboard) (tile : Element) (originalQuery newQuery : Obj) (s1 s2 s3 s4 : σ)
    (hne : currentDashboardId ≠ originalDashboardId)
    (hdash : sdk.dashboard currentDashboardId w.st = (.ok dashboard, s1))
    (htile : (match dashboard.dashboard_elements with
        | some elements => elements.find? (fun (element : Element) => element.title == cfg.tileTitle)
        | none => none) = some tile)
    (htid : tile.id.truthy = true) (hqid : (tileQueryId tile).truthy = true)
    (hquery : sdk.query (tileQueryId tile) s1 = (.ok originalQuery, s2))
    (hcreate : sdk.create_query (buildQueryConfig cfg originalQuery selectedColumns now) s2
      = (.ok newQuery, s3))
    (hrepoint : sdk.update_dashboard_element tile.id (.query_id (objGet newQuery "id")) s3
      = (.ok (), s4))
    (hdelete : ∀ id s, (sdk.delete_dashboard_filter id s).1 = .ok ())
    (hupdate : ∀ id body s, (sdk.update_dashboard_filter id body s).1 = .ok ())
    (hcreateFilter : ∀ body s, (sdk.create_dashboard_filter body s).1 = .ok ()) :
    ∃ tail,
      ((updateDashboard sdk cfg now currentDashboardId originalDashboardId selectedColumns ds
          filtersFromRequest filterNameMap).run w).2.trace
        = w.trace ++
          [Call.dashboard currentDashboardId, Call.query (tileQueryId tile),
           Call.create_query (buildQueryConfig cfg originalQuery selectedColumns now),
           Call.update_dashboard_element tile.id (.query_id (objGet newQuery "id"))] ++
          ((dashboard.dashboard_filters.getD []).filter
              (fun f => f.dimension.truthy && !ds.contains f.dimension)).map
            (fun f => Call.delete_dashboard_filter f.id) ++
          ds.map (fun d =>
            match (dashboard.dashboard_filters.getD []).find? (fun e => e.dimension == d) with
            | some e => Call.update_dashboard_filter e.id
                { dashboard_id := currentDashboardId
                  title := (filterNameMap.get d.toStr).orElse d
                  type := "field_filter"
                  model := cfg.model
                  explore := cfg.explore
                  dimension := d
                  row := 0
                  allow_multiple_values := true
                  required := false
                  name := (filterNameMap.get d.toStr).orElse d
                  default_value :=
                    if ((filterNameMap.get d.toStr).orElse d).truthy then
                      (filtersFromRequest.get ((filterNameMap.get d.toStr).orElse d).toStr).orElse
                        (.str "")
                    else .str ""
                  ui_config := [("display", .str "popover"), ("type", .str "advanced")]
                  listens_to_filters := [] }
            | none => Call.create_dashboard_filter
                { dashboard_id := currentDashboardId
                  title := (filterNameMap.get d.toStr).orElse d
                  type := "field_filter"
                  model := cfg.model
                  explore := cfg.explore
                  dimension := d
                  row := 0
                  allow_multiple_values := true
                  required := false
                  name := (filterNameMap.get d.toStr).orElse d
                  default_value :=
                    if ((filterNameMap.get d.toStr).orElse d).truthy then
                      (filtersFromRequest.get ((filterNameMap.get d.toStr).orElse d).toStr).orElse
                        (.str "")
                    else .str ""
                  ui_config := [("display", .str "popover"), ("type", .str "advanced")]
                  listens_to_filters := [] }) ++
          tail ∧
      ∀ c ∈ tail, c.isFilterCall = false := by
  rw [updateDashboard_prelude sdk cfg now currentDashboardId originalDashboardId selectedColumns
    ds filtersFromRequest filterNameMap w dashboard tile originalQuery newQuery s1 s2 s3 hne hdash
    htile htid hqid hquery hcreate]
  rw [Op.run_bind]
  simp only [Sdk.okUpdateDashboardElement, Op.run_request, hrepoint]
  rw [Op.run_bind]
  obtain ⟨sa, ha⟩ := deleteUnselectedFilters_run sdk ds hdelete
    (dashboard.dashboard_filters.getD [])
    { st := s4,
      trace := w.trace ++ [Call.dashboard currentDashboardId, Call.query (tileQueryId tile),
        Call.create_query (buildQueryConfig cfg originalQuery selectedColumns now)] ++
        [Call.update_dashboard_element tile.id (.query_id (objGet newQuery "id"))] }
  rw [ha]
  simp only
  rw [Op.run_bind]
  obtain ⟨sb, hb⟩ := upsertFilters_run sdk cfg currentDashboardId filtersFromRequest
    filterNameMap (dashboard.dashboard_filters.getD []) hupdate hcreateFilter ds
    { st := sa,
      trace := w.trace ++ [Call.dashboard currentDashboardId, Call.query (tileQueryId tile),
        Call.create_query (buildQueryConfig cfg originalQuery selectedColumns now)] ++
        [Call.update_dashboard_element tile.id (.query_id (objGet newQuery "id"))] ++
        ((dashboard.dashboard_filters.getD []).filter
            (fun f => f.dimension.truthy && !ds.contains f.dimension)).map
          (fun f => Call.delete_dashboard_filter f.id) }
  rw [hb]
  simp only
  obtain ⟨tail, ht, hp⟩ := ensureTileListeners_growsWith sdk currentDashboardId ds filterNameMap
    { st := sb,
      trace := w.trace ++ [Call.dashboard currentDashboardId, Call.query (tileQueryId tile),
        Call.create_query (buildQueryConfig cfg originalQuery selectedColumns now)] ++
        [Call.update_dashboard_element tile.id (.query_id (objGet newQuery "id"))] ++
        ((dashboard.dashboard_filters.getD []).filter
            (fun f => f.dimension.truthy && !ds.contains f.dimension)).map
          (fun f => Call.delete_dashboard_filter f.id) ++
        ds.map (fun d =>
          match (dashboard.dashboard_filters.getD []).find? (fun e => e.dimension == d) with
          | some e => Call.update_dashboard_filter e.id
              (filterDataFor cfg currentDashboardId filtersFromRequest filterNameMap d)
          | none => Call.create_dashboard_filter
              (filterDataFor cfg currentDashboardId filtersFromRequest filterNameMap d)) }
  refine ⟨tail, ?_, ?_⟩
  · rw [ht]
    simp only [List.append_assoc, List.singleton_append, List.cons_append, List.nil_append]
    rfl
  · intro c hc
    have := hp c hc
    simpa using this

/-- C13 at a concrete input: the dashboard has a date filter without dimension (`11`) and a
field filter on `orders.status` (`12`); `orders.region` is selected.  After the repointing the
filter `12` is deleted and a filter `Region` is created for `orders.region`. -/
theorem updateDashboard_reconciles_filters_witness :
    ∃ tail : List Call,
      ((updateDashboard dateFilterSdk
          { tileTitle := .str "Orders", model := .str "sales", explore := .str "orders" } 1700
          (.num 20) (.num 10) (.arr [.val (.str "orders.id"), .val (.str "orders.region")])
          [.str "orders.region"] [("Region", .str "East")]
          [("orders.region", .str "Region")]).run startWorld).2.trace.map Call.name
        = ["dashboard", "query", "create_query", "update_dashboard_element",
           "delete_dashboard_filter", "create_dashboard_filter"] ++ tail.map Call.name ∧
      ∀ c ∈ tail, c.isFilterCall = false := by
  obtain ⟨tail, h, hp⟩ := updateDashboard_reconciles_filters dateFilterSdk
    { tileTitle := .str "Orders", model := .str "sales", explore := .str "orders" } 1700
    (.num 20) (.num 10) (.arr [.val (.str "orders.id"), .val (.str "orders.region")])
    [.str "orders.region"] [("Region", .str "East")] [("orders.region", .str "Region")]
    startWorld
    { id := .num 20, title := .str "Mine",
      dashboard_elements := some [{ id := .num 1, title := .str "Orders", query_id := .num 5 }],
      dashboard_filters := some
        [{ id := .num 11, title := .str "Date", type := .str "date_filter" },
         { id := .num 12, title := .str "Status", type := .str "field_filter",
           dimension := .str "orders.status" }] }
    { id := .num 1, title := .str "Orders", query_id := .num 5 }
    [("id", .val (.num 5)), ("slug", .val (.str "abc")), ("client_id", .val (.str "xyz")),
     ("model", .val (.str "sales")), ("view", .val (.str "orders")),
     ("fields", .arr [.val (.str "orders.id")]),
     ("vis_config", .obj [("type", .val (.str "looker_bar")),
                          ("show_legend", .val (.bool true))])]
    [("id", .val (.num 6))] () () () ()
    (by decide) rfl rfl rfl rfl rfl rfl rfl (fun _ _ => rfl) (fun _ _ _ => rfl) (fun _ _ => rfl)
  refine ⟨tail, ?_, hp⟩
  rw [h]
  simp only [List.map_append]
  rfl

/-- C13 fails as stated: the existing filter `11` has no dimension, so its dimension is not
among the selected ones, yet the only deletion issued is that of filter `12`. -/
theorem updateDashboard_keeps_filter_without_dimension :
    ((updateDashboard dateFilterSdk
        { tileTitle := .str "Orders", model := .str "sales", explore := .str "orders" } 1700
        (.num 20) (.num 10) (.arr [.val (.str "orders.id"), .val (.str "orders.region")])
        [.str "orders.region"] [("Region", .str "East")]
        [("orders.region", .str "Region")]).run startWorld).2.trace.filter Call.isFilterCall
      = [Call.delete_dashboard_filter (.num 12),
         Call.create_dashboard_filter
           { dashboard_id := .num 20
             title := .str "Region"
             type := "field_filter"
             model := .str "sales"
             explore := .str "orders"
             dimension := .str "orders.region"
             row := 0
             allow_multiple_values := true
             required := false
             name := .str "Region"
             default_value := .str "East"
             ui_config := [("display", .str "popover"), ("type", .str "advanced")]
             listens_to_filters := [] }] :=
  rfl

/-! ## updateDashboard: the rewritten query -/

theorem objGet_dropKey_same (o : Obj) (k : String) : objGet (dropKey o k) k = .val .undefined := by
  have : (dropKey o k).find? (fun e => e.1 == k) = none := by
    rw [List.find?_eq_none]
    intro e he
    simp only [dropKey, List.mem_filter, bne_iff_ne, ne_eq] at he
    simpa using he.2
  simp [objGet, this]

theorem objGet_dropKey_other (o : Obj) (k k2 : String) (hne : k2 ≠ k) :
    objGet (dropKey o k) k2 = objGet o k2 := by
  induction o with
  | nil => rfl
  | cons e o ih =>
    obtain ⟨k1, v1⟩ := e
    by_cases h : k1 = k
    · subst h
      have hd : dropKey ((k1, v1) :: o) k1 = dropKey o k1 := by simp [dropKey]
      rw [hd, ih, objGet_cons_other k1 k2 v1 o (fun h => hne h.symm)]
    · have hd : dropKey ((k1, v1) :: o) k = (k1, v1) :: dropKey o k := by simp [dropKey, h]
      rw [hd]
      by_cases h2 : k1 = k2
      · subst h2
        rw [objGet_cons_same, objGet_cons_same]
      · rw [objGet_cons_other k1 k2 v1 _ h2, objGet_cons_other k1 k2 v1 _ h2, ih]

theorem not_mem_keys_dropKey (o : Obj) (k : String) : k ∉ (dropKey o k).map Prod.fst := by
  intro h
  obtain ⟨e, he, hk⟩ := List.mem_map.1 h
  simp only [dropKey, List.mem_filter, bne_iff_ne, ne_eq] at he
  exact he.2 hk

theorem mem_keys_dropKey (o : Obj) (k k2 : String) (h : k2 ∈ (dropKey o k).map Prod.fst) :
    k2 ∈ o.map Prod.fst := by
  obtain ⟨e, he, hk⟩ := List.mem_map.1 h
  simp only [dropKey, List.mem_filter] at he
  exact List.mem_map.2 ⟨e, he.1, hk⟩

theorem mem_keys_setKey {β : Type} (m : List (String × β)) (k : String) (v : β) (x : String)
    (h : x ∈ (setKey m k v).map Prod.fst) : x = k ∨ x ∈ m.map Prod.fst := by
  rw [keys_setKey] at h
  split at h
  · exact Or.inr h
  · rcases List.mem_append.1 h with h1 | h1
    · exact Or.inr h1
    · exact Or.inl (by simpa using h1)

theorem deleteUnselectedFilters_grows (sdk : Sdk σ) (ds : List JsVal)
    (filters : List DashboardFilter) : (deleteUnselectedFilters sdk ds filters).Grows := by
  induction filters with
  | nil => exact Op.grows_pure _
  | cons f filters ih =>
    unfold deleteUnselectedFilters
    split
    · exact Op.grows_bind _ _ (Op.grows_request _ _) (fun _ => ih)
    · exact ih

theorem upsertFilters_grows (sdk : Sdk σ) (cfg : Config) (currentDashboardId : JsVal)
    (filtersFromRequest filterNameMap : Dict) (existing : List DashboardFilter)
    (ds : List JsVal) :
    (upsertFilters sdk cfg currentDashboardId filtersFromRequest filterNameMap existing
      ds).Grows := by
  induction ds with
  | nil => exact Op.grows_pure _
  | cons d ds ih =>
    unfold upsertFilters
    simp only []
    split
    · exact Op.grows_bind _ _ (Op.grows_request _ _) (fun _ => ih)
    · exact Op.grows_bind _ _ (Op.grows_request _ _) (fun _ => ih)

/-- A request followed by operations that only add calls: the request is the next call. -/
theorem request_then_grows {α β : Type} (c : Call) (answer : σ → Except String α × σ)
    (f : α → Op σ β) (hf : ∀ a, (f a).Grows) (w : World σ) :
    ∃ tail, ((Op.request c answer >>= f).run w).2.trace = w.trace ++ c :: tail := by
  rw [Op.run_bind]
  simp only [Op.run_request]
  cases hres : (answer w.st).1 with
  | error e => exact ⟨[], by simp⟩
  | ok a =>
    obtain ⟨tail, ht⟩ := hf a { st := (answer w.st).2, trace := w.trace ++ [c] }
    exact ⟨tail, by simp only [ht, List.append_assoc, List.singleton_append]⟩

/-- The attributes of the object `queryConfig` built from the original query. -/
theorem buildQueryConfig_attributes (cfg : Config) (originalQuery : Obj) (selectedColumns : Json)
    (now : Int) :
    "id" ∉ (buildQueryConfig cfg originalQuery selectedColumns now).map Prod.fst ∧
    "slug" ∉ (buildQueryConfig cfg originalQuery selectedColumns now).map Prod.fst ∧
    objGet (buildQueryConfig cfg originalQuery selectedColumns now) "fields" = selectedColumns ∧
    objGet (buildQueryConfig cfg originalQuery selectedColumns now) "client_id"
      = .val (.str ("custom_client_id_" ++ toString now)) ∧
    (∀ k, k ∉ ["id", "client_id", "slug", "fields", "vis_config"] →
      objGet (buildQueryConfig cfg originalQuery selectedColumns now) k = objGet originalQuery k) ∧
    (cfg.tileTitle.truthy = false →
      objGet (buildQueryConfig cfg originalQuery selectedColumns now) "vis_config"
        = objGet originalQuery "vis_config") ∧
    (cfg.tileTitle.truthy = true →
      ∃ vis, objGet (buildQueryConfig cfg originalQuery selectedColumns now) "vis_config"
          = .obj vis ∧
        objGet vis "type" = .val (.str "table") ∧
        objGet vis "column_order" = selectedColumns ∧
        objGet vis "show_row_numbers" = .val (.bool true) ∧
        objGet vis "table_theme" = .val (.str "editable") ∧
        ∀ k, k ∉ ["type", "column_order", "show_row_numbers", "table_theme"] →
          objGet vis k =
            objGet (if (objGet originalQuery "vis_config").truthy
                    then spreadProps (objGet originalQuery "vis_config") else []) k) := by
  have hrestVis : objGet (dropKey (dropKey (dropKey originalQuery "id") "client_id") "slug")
      "vis_config" = objGet originalQuery "vis_config" := by
    rw [objGet_dropKey_other _ _ _ (by decide), objGet_dropKey_other _ _ _ (by decide),
      objGet_dropKey_other _ _ _ (by decide)]
  have hkeys : ∀ x, x ∈ (buildQueryConfig cfg originalQuery selectedColumns now).map Prod.fst →
      x = "vis_config" ∨ x = "client_id" ∨ x = "fields" ∨
        x ∈ (dropKey (dropKey (dropKey originalQuery "id") "client_id") "slug").map Prod.fst := by
    intro x hx
    unfold buildQueryConfig at hx
    simp only at hx
    split at hx
    · rcases mem_keys_setKey _ _ _ _ hx with h | h
      · exact Or.inl h
      · rcases mem_keys_setKey _ _ _ _ h with h | h
        · exact Or.inr (Or.inl h)
        · rcases mem_keys_setKey _ _ _ _ h with h | h
          · exact Or.inr (Or.inr (Or.inl h))
          · exact Or.inr (Or.inr (Or.inr h))
    · rcases mem_keys_setKey _ _ _ _ hx with h | h
      · exact Or.inr (Or.inl h)
      · rcases mem_keys_setKey _ _ _ _ h with h | h
        · exact Or.inr (Or.inr (Or.inl h))
        · exact Or.inr (Or.inr (Or.inr h))
  refine ⟨?_, ?_, ?_, ?_, ?_, ?_, ?_⟩
  · intro h
    rcases hkeys _ h with h | h | h | h
    · exact absurd h (by decide)
    · exact absurd h (by decide)
    · exact absurd h (by decide)
    · have h2 := mem_keys_dropKey _ _ _ (mem_keys_dropKey _ _ _ h)
      exact not_mem_keys_dropKey _ _ h2
  · intro h
    rcases hkeys _ h with h | h | h | h
    · exact absurd h (by decide)
    · exact absurd h (by decide)
    · exact absurd h (by decide)
    · exact not_mem_keys_dropKey _ _ h
  · unfold buildQueryConfig
    simp only
    split
    · rw [objGet_setKey_other _ _ _ _ (by decide), objGet_setKey_other _ _ _ _ (by decide),
        objGet_setKey_same]
    · rw [objGet_setKey_other _ _ _ _ (by decide), objGet_setKey_same]
  · unfold buildQueryConfig
    simp only
    split
    · rw [objGet_setKey_other _ _ _ _ (by decide), objGet_setKey_same]
    · rw [objGet_setKey_same]
  · intro k hk
    simp only [List.mem_cons, List.mem_singleton, List.not_mem_nil, or_false, not_or] at hk
    obtain ⟨h1, h2, h3, h4, h5⟩ := hk
    unfold buildQueryConfig
    simp only
    split
    · rw [objGet_setKey_other _ _ _ _ h5, objGet_setKey_other _ _ _ _ h2,
        objGet_setKey_other _ _ _ _ h4, objGet_dropKey_other _ _ _ h3,
        objGet_dropKey_other _ _ _ h2, objGet_dropKey_other _ _ _ h1]
    · rw [objGet_setKey_other _ _ _ _ h2, objGet_setKey_other _ _ _ _ h4,
        objGet_dropKey_other _ _ _ h3, objGet_dropKey_other _ _ _ h2,
        objGet_dropKey_other _ _ _ h1]
  · intro htt
    unfold buildQueryConfig
    simp only [htt, Bool.false_eq_true, if_false]
    rw [objGet_setKey_other _ _ _ _ (by decide), objGet_setKey_other _ _ _ _ (by decide), hrestVis]
  · intro htt
    unfold buildQueryConfig
    simp only [htt, if_true]
    rw [objGet_setKey_same]
    refine ⟨_, rfl, ?_, ?_, ?_, ?_, ?_⟩
    · rw [objGet_setKey_other _ _ _ _ (by decide), objGet_setKey_other _ _ _ _ (by decide),
        objGet_setKey_other _ _ _ _ (by decide), objGet_setKey_same]
    · rw [objGet_setKey_other _ _ _ _ (by decide), objGet_setKey_other _ _ _ _ (by decide),
        objGet_setKey_same]
    · rw [objGet_setKey_other _ _ _ _ (by decide), objGet_setKey_same]
    · rw [objGet_setKey_same]
    · intro k hk
      simp only [List.mem_cons, List.mem_singleton, List.not_mem_nil, or_false, not_or] at hk
      obtain ⟨h1, h2, h3, h4⟩ := hk
      rw [objGet_setKey_other _ _ _ _ h4, objGet_setKey_other _ _ _ _ h3,
        objGet_setKey_other _ _ _ _ h2, objGet_setKey_other _ _ _ _ h1, hrestVis]

/-- C14: on a run of `updateDashboard` that finds its tile and the query of the tile, the
object passed to `create_query` has no `id` and no `slug`, has `fields = selectedColumns`, has
`client_id = custom_client_id_<Date.now()>`, reads at every other key but `vis_config` what the
original query reads there, keeps the original `vis_config` when no tile title is configured,
and when one is configured has as `vis_config` the original one (or `{}`) overridden with type
`table`, `column_order = selectedColumns`, `show_row_numbers = true` and
`table_theme = editable`; once the query is created the next call repoints the tile with
`query_id` the id of the query created. -/
theorem updateDashboard_rewrites_query (sdk : Sdk σ) (cfg : Config) (now : Int)
    (currentDashboardId originalDashboardId : JsVal) (selectedColumns : Json)
    (ds : List JsVal) (filtersFromRequest filterNameMap : Dict) (w : World σ)
    (dashboard : Dashboard) (tile : Element) (originalQuery newQuery : Obj) (s1 s2 s3 : σ)
    (hne : currentDashboardId ≠ originalDashboardId)
    (hdash : sdk.dashboard currentDashboardId w.st = (.ok dashboard, s1))
    (htile : (match dashboard.dashboard_elements with
        | some elements => elements.find? (fun (element : Element) => element.title == cfg.tileTitle)
        | none => none) = some tile)
    (htid : tile.id.truthy = true) (hqid : (tileQueryId tile).truthy = true)
    (hquery : sdk.query (tileQueryId tile) s1 = (.ok originalQuery, s2))
    (hcreate : sdk.create_query (buildQueryConfig cfg originalQuery selectedColumns now) s2
      = (.ok newQuery, s3)) :
    (∃ tail,
      ((updateDashboard sdk cfg now currentDashboardId originalDashboardId selectedColumns ds
          filtersFromRequest filterNameMap).run w).2.trace
        = w.trace ++
          [Call.dashboard currentDashboardId, Call.query (tileQueryId tile),
           Call.create_query (buildQueryConfig cfg originalQuery selectedColumns now),
           Call.update_dashboard_element tile.id (.query_id (objGet newQuery "id"))] ++ tail) ∧
    "id" ∉ (buildQueryConfig cfg originalQuery selectedColumns now).map Prod.fst ∧
    "slug" ∉ (buildQueryConfig cfg originalQuery selectedColumns now).map Prod.fst ∧
    objGet (buildQueryConfig cfg originalQuery selectedColumns now) "fields" = selectedColumns ∧
    objGet (buildQueryConfig cfg originalQuery selectedColumns now) "client_id"
      = .val (.str ("custom_client_id_" ++ toString now)) ∧
    (∀ k, k ∉ ["id", "client_id", "slug", "fields", "vis_config"] →
      objGet (buildQueryConfig cfg originalQuery selectedColumns now) k = objGet originalQuery k) ∧
    (cfg.tileTitle.truthy = false →
      objGet (buildQueryConfig cfg originalQuery selectedColumns now) "vis_config"
        = objGet originalQuery "vis_config") ∧
    (cfg.tileTitle.truthy = true →
      ∃ vis, objGet (buildQueryConfig cfg originalQuery selectedColumns now) "vis_config"
          = .obj vis ∧
        objGet vis "type" = .val (.str "table") ∧
        objGet vis "column_order" = selectedColumns ∧
        objGet vis "show_row_numbers" = .val (.bool true) ∧
        objGet vis "table_theme" = .val (.str "editable") ∧
        ∀ k, k ∉ ["type", "column_order", "show_row_numbers", "table_theme"] →
          objGet vis k =
            objGet (if (objGet originalQuery "vis_config").truthy
                    then spreadProps (objGet originalQuery "vis_config") else []) k) := by
  refine ⟨?_, buildQueryConfig_attributes cfg originalQuery selectedColumns now⟩
  rw [updateDashboard_prelude sdk cfg now currentDashboardId originalDashboardId selectedColumns
    ds filtersFromRequest filterNameMap w dashboard tile originalQuery newQuery s1 s2 s3 hne hdash
    htile htid hqid hquery hcreate]
  obtain ⟨tail, ht⟩ := request_then_grows
    (Call.update_dashboard_element tile.id (.query_id (objGet newQuery "id")))
    (sdk.update_dashboard_element tile.id (.query_id (objGet newQuery "id")))
    (fun _ => do
      deleteUnselectedFilters sdk ds (dashboard.dashboard_filters.getD [])
      upsertFilters sdk cfg currentDashboardId filtersFromRequest filterNameMap
        (dashboard.dashboard_filters.getD []) ds
      ensureTileListeners sdk currentDashboardId ds filterNameMap)
    (fun _ => Op.grows_bind _ _ (deleteUnselectedFilters_grows sdk ds _)
      (fun _ => Op.grows_bind _ _ (upsertFilters_grows sdk cfg currentDashboardId
        filtersFromRequest filterNameMap _ ds)
        (fun _ => Op.growsWith_grows _ _
          (ensureTileListeners_growsWith sdk currentDashboardId ds filterNameMap))))
    { st := s3,
      trace := w.trace ++ [Call.dashboard currentDashboardId, Call.query (tileQueryId tile),
        Call.create_query (buildQueryConfig cfg originalQuery selectedColumns now)] }
  refine ⟨tail, ?_⟩
  have hstep : ((do
      sdk.okUpdateDashboardElement tile.id (.query_id (objGet newQuery "id"))
      deleteUnselectedFilters sdk ds (dashboard.dashboard_filters.getD [])
      upsertFilters sdk cfg currentDashboardId filtersFromRequest filterNameMap
        (dashboard.dashboard_filters.getD []) ds
      ensureTileListeners sdk currentDashboardId ds filterNameMap : Op σ Unit).run
      { st := s3,
        trace := w.trace ++ [Call.dashboard currentDashboardId, Call.query (tileQueryId tile),
          Call.create_query (buildQueryConfig cfg originalQuery selectedColumns now)] }).2.trace
      = (w.trace ++ [Call.dashboard currentDashboardId, Call.query (tileQueryId tile),
          Call.create_query (buildQueryConfig cfg originalQuery selectedColumns now)]) ++
        Call.update_dashboard_element tile.id (.query_id (objGet newQuery "id")) :: tail := ht
  rw [hstep]
  simp only [List.append_assoc, List.cons_append, List.nil_append]

/-- C14 at a concrete input: the original query is a bar chart with id, slug and client id;
with the tile title `Orders` configured and `Date.now() = 1700`, the object sent to
`create_query` is the original without id and slug, with the selected columns, the new client
id and a table visualisation that keeps `show_legend`. -/
theorem updateDashboard_rewrites_query_witness :
    buildQueryConfig { tileTitle := .str "Orders" }
        [("id", .val (.num 5)), ("slug", .val (.str "abc")), ("client_id", .val (.str "xyz")),
         ("model", .val (.str "sales")), ("view", .val (.str "orders")),
         ("fields", .arr [.val (.str "orders.id")]),
         ("vis_config", .obj [("type", .val (.str "looker_bar")),
                              ("show_legend", .val (.bool true))])]
        (.arr [.val (.str "orders.id"), .val (.str "orders.region")]) 1700
      = [("model", .val (.str "sales")), ("view", .val (.str "orders")),
         ("fields", .arr [.val (.str "orders.id"), .val (.str "orders.region")]),
         ("vis_config", .obj [("type", .val (.str "table")),
                              ("show_legend", .val (.bool true)),
                              ("column_order",
                                .arr [.val (.str "orders.id"), .val (.str "orders.region")]),
                              ("show_row_numbers", .val (.bool true)),
                              ("table_theme", .val (.str "editable"))]),
         ("client_id", .val (.str "custom_client_id_1700"))] ∧
    ∃ tail : List Call,
      ((updateDashboard dateFilterSdk { tileTitle := .str "Orders" } 1700 (.num 20) (.num 10)
          (.arr [.val (.str "orders.id"), .val (.str "orders.region")])
          [.str "orders.region"] [] []).run startWorld).2.trace.map Call.name
        = ["dashboard", "query", "create_query", "update_dashboard_element"] ++
            tail.map Call.name := by
  refine ⟨rfl, ?_⟩
  obtain ⟨tail, h⟩ := (updateDashboard_rewrites_query dateFilterSdk { tileTitle := .str "Orders" }
    1700 (.num 20) (.num 10) (.arr [.val (.str "orders.id"), .val (.str "orders.region")])
    [.str "orders.region"] [] [] startWorld
    { id := .num 20, title := .str "Mine",
      dashboard_elements := some [{ id := .num 1, title := .str "Orders", query_id := .num 5 }],
      dashboard_filters := some
        [{ id := .num 11, title := .str "Date", type := .str "date_filter" },
         { id := .num 12, title := .str "Status", type := .str "field_filter",
           dimension := .str "orders.status" }] }
    { id := .num 1, title := .str "Orders", query_id := .num 5 }
    [("id", .val (.num 5)), ("slug", .val (.str "abc")), ("client_id", .val (.str "xyz")),
     ("model", .val (.str "sales")), ("view", .val (.str "orders")),
     ("fields", .arr [.val (.str "orders.id")]),
     ("vis_config", .obj [("type", .val (.str "looker_bar")),
                          ("show_legend", .val (.bool true))])]
    [("id", .val (.num 6))] () () ()
    (by decide) rfl rfl rfl rfl rfl rfl).1
  refine ⟨tail, ?_⟩
  rw [h]
  simp only [List.map_append]
  rfl

/-! ## ensureTileListeners: change detection on the inputs -/

theorem needsWrite_false_iff (filterNameMap : Dict) (ds : List JsVal) (current : List Listen) :
    needsWrite filterNameMap ds current = false ↔
      (∀ d ∈ ds, dimensionKey filterNameMap d ∈ current.map listenKey) ∧
        (current.map listenKey).Nodup := by
  simp [needsWrite, List.any_eq_false]

theorem wellKeyed_keys (byKey : List (String × Listen)) (h : WellKeyed byKey) :
    byKey.map Prod.fst = (byKey.map Prod.snd).map listenKey := by
  rw [List.map_map]
  apply List.map_congr_left
  intro e he
  exact h.2 e he

/-- The keys of the list a call computes are distinct, and the key of every selected dimension
is among them. -/
theorem updatedListens_keys (filterNameMap : Dict) (ds : List JsVal) (current : List Listen) :
    ((updatedListens filterNameMap ds current).map listenKey).Nodup ∧
      ∀ d ∈ ds, dimensionKey filterNameMap d ∈
        (updatedListens filterNameMap ds current).map listenKey := by
  have hwk : WellKeyed (addDimensions filterNameMap ds (seedListens current)) :=
    addDimensions_wellKeyed _ _ _ (seed_fold_wellKeyed current [] wellKeyed_nil)
  have hkeys := wellKeyed_keys _ hwk
  unfold updatedListens
  rw [← hkeys]
  exact ⟨hwk.1, fun d hd => addDimensions_covers filterNameMap ds (seedListens current) d hd⟩

theorem keyed_values (ls : List Listen) :
    (ls.map (fun l => (listenKey l, l))).map Prod.snd = ls := by
  induction ls with
  | nil => rfl
  | cons l ls ih => simp only [List.map_cons, ih]

theorem keyed_keys (ls : List Listen) :
    (ls.map (fun l => (listenKey l, l))).map Prod.fst = ls.map listenKey := by
  induction ls with
  | nil => rfl
  | cons l ls ih => simp only [List.map_cons, ih]

/-- With distinct keys and every selected dimension covered, the list computed is the current
list. -/
theorem updatedListens_of_covered (filterNameMap : Dict) (ds : List JsVal)
    (current : List Listen)
    (hcov : ∀ d ∈ ds, dimensionKey filterNameMap d ∈ current.map listenKey)
    (hnodup : (current.map listenKey).Nodup) :
    updatedListens filterNameMap ds current = current := by
  have hwk : WellKeyed ([] ++ current.map (fun l => (listenKey l, l))) := by
    refine ⟨?_, ?_⟩
    · rw [List.nil_append, keyed_keys]
      exact hnodup
    · intro e he
      simp only [List.nil_append, List.mem_map] at he
      obtain ⟨l, _, hl⟩ := he
      rw [← hl]
  have hseed : seedListens current = current.map (fun l => (listenKey l, l)) := by
    have h := seed_fold_values (current.map (fun l => (listenKey l, l))) [] hwk
    rw [keyed_values, List.nil_append] at h
    exact h
  unfold updatedListens
  rw [hseed, addDimensions_of_covered]
  · exact keyed_values current
  · intro d hd
    rw [keyed_keys]
    exact hcov d hd

theorem pair_map_keys (us cs : List Listen)
    (h : us.map (fun l => (l.dashboard_filter_name, l.field))
      = cs.map (fun l => (l.dashboard_filter_name, l.field))) :
    us.map listenKey = cs.map listenKey := by
  have hk : listenKey = (fun p : JsVal × JsVal => p.1.toStr ++ "::" ++ p.2.toStr) ∘
      (fun l : Listen => (l.dashboard_filter_name, l.field)) := by
    funext l
    rfl
  rw [hk, ← List.map_map, ← List.map_map, h]

/-- The flag `changed` of a tile is the condition on the inputs. -/
theorem listensChanged_eq_needsWrite (filterNameMap : Dict) (ds : List JsVal)
    (current : List Listen) :
    listensChanged (updatedListens filterNameMap ds current) current
      = needsWrite filterNameMap ds current := by
  cases hn : needsWrite filterNameMap ds current with
  | false =>
    obtain ⟨hcov, hnodup⟩ := (needsWrite_false_iff _ _ _).1 hn
    rw [updatedListens_of_covered _ _ _ hcov hnodup, listensChanged_self]
  | true =>
    cases hc : listensChanged (updatedListens filterNameMap ds current) current with
    | true => rfl
    | false =>
      exfalso
      have hkeys := pair_map_keys _ _ (listensChanged_false _ _ hc)
      obtain ⟨hnd, hcov⟩ := updatedListens_keys filterNameMap ds current
      rw [hkeys] at hnd hcov
      have := (needsWrite_false_iff filterNameMap ds current).2 ⟨hcov, hnd⟩
      rw [hn] at this
      exact absurd this (by decide)

theorem ensureTileListenersLoop_run (sdk : Sdk σ) (ds : List JsVal) (filterNameMap : Dict)
    (haccept : ∀ id body s, (sdk.update_dashboard_element id body s).1 = .ok ())
    (els : List Element) (w : World σ) :
    ∃ s1, (ensureTileListenersLoop sdk ds filterNameMap els).run w
      = (.ok (), { st := s1,
                   trace := w.trace ++ els.filterMap (fun e =>
                     match firstFilterable e with
                     | none => none
                     | some f =>
                       if needsWrite filterNameMap ds (f.listen.getD []) = true then
                         some (Call.update_dashboard_element e.id
                           (listenPatch e f (updatedListens filterNameMap ds (f.listen.getD []))))
                       else none) }) := by
  induction els generalizing w with
  | nil => exact ⟨w.st, by simp [ensureTileListenersLoop]⟩
  | cons e els ih =>
    unfold ensureTileListenersLoop
    cases hf : firstFilterable e with
    | none =>
      obtain ⟨s1, h1⟩ := ih w
      refine ⟨s1, ?_⟩
      simp only [h1, List.filterMap_cons, hf]
    | some f =>
      simp only [listensChanged_eq_needsWrite]
      cases hn : needsWrite filterNameMap ds (f.listen.getD []) with
      | false =>
        obtain ⟨s1, h1⟩ := ih w
        refine ⟨s1, ?_⟩
        simp only [Bool.not_false, if_true, h1, List.filterMap_cons, hf, hn, Bool.false_eq_true,
          if_false]
      | true =>
        simp only [Bool.not_true, Bool.false_eq_true, if_false]
        rw [Op.run_bind]
        simp only [Sdk.okUpdateDashboardElement, Op.run_request]
        rw [haccept]
        simp only
        obtain ⟨s1, h1⟩ := ih
          { st := (sdk.update_dashboard_element e.id
              (listenPatch e f (updatedListens filterNameMap ds (f.listen.getD []))) w.st).2,
            trace := w.trace ++ [Call.update_dashboard_element e.id
              (listenPatch e f (updatedListens filterNameMap ds (f.listen.getD [])))] }
        refine ⟨s1, ?_⟩
        simp only [h1, List.filterMap_cons, hf, hn, if_true, List.append_assoc,
          List.singleton_append]

theorem owedWrites_cons_none (filterNameMap : Dict) (ds : List JsVal) (e : Element)
    (els : List Element) (hf : firstFilterable e = none) :
    owedWrites filterNameMap ds (e :: els) = owedWrites filterNameMap ds els := by
  simp only [owedWrites, List.filterMap_cons, hf]

theorem owedWrites_cons_quiet (filterNameMap : Dict) (ds : List JsVal) (e : Element)
    (els : List Element) (f : Filterable) (hf : firstFilterable e = some f)
    (hn : needsWrite filterNameMap ds (f.listen.getD []) = false) :
    owedWrites filterNameMap ds (e :: els) = owedWrites filterNameMap ds els := by
  simp only [owedWrites, List.filterMap_cons, hf, hn, Bool.false_eq_true, if_false]

theorem owedWrites_cons_write (filterNameMap : Dict) (ds : List JsVal) (e : Element)
    (els : List Element) (f : Filterable) (hf : firstFilterable e = some f)
    (hn : needsWrite filterNameMap ds (f.listen.getD []) = true) :
    owedWrites filterNameMap ds (e :: els)
      = Call.update_dashboard_element e.id
          (listenPatch e f (updatedListens filterNameMap ds (f.listen.getD []))) ::
        owedWrites filterNameMap ds els := by
  simp only [owedWrites, List.filterMap_cons, hf, hn, if_true]

/-- The loop issues the writes owed, in order, up to the first one the client rejects. -/
theorem ensureTileListenersLoop_prefix (sdk : Sdk σ) (ds : List JsVal) (filterNameMap : Dict)
    (els : List Element) (w : World σ) :
    ∃ k s1, k ≤ (owedWrites filterNameMap ds els).length ∧
      ((ensureTileListenersLoop sdk ds filterNameMap els).run w).2
        = { st := s1, trace := w.trace ++ (owedWrites filterNameMap ds els).take k } ∧
      (((ensureTileListenersLoop sdk ds filterNameMap els).run w).1 = .ok () →
        k = (owedWrites filterNameMap ds els).length) ∧
      (∀ err, ((ensureTileListenersLoop sdk ds filterNameMap els).run w).1 = .error err →
        0 < k) := by
  induction els generalizing w with
  | nil =>
    refine ⟨0, w.st, Nat.le_refl _, ?_, fun _ => rfl, ?_⟩
    · simp [ensureTileListenersLoop, owedWrites]
    · intro err h
      simp [ensureTileListenersLoop] at h
  | cons e els ih =>
    unfold ensureTileListenersLoop
    cases hf : firstFilterable e with
    | none =>
      rw [owedWrites_cons_none filterNameMap ds e els hf]
      exact ih w
    | some f =>
      simp only [listensChanged_eq_needsWrite]
      cases hn : needsWrite filterNameMap ds (f.listen.getD []) with
      | false =>
        rw [owedWrites_cons_quiet filterNameMap ds e els f hf hn]
        simp only [Bool.not_false, if_true]
        exact ih w
      | true =>
        rw [owedWrites_cons_write filterNameMap ds e els f hf hn]
        simp only [Bool.not_true, Bool.false_eq_true, if_false]
        rw [Op.run_bind]
        simp only [Sdk.okUpdateDashboardElement, Op.run_request]
        cases hup : sdk.update_dashboard_element e.id
            (listenPatch e f (updatedListens filterNameMap ds (f.listen.getD []))) w.st with
        | mk r s2 =>
          cases r with
          | error err =>
            refine ⟨1, s2, by simp, ?_, ?_, fun _ _ => Nat.one_pos⟩
            · simp
            · intro h
              simp at h
          | ok u =>
            obtain ⟨k, s1, hk, hw, hok, herr⟩ := ih
              { st := s2,
                trace := w.trace ++ [Call.update_dashboard_element e.id
                  (listenPatch e f (updatedListens filterNameMap ds (f.listen.getD [])))] }
            refine ⟨k + 1, s1, by simpa using hk, ?_, ?_, fun _ _ => Nat.succ_pos k⟩
            · simp only [hw, List.take_succ_cons, List.append_assoc, List.singleton_append]
            · intro h
              simp only [List.length_cons, Nat.add_right_cancel_iff]
              exact hok h

/-- C19, as the code has it.  Once the tiles are fetched, the writes owed are those of the
tiles with a filterable result maker for which some selected dimension `d` has no current
listener with the key `<filterNameMap[d] || d>::<d>`, or two current listeners share a key
`<dashboard_filter_name>::<field>`, each with the list computed for it.  With a client that
accepts the writes, `update_dashboard_element` is issued for exactly these tiles, in their
order.  In general the writes issued are the first `k` of the writes owed: all of them when
the call succeeds and at least one when it fails (a rejected write ends the call, so a tile
after it is not written).  When the keys of the current list are distinct and
cover every selected dimension, the list computed is the current list, in the same order, and
the tile is not written. -/
theorem ensureTileListeners_writes_when_needed (sdk : Sdk σ) (w : World σ) (dashboardId : JsVal)
    (ds : List JsVal) (filterNameMap : Dict) (elements : List Element) (s1 : σ)
    (hfetch : sdk.dashboard_dashboard_elements dashboardId w.st = (.ok elements, s1)) :
    ((∀ id body s, (sdk.update_dashboard_element id body s).1 = .ok ()) →
      ∃ s2, (ensureTileListeners sdk dashboardId ds filterNameMap).run w
        = (.ok (), { st := s2,
                     trace := w.trace ++ Call.dashboard_dashboard_elements dashboardId ::
                       elements.filterMap (fun e =>
                         match firstFilterable e with
                         | none => none
                         | some f =>
                           if needsWrite filterNameMap ds (f.listen.getD []) = true then
                             some (Call.update_dashboard_element e.id
                               (listenPatch e f
                                 (updatedListens filterNameMap ds (f.listen.getD []))))
                           else none) })) ∧
    (∃ k s2, k ≤ (owedWrites filterNameMap ds elements).length ∧
      ((ensureTileListeners sdk dashboardId ds filterNameMap).run w).2
        = { st := s2,
            trace := w.trace ++ Call.dashboard_dashboard_elements dashboardId ::
              (owedWrites filterNameMap ds elements).take k } ∧
      (((ensureTileListeners sdk dashboardId ds filterNameMap).run w).1 = .ok () →
        k = (owedWrites filterNameMap ds elements).length) ∧
      (∀ err, ((ensureTileListeners sdk dashboardId ds filterNameMap).run w).1 = .error err →
        0 < k)) ∧
    (∀ current : List Listen,
      needsWrite filterNameMap ds current = true ↔
        ((∃ d ∈ ds, dimensionKey filterNameMap d ∉ current.map listenKey) ∨
          ¬ (current.map listenKey).Nodup)) ∧
    (∀ current : List Listen,
      (∀ d ∈ ds, dimensionKey filterNameMap d ∈ current.map listenKey) →
      (current.map listenKey).Nodup →
      updatedListens filterNameMap ds current = current ∧
        needsWrite filterNameMap ds current = false) := by
  refine ⟨?_, ?_, ?_, ?_⟩
  · intro haccept
    unfold ensureTileListeners
    rw [Op.run_bind]
    simp only [Sdk.okDashboardElements, Op.run_request, hfetch]
    obtain ⟨s2, h2⟩ := ensureTileListenersLoop_run sdk ds filterNameMap haccept elements
      { st := s1, trace := w.trace ++ [Call.dashboard_dashboard_elements dashboardId] }
    refine ⟨s2, ?_⟩
    rw [h2]
    simp only [List.append_assoc, List.singleton_append]
  · obtain ⟨k, s2, hk, hw, hok, herr⟩ := ensureTileListenersLoop_prefix sdk ds filterNameMap
      elements { st := s1, trace := w.trace ++ [Call.dashboard_dashboard_elements dashboardId] }
    have hrun : (ensureTileListeners sdk dashboardId ds filterNameMap).run w
        = (ensureTileListenersLoop sdk ds filterNameMap elements).run
            { st := s1, trace := w.trace ++ [Call.dashboard_dashboard_elements dashboardId] } := by
      unfold ensureTileListeners
      rw [Op.run_bind]
      simp only [Sdk.okDashboardElements, Op.run_request, hfetch]
    refine ⟨k, s2, hk, ?_, ?_, ?_⟩
    · rw [hrun, hw]
      simp only [List.append_assoc, List.singleton_append]
    · rw [hrun]
      exact hok
    · rw [hrun]
      exact herr
  · intro current
    have h := needsWrite_false_iff filterNameMap ds current
    constructor
    · intro ht
      by_contra hcon
      simp only [not_or, not_exists, not_and, not_not] at hcon
      have := h.2 ⟨fun d hd => hcon.1 d hd, hcon.2⟩
      rw [ht] at this
      exact absurd this (by decide)
    · intro hor
      cases hn : needsWrite filterNameMap ds current with
      | true => rfl
      | false =>
        exfalso
        obtain ⟨hcov, hnd⟩ := h.1 hn
        rcases hor with ⟨d, hd, hnot⟩ | hdup
        · exact hnot (hcov d hd)
        · exact hdup hnd
  · intro current hcov hnd
    exact ⟨updatedListens_of_covered _ _ _ hcov hnd,
      (needsWrite_false_iff _ _ _).2 ⟨hcov, hnd⟩⟩

/-- C19 at a concrete input: tile `1` listens to `Region::orders.region` twice and tile `2`
has no result maker; with `orders.region` selected and named `Region`, the dimension is covered
but two listeners share a key, so tile `1` alone is written. -/
theorem ensureTileListeners_writes_when_needed_witness :
    ((ensureTileListeners memorySdk (.num 9) [.str "orders.region"]
        [("orders.region", .str "Region")]).run
          { st := listenerTiles, trace := [] }).2.trace
      = [Call.dashboard_dashboard_elements (.num 9),
         Call.update_dashboard_element (.num 1)
           (.result_maker
             { filterables := some
                 [{ listen := some
                      [{ dashboard_filter_name := .str "Region",
                         field := .str "orders.region" }] }] })] := by
  obtain ⟨s2, h⟩ := (ensureTileListeners_writes_when_needed memorySdk
    { st := listenerTiles, trace := [] } (.num 9) [.str "orders.region"]
    [("orders.region", .str "Region")] listenerTiles listenerTiles rfl).1 (fun _ _ _ => rfl)
  rw [h]
  rfl

/-- C19 fails as stated: both tiles need a write when `orders.region` is selected (the first
has two listeners with one key, the second has no listener for the dimension), and the client
rejects the write of the first; the call fails there, and no `update_dashboard_element` call is
issued for the second tile. -/
theorem ensureTileListeners_stops_at_rejected_write :
    needsWrite [("orders.region", .str "Region")] [.str "orders.region"] [] = true ∧
    (ensureTileListeners rejectingSdk (.num 9) [.str "orders.region"]
        [("orders.region", .str "Region")]).run { st := unwrittenTiles, trace := [] }
      = (.error "rejected",
          { st := unwrittenTiles,
            trace := [Call.dashboard_dashboard_elements (.num 9),
              Call.update_dashboard_element (.num 1)
                (.result_maker
                  { filterables := some
                      [{ listen := some
                           [{ dashboard_filter_name := .str "Region",
                              field := .str "orders.region" }] }] })] }) ∧
    (owedWrites [("orders.region", .str "Region")] [.str "orders.region"] unwrittenTiles).length
      = 2 :=
  ⟨rfl, rfl, rfl⟩

/-! ## ensureTileListeners: the union is keyed by a string -/

theorem seed_fold_mem (ls : List Listen) (byKey : List (String × Listen)) (e : String × Listen)
    (h : e ∈ ls.foldl (fun byKey listen => setKey byKey (listenKey listen) listen) byKey) :
    e ∈ byKey ∨ e.2 ∈ ls := by
  induction ls generalizing byKey with
  | nil => exact Or.inl h
  | cons l ls ih =>
    rcases ih _ h with h1 | h1
    · rcases mem_setKey _ _ _ _ h1 with h2 | h2
      · exact Or.inr (by rw [h2]; simp)
      · exact Or.inl h2
    · exact Or.inr (List.mem_cons_of_mem _ h1)

theorem addDimensions_mem (filterNameMap : Dict) (ds : List JsVal)
    (byKey : List (String × Listen)) (e : String × Listen)
    (h : e ∈ addDimensions filterNameMap ds byKey) :
    e ∈ byKey ∨ ∃ d ∈ ds, e.2 =
      ({ dashboard_filter_name := (filterNameMap.get d.toStr).orElse d, field := d } : Listen) := by
  induction ds generalizing byKey with
  | nil => exact Or.inl h
  | cons d ds ih =>
    rw [addDimensions_cons] at h
    rcases ih _ h with h1 | ⟨d2, hd2, h2⟩
    · split at h1
      · exact Or.inl h1
      · rcases mem_setKey _ _ _ _ h1 with h3 | h3
        · exact Or.inr ⟨d, by simp, by rw [h3]⟩
        · exact Or.inl h3
    · exact Or.inr ⟨d2, List.mem_cons_of_mem _ hd2, h2⟩

/-- What holds of the list computed for a tile: no two entries have the same pair
`(dashboard_filter_name, field)`, and every entry is a current entry or the entry
`(filterNameMap[d] || d, d)` of a selected dimension. -/
theorem updatedListens_sound (filterNameMap : Dict) (ds : List JsVal) (current : List Listen) :
    ((updatedListens filterNameMap ds current).map
        (fun l => (l.dashboard_filter_name, l.field))).Nodup ∧
    ∀ l ∈ updatedListens filterNameMap ds current,
      l ∈ current ∨ ∃ d ∈ ds, l =
        ({ dashboard_filter_name := (filterNameMap.get d.toStr).orElse d, field := d } : Listen) := by
  refine ⟨?_, ?_⟩
  · have hk : (updatedListens filterNameMap ds current).map listenKey
        = ((updatedListens filterNameMap ds current).map
            (fun l => (l.dashboard_filter_name, l.field))).map
          (fun p : JsVal × JsVal => p.1.toStr ++ "::" ++ p.2.toStr) := by
      rw [List.map_map]
      rfl
    have hnd := (updatedListens_keys filterNameMap ds current).1
    rw [hk] at hnd
    exact List.Nodup.of_map _ hnd
  · intro l hl
    unfold updatedListens at hl
    obtain ⟨e, he, hel⟩ := List.mem_map.1 hl
    rcases addDimensions_mem _ _ _ e he with h1 | ⟨d, hd, h2⟩
    · rcases seed_fold_mem current [] e h1 with h3 | h3
      · simp at h3
      · exact Or.inl (hel ▸ h3)
    · exact Or.inr ⟨d, hd, hel ▸ h2⟩

/-- C15 fails on the code.  The current listeners `(Sales::EU, orders.region)` and
`(Sales, EU::orders.region)` are two pairs with one key `Sales::EU::orders.region`: the list
computed keeps the second alone, and the tile is rewritten without the first.  In the same
way, with the current listener `(Sales::EU, orders.region)` and the selected dimension
`EU::orders.region` named `Sales`, the entry `(Sales, EU::orders.region)` is not added. -/
theorem updatedListens_loses_colliding_pair :
    updatedListens [] []
        [{ dashboard_filter_name := .str "Sales::EU", field := .str "orders.region" },
         { dashboard_filter_name := .str "Sales", field := .str "EU::orders.region" }]
      = [{ dashboard_filter_name := .str "Sales", field := .str "EU::orders.region" }] ∧
    ((ensureTileListeners memorySdk (.num 9) [] []).run
        { st := collidingTiles, trace := [] }).2.trace
      = [Call.dashboard_dashboard_elements (.num 9),
         Call.update_dashboard_element (.num 1)
           (.result_maker
             { filterables := some
                 [{ listen := some
                      [{ dashboard_filter_name := .str "Sales",
                         field := .str "EU::orders.region" }] }] })] ∧
    updatedListens [("EU::orders.region", .str "Sales")] [.str "EU::orders.region"]
        [{ dashboard_filter_name := .str "Sales::EU", field := .str "orders.region" }]
      = [{ dashboard_filter_name := .str "Sales::EU", field := .str "orders.region" }] :=
  ⟨rfl, rfl, rfl⟩

/-! ## getFilterValues: failures stay with their dimension -/

/-- C16: `getFilterValues` never fails as a whole: it returns one entry per input dimension,
in order, each carrying its dimension.  The calls of a batch are the `create_query` calls of
the truthy dimensions, in order, followed by `run_query` calls alone.  The values of a
dimension come from the answers to its own two calls, whatever the answers to the calls of
the other dimensions: they are `[]` when the dimension is falsy, when its query is not
created (in the state the client is in after the `create_query` calls of the dimensions
before it) or when its query is not run (in the state the client is in after every
`create_query` call of the batch and the `run_query` calls of the dimensions before it), and
otherwise the values formatted from the result of its own run. -/
theorem getFilterValues_isolates_failures (sdk : Sdk σ) (cfg : Config) (dimensions : List JsVal)
    (selectedMeasure : JsVal) (w : World σ) :
    (∃ list w1, (getFilterValues sdk cfg dimensions selectedMeasure).run w = (.ok list, w1) ∧
      list.map FilterValues.dimension = dimensions ∧ list.length = dimensions.length) ∧
    (∃ runs : List Call,
      ((getFilterValues sdk cfg dimensions selectedMeasure).run w).2.trace
        = w.trace ++
          (dimensions.filter JsVal.truthy).map
            (fun d => Call.create_query (filterValuesQuery cfg d selectedMeasure)) ++ runs ∧
      ∀ c ∈ runs, c.name = "run_query") ∧
    (∀ pre d post, dimensions = pre ++ d :: post →
      ∃ before entry after,
        ((getFilterValues sdk cfg dimensions selectedMeasure).run w).1
          = .ok (before ++ entry :: after) ∧
        before.length = pre.length ∧ after.length = post.length ∧ entry.dimension = d ∧
        (d.truthy = false → entry.values = []) ∧
        (d.truthy = true →
          (∀ e s, sdk.create_query (filterValuesQuery cfg d selectedMeasure)
              (afterCreates sdk cfg selectedMeasure pre w.st) = (.error e, s) →
            entry.values = []) ∧
          (∀ q s1, sdk.create_query (filterValuesQuery cfg d selectedMeasure)
              (afterCreates sdk cfg selectedMeasure pre w.st) = (.ok q, s1) →
            (∀ e s2, sdk.run_query (objGet q "id") "json"
                (afterRuns sdk cfg selectedMeasure pre w.st
                  (afterCreates sdk cfg selectedMeasure dimensions w.st)) = (.error e, s2) →
              entry.values = []) ∧
            (∀ r s2, sdk.run_query (objGet q "id") "json"
                (afterRuns sdk cfg selectedMeasure pre w.st
                  (afterCreates sdk cfg selectedMeasure dimensions w.st)) = (.ok r, s2) →
              entry.values = formatFilterValues cfg d selectedMeasure r)))) := by
  refine ⟨?_, ?_, ?_⟩
  · refine ⟨_, _, getFilterValues_run sdk cfg dimensions selectedMeasure w,
      batchEntries_dimensions _ _ _ _ _ _, ?_⟩
    have h := congrArg List.length (batchEntries_dimensions sdk cfg selectedMeasure dimensions
      w.st (afterCreates sdk cfg selectedMeasure dimensions w.st))
    simpa using h
  · refine ⟨runCalls sdk cfg selectedMeasure dimensions w.st, ?_,
      runCalls_are_runs sdk cfg selectedMeasure dimensions w.st⟩
    rw [getFilterValues_run]
    rfl
  · intro pre d post hdims
    have hcases := valuesFrom_cases sdk cfg selectedMeasure d
      (afterCreates sdk cfg selectedMeasure pre w.st)
      (afterRuns sdk cfg selectedMeasure pre w.st
        (afterCreates sdk cfg selectedMeasure dimensions w.st))
    refine ⟨batchEntries sdk cfg selectedMeasure pre w.st
        (afterCreates sdk cfg selectedMeasure dimensions w.st),
      { dimension := d,
        values := valuesFrom cfg selectedMeasure d
          (sdk.create_query (filterValuesQuery cfg d selectedMeasure)
            (afterCreates sdk cfg selectedMeasure pre w.st)).1
          (fun query => (sdk.run_query (objGet query "id") "json"
            (afterRuns sdk cfg selectedMeasure pre w.st
              (afterCreates sdk cfg selectedMeasure dimensions w.st))).1) },
      batchEntries sdk cfg selectedMeasure post
        (afterCreates sdk cfg selectedMeasure [d] (afterCreates sdk cfg selectedMeasure pre w.st))
        (afterRuns sdk cfg selectedMeasure [d] (afterCreates sdk cfg selectedMeasure pre w.st)
          (afterRuns sdk cfg selectedMeasure pre w.st
            (afterCreates sdk cfg selectedMeasure dimensions w.st))),
      ?_, ?_, ?_, rfl, hcases.1, hcases.2⟩
    · rw [getFilterValues_run]
      simp only
      rw [hdims, batchEntries_append, batchEntries]
    · have h := congrArg List.length (batchEntries_dimensions sdk cfg selectedMeasure pre
        w.st (afterCreates sdk cfg selectedMeasure dimensions w.st))
      simpa using h
    · have h := congrArg List.length (batchEntries_dimensions sdk cfg selectedMeasure post
        (afterCreates sdk cfg selectedMeasure [d] (afterCreates sdk cfg selectedMeasure pre w.st))
        (afterRuns sdk cfg selectedMeasure [d] (afterCreates sdk cfg selectedMeasure pre w.st)
          (afterRuns sdk cfg selectedMeasure pre w.st
            (afterCreates sdk cfg selectedMeasure dimensions w.st))))
      simpa using h

/-- C16 at concrete inputs.  On a client where the query of `broken` cannot be created and the
query of `slow` cannot be run, the batch `broken`, the empty dimension, `slow`, `region`
returns four entries, the first three without values and the last with its own.  On a client
that answers two calls only, the batch `a`, `b` creates both queries first, so both runs fail
and both entries are without values. -/
theorem getFilterValues_isolates_failures_witness :
    ((getFilterValues flakySdk { limitResults := .num 5 }
        [.str "broken", .str "", .str "slow", .str "region"] (.str "count")).run startWorld).1
      = .ok [{ dimension := .str "broken", values := [] },
             { dimension := .str "", values := [] },
             { dimension := .str "slow", values := [] },
             { dimension := .str "region", values := ["East (10)"] }] ∧
    (getFilterValues quotaSdk {} [.str "a", .str "b"] (.str "count")).run
        { st := 0, trace := [] }
      = (.ok [{ dimension := .str "a", values := [] }, { dimension := .str "b", values := [] }],
          { st := 4,
            trace := [Call.create_query (filterValuesQuery {} (.str "a") (.str "count")),
                      Call.create_query (filterValuesQuery {} (.str "b") (.str "count")),
                      Call.run_query (.val (.str "a")) "json",
                      Call.run_query (.val (.str "b")) "json"] }) ∧
    ∃ list w1,
      (getFilterValues flakySdk { limitResults := .num 5 }
        [.str "broken", .str "", .str "slow", .str "region"] (.str "count")).run startWorld
        = (.ok list, w1) ∧ list.length = 4 := by
  refine ⟨rfl, rfl, ?_⟩
  obtain ⟨list, w1, h, _, hlen⟩ := (getFilterValues_isolates_failures flakySdk
    { limitResults := .num 5 } [.str "broken", .str "", .str "slow", .str "region"]
    (.str "count") startWorld).1
  exact ⟨list, w1, h, hlen⟩

/-! ## getDashboardTilesWithResults: the query created for a tile -/

theorem tileStep_total (sdk : Sdk σ) (finalFilters : Obj) (tile : Element) (w : World σ) :
    ∃ r w1, (tileStep sdk finalFilters tile).run w = (.ok r, w1) ∧
      ∀ e, r = some e → e.query_id = (tileQueryId tile).toStr := by
  unfold tileStep
  simp only
  rw [Op.run_tryCatch]
  split
  · rename_i a w1 heq
    refine ⟨a, w1, rfl, ?_⟩
    intro e he
    subst he
    rw [Op.run_bind] at heq
    split at heq
    · rw [Op.run_bind] at heq
      split at heq
      · rw [Op.run_bind] at heq
        split at heq
        · simp only [Op.run_pure, Prod.mk.injEq, Except.ok.injEq, Option.some.injEq] at heq
          rw [← heq.1]
        · simp at heq
      · simp at heq
    · simp at heq
  · rename_i e w1 heq
    exact ⟨none, w1, rfl, fun e he => by simp at he⟩

theorem tileStep_grows (sdk : Sdk σ) (finalFilters : Obj) (tile : Element) :
    (tileStep sdk finalFilters tile).Grows := by
  intro w
  obtain ⟨tail, ht⟩ : ∃ tail, ((do
      let originalQuery ← sdk.okQuery (tileQueryId tile)
      let newQuery ← sdk.okCreateQuery (tileQueryBody originalQuery finalFilters)
      let queryResult ← sdk.okRunQuery (objGet newQuery "id") "json"
      pure (some
        ({ title := if tile.title.truthy then tile.title.toStr else "Tile " ++ tile.id.toStr
           query_id := (tileQueryId tile).toStr
           data :=
             match queryResult with
             | .rows rs => rs
             | _ => [] } : TileResult)) : Op σ (Option TileResult)).run w).2.trace
      = w.trace ++ tail :=
    Op.grows_bind _ _ (Op.grows_request _ _)
      (fun _ => Op.grows_bind _ _ (Op.grows_request _ _)
        (fun _ => Op.grows_bind _ _ (Op.grows_request _ _) (fun _ => Op.grows_pure _))) w
  refine ⟨tail, ?_⟩
  unfold tileStep
  simp only
  rw [Op.run_tryCatch]
  split
  · rename_i a w1 heq
    rw [heq] at ht
    exact ht
  · rename_i e w1 heq
    rw [heq] at ht
    exact ht

theorem tilesLoop_grows (sdk : Sdk σ) (finalFilters : Obj) (els : List Element)
    (acc : List TileResult) : (tilesLoop sdk finalFilters els acc).Grows := by
  induction els generalizing acc with
  | nil => exact Op.grows_pure _
  | cons tile els ih =>
    unfold tilesLoop
    split
    · exact ih acc
    · refine Op.grows_bind _ _ (tileStep_grows sdk finalFilters tile) (fun pushed => ?_)
      cases pushed with
      | none => exact ih acc
      | some entry => exact ih _

/-- The loop never fails, and every entry it pushes carries the query id of a tile that is not
skipped. -/
theorem tilesLoop_total (sdk : Sdk σ) (finalFilters : Obj) (els : List Element)
    (acc : List TileResult) (w : World σ) :
    ∃ out w1, (tilesLoop sdk finalFilters els acc).run w = (.ok out, w1) ∧
      ∀ r ∈ out, r ∈ acc ∨
        ∃ tile ∈ els, tileSkipped tile = false ∧ r.query_id = (tileQueryId tile).toStr := by
  induction els generalizing acc w with
  | nil => exact ⟨acc, w, rfl, fun r hr => Or.inl hr⟩
  | cons tile els ih =>
    unfold tilesLoop
    cases hs : tileSkipped tile with
    | true =>
      simp only [if_true]
      obtain ⟨out, w1, hrun, hmem⟩ := ih acc w
      refine ⟨out, w1, hrun, ?_⟩
      intro r hr
      rcases hmem r hr with h | ⟨t, ht, h⟩
      · exact Or.inl h
      · exact Or.inr ⟨t, List.mem_cons_of_mem _ ht, h⟩
    | false =>
      simp only [Bool.false_eq_true, if_false]
      obtain ⟨pushed, w0, hstep, hq⟩ := tileStep_total sdk finalFilters tile w
      rw [Op.run_bind, hstep]
      cases pushed with
      | none =>
        obtain ⟨out, w1, hrun, hmem⟩ := ih acc w0
        refine ⟨out, w1, hrun, ?_⟩
        intro r hr
        rcases hmem r hr with h | ⟨t, ht, h⟩
        · exact Or.inl h
        · exact Or.inr ⟨t, List.mem_cons_of_mem _ ht, h⟩
      | some entry =>
        obtain ⟨out, w1, hrun, hmem⟩ := ih (acc ++ [entry]) w0
        refine ⟨out, w1, hrun, ?_⟩
        intro r hr
        rcases hmem r hr with h | ⟨t, ht, h⟩
        · rcases List.mem_append.1 h with h1 | h1
          · exact Or.inl h1
          · rw [List.mem_singleton] at h1
            exact Or.inr ⟨tile, by simp, hs, by rw [h1]; exact hq entry rfl⟩
        · exact Or.inr ⟨t, List.mem_cons_of_mem _ ht, h⟩

/-- Skipped tiles play no part: the loop is the loop over the tiles that are not skipped. -/
theorem tilesLoop_filter (sdk : Sdk σ) (finalFilters : Obj) (els : List Element)
    (acc : List TileResult) :
    tilesLoop sdk finalFilters els acc
      = tilesLoop sdk finalFilters (els.filter (fun t => !tileSkipped t)) acc := by
  induction els generalizing acc with
  | nil => rfl
  | cons tile els ih =>
    cases hs : tileSkipped tile with
    | true =>
      have hf : (tile :: els).filter (fun t => !tileSkipped t)
          = els.filter (fun t => !tileSkipped t) :=
        List.filter_cons_of_neg (by simp [hs])
      rw [hf, ← ih acc]
      simp only [tilesLoop, hs, if_true]
    | false =>
      have hf : (tile :: els).filter (fun t => !tileSkipped t)
          = tile :: els.filter (fun t => !tileSkipped t) :=
        List.filter_cons_of_pos (by simp [hs])
      rw [hf]
      simp only [tilesLoop, hs, Bool.false_eq_true, if_false]
      congr 1
      funext pushed
      cases pushed with
      | none => exact ih acc
      | some entry => exact ih _

theorem tilesLoop_cons (sdk : Sdk σ) (finalFilters : Obj) (tile : Element)
    (rest : List Element) (acc : List TileResult) :
    tilesLoop sdk finalFilters (tile :: rest) acc
      = if tileSkipped tile then tilesLoop sdk finalFilters rest acc
        else
          (tileStep sdk finalFilters tile >>= fun pushed =>
            match pushed with
            | some entry => tilesLoop sdk finalFilters rest (acc ++ [entry])
            | none => tilesLoop sdk finalFilters rest acc) := by
  rw [tilesLoop]

/-- The loop over a list in two parts: the second part starts from the entries and the world
the first part left. -/
theorem tilesLoop_append (sdk : Sdk σ) (finalFilters : Obj) (xs ys : List Element)
    (acc acc1 : List TileResult) (w w1 : World σ)
    (h : (tilesLoop sdk finalFilters xs acc).run w = (.ok acc1, w1)) :
    (tilesLoop sdk finalFilters (xs ++ ys) acc).run w
      = (tilesLoop sdk finalFilters ys acc1).run w1 := by
  induction xs generalizing acc w with
  | nil =>
    simp only [tilesLoop, Op.run_pure, Prod.mk.injEq, Except.ok.injEq] at h
    rw [List.nil_append, h.1, h.2]
  | cons tile xs ih =>
    rw [List.cons_append, tilesLoop_cons]
    rw [tilesLoop_cons] at h
    cases hs : tileSkipped tile with
    | true =>
      simp only [hs, if_true] at h ⊢
      exact ih acc w h
    | false =>
      simp only [hs, Bool.false_eq_true, if_false] at h ⊢
      obtain ⟨pushed, w0, hstep, _⟩ := tileStep_total sdk finalFilters tile w
      rw [Op.run_bind, hstep] at h
      rw [Op.run_bind, hstep]
      cases pushed with
      | none => exact ih acc w0 h
      | some entry => exact ih _ w0 h

/-- The first calls of the `try` block of a tile whose original query is answered: the query
is fetched, then the query built from it is created. -/
theorem tileStep_trace (sdk : Sdk σ) (finalFilters : Obj) (tile : Element) (w : World σ)
    (originalQuery : Obj) (s1 : σ)
    (hquery : sdk.query (tileQueryId tile) w.st = (.ok originalQuery, s1)) :
    ∃ tail, ((tileStep sdk finalFilters tile).run w).2.trace
      = w.trace ++ Call.query (tileQueryId tile) ::
          Call.create_query (tileQueryBody originalQuery finalFilters) :: tail := by
  obtain ⟨tail, ht⟩ := request_then_grows
    (Call.create_query (tileQueryBody originalQuery finalFilters))
    (sdk.create_query (tileQueryBody originalQuery finalFilters))
    (fun newQuery => do
      let queryResult ← sdk.okRunQuery (objGet newQuery "id") "json"
      pure (some
        ({ title := if tile.title.truthy then tile.title.toStr else "Tile " ++ tile.id.toStr
           query_id := (tileQueryId tile).toStr
           data :=
             match queryResult with
             | .rows rs => rs
             | _ => [] } : TileResult)))
    (fun _ => Op.grows_bind _ _ (Op.grows_request _ _) (fun _ => Op.grows_pure _))
    { st := s1, trace := w.trace ++ [Call.query (tileQueryId tile)] }
  refine ⟨tail, ?_⟩
  unfold tileStep
  simp only
  rw [Op.run_tryCatch, Op.run_bind]
  simp only [Sdk.okQuery, Op.run_request, hquery]
  simp only [Sdk.okCreateQuery] at ht ⊢
  split
  · rename_i a w1 heq
    rw [heq] at ht
    rw [ht]
    simp
  · rename_i e w1 heq
    rw [heq] at ht
    simp only [Op.run_pure]
    rw [ht]
    simp

/-- The trace of a sequence extends the trace of its first part when what follows only adds
calls. -/
theorem bind_trace_extends {α β : Type} (m : Op σ α) (f : α → Op σ β) (hf : ∀ a, (f a).Grows)
    (w : World σ) : ∃ tail, ((m >>= f).run w).2.trace = (m.run w).2.trace ++ tail := by
  rw [Op.run_bind]
  cases hrun : m.run w with
  | mk r w1 =>
    cases r with
    | error e => exact ⟨[], by simp⟩
    | ok a =>
      obtain ⟨tail, ht⟩ := hf a w1
      exact ⟨tail, ht⟩

/-- The attributes of the query created for a tile. -/
theorem tileQueryBody_attributes (originalQuery finalFilters : Obj) :
    (∀ k ∈ ["model", "view", "fields", "sorts", "limit", "column_limit", "pivots", "total",
        "row_total", "dynamic_fields", "filter_expression", "vis_config"],
      objGet (tileQueryBody originalQuery finalFilters) k = objGet originalQuery k) ∧
    ((finalFilters.map Prod.fst).Nodup →
      ((spreadProps (objGet originalQuery "filters")).map Prod.fst).Nodup →
      ∃ merged, objGet (tileQueryBody originalQuery finalFilters) "filters" = .obj merged ∧
        ∀ k, objGet merged k =
          if k ∈ finalFilters.map Prod.fst then objGet finalFilters k
          else objGet (spreadProps (objGet originalQuery "filters")) k) := by
  refine ⟨?_, ?_⟩
  · intro k hk
    simp only [List.mem_cons, List.mem_singleton, List.not_mem_nil, or_false] at hk
    rcases hk with h | h | h | h | h | h | h | h | h | h | h | h <;> subst h <;> rfl
  · intro hff horig
    refine ⟨_, rfl, ?_⟩
    intro k
    rw [objGet_spreadOver _ finalFilters k hff, objGet_spreadOver_nil _ k horig]

theorem tileSkipped_iff (tile : Element) :
    tileSkipped tile = true ↔
      ((tile.query_id.truthy = false ∧
          ∀ rm, tile.result_maker = some rm → rm.query_id.truthy = false) ∨
        tile.query_vis_type = .str "looker_grid" ∨ tile.query_vis_type = .str "table" ∨
        (tile.query_vis_type.truthy = false ∧
          ∃ rm, tile.result_maker = some rm ∧
            (rm.vis_type = .str "looker_grid" ∨ rm.vis_type = .str "table"))) := by
  have hgrid : ∀ v : JsVal, v.truthy = false → v ≠ .str "looker_grid" := by
    intro v hv h
    rw [h] at hv
    exact absurd hv (by decide)
  have htable : ∀ v : JsVal, v.truthy = false → v ≠ .str "table" := by
    intro v hv h
    rw [h] at hv
    exact absurd hv (by decide)
  have hundef : JsVal.undefined.truthy = false := rfl
  have hu1 : JsVal.undefined ≠ .str "looker_grid" := by decide
  have hu2 : JsVal.undefined ≠ .str "table" := by decide
  unfold tileSkipped tileQueryId tileVisType JsVal.orElse
  cases hq : tile.query_id.truthy <;> cases hv : tile.query_vis_type.truthy <;>
    cases hrm : tile.result_maker with
    | none => simp_all
    | some rm => cases hrq : rm.query_id.truthy <;> simp_all

/-- C17: let the dashboard be fetched.  A tile is left out when it has no query id (neither
its own nor one on its result maker) or when its visualisation type, read on its query and
otherwise on its result maker, is `looker_grid` or `table`; the run is the run over the tiles
that are not left out, so a tile left out is never queried, every entry of the result carries
the query id of a tile that is not left out, and when every tile is left out nothing is called
after the fetch of the dashboard and the result has no entry.  For every tile
that is queried and whose original query the client answers, the calls issued for it start with
the fetch of that query and the creation of a query whose `model`, `view`, `fields`, `sorts`,
`limit`, `column_limit`, `pivots`, `total`, `row_total`, `dynamic_fields`, `filter_expression`
and `vis_config` are those of the original and whose `filters` read, at every key, the value
of `finalFilters` when it has the key and the value of the original filters otherwise. -/
theorem getDashboardTilesWithResults_merges_filters (sdk : Sdk σ) (w : World σ)
    (dashboardId : JsVal) (finalFilters : Obj) (dashboard : Dashboard) (s0 : σ)
    (hdash : sdk.dashboard dashboardId w.st = (.ok dashboard, s0)) :
    (∀ pre tile post originalQuery s1,
      dashboard.dashboard_elements.getD [] = pre ++ tile :: post →
      tileSkipped tile = false →
      sdk.query (tileQueryId tile)
          ((tilesLoop sdk finalFilters pre []).run
            { st := s0, trace := w.trace ++ [Call.dashboard dashboardId] }).2.st
        = (.ok originalQuery, s1) →
      ∃ tail, ((getDashboardTilesWithResults sdk dashboardId finalFilters).run w).2.trace
        = ((tilesLoop sdk finalFilters pre []).run
            { st := s0, trace := w.trace ++ [Call.dashboard dashboardId] }).2.trace ++
          Call.query (tileQueryId tile) ::
            Call.create_query (tileQueryBody originalQuery finalFilters) :: tail) ∧
    (∀ originalQuery : Obj,
      (∀ k ∈ ["model", "view", "fields", "sorts", "limit", "column_limit", "pivots", "total",
          "row_total", "dynamic_fields", "filter_expression", "vis_config"],
        objGet (tileQueryBody originalQuery finalFilters) k = objGet originalQuery k) ∧
      ((finalFilters.map Prod.fst).Nodup →
        ((spreadProps (objGet originalQuery "filters")).map Prod.fst).Nodup →
        ∃ merged, objGet (tileQueryBody originalQuery finalFilters) "filters" = .obj merged ∧
          ∀ k, objGet merged k =
            if k ∈ finalFilters.map Prod.fst then objGet finalFilters k
            else objGet (spreadProps (objGet originalQuery "filters")) k)) ∧
    (∀ tile : Element,
      tileSkipped tile = true ↔
        ((tile.query_id.truthy = false ∧
            ∀ rm, tile.result_maker = some rm → rm.query_id.truthy = false) ∨
          tile.query_vis_type = .str "looker_grid" ∨ tile.query_vis_type = .str "table" ∨
          (tile.query_vis_type.truthy = false ∧
            ∃ rm, tile.result_maker = some rm ∧
              (rm.vis_type = .str "looker_grid" ∨ rm.vis_type = .str "table")))) ∧
    ((getDashboardTilesWithResults sdk dashboardId finalFilters).run w
      = (tilesLoop sdk finalFilters
            ((dashboard.dashboard_elements.getD []).filter (fun t => !tileSkipped t)) [] >>=
          fun tiles => pure (tilesResult dashboard dashboardId tiles)).run
          { st := s0, trace := w.trace ++ [Call.dashboard dashboardId] }) ∧
    ((∀ tile ∈ dashboard.dashboard_elements.getD [], tileSkipped tile = true) →
      (getDashboardTilesWithResults sdk dashboardId finalFilters).run w
        = (.ok (tilesResult dashboard dashboardId []),
            { st := s0, trace := w.trace ++ [Call.dashboard dashboardId] })) ∧
    (∃ result w1,
      (getDashboardTilesWithResults sdk dashboardId finalFilters).run w = (.ok result, w1) ∧
      ∀ r ∈ result.tiles, ∃ tile ∈ dashboard.dashboard_elements.getD [],
        tileSkipped tile = false ∧ r.query_id = (tileQueryId tile).toStr) := by
  have hstart : (getDashboardTilesWithResults sdk dashboardId finalFilters).run w
      = (tilesLoop sdk finalFilters (dashboard.dashboard_elements.getD []) [] >>=
          fun tiles => pure (tilesResult dashboard dashboardId tiles)).run
          { st := s0, trace := w.trace ++ [Call.dashboard dashboardId] } := by
    unfold getDashboardTilesWithResults
    rw [Op.run_bind]
    simp only [Sdk.okDashboard, Op.run_request, hdash]
  refine ⟨?_, fun oq => tileQueryBody_attributes oq finalFilters, tileSkipped_iff, ?_, ?_, ?_⟩
  · intro pre tile post originalQuery s1 hels hskip hquery
    obtain ⟨acc1, w1, hpre, _⟩ := tilesLoop_total sdk finalFilters pre []
      { st := s0, trace := w.trace ++ [Call.dashboard dashboardId] }
    rw [hpre] at hquery
    simp only at hquery
    obtain ⟨t1, ht1⟩ := tileStep_trace sdk finalFilters tile w1 originalQuery s1 hquery
    obtain ⟨t2, ht2⟩ := bind_trace_extends (tileStep sdk finalFilters tile)
      (fun pushed =>
        match pushed with
        | some entry => tilesLoop sdk finalFilters post (acc1 ++ [entry])
        | none => tilesLoop sdk finalFilters post acc1)
      (fun pushed => by
        cases pushed with
        | none => exact tilesLoop_grows sdk finalFilters post acc1
        | some entry => exact tilesLoop_grows sdk finalFilters post _)
      w1
    have hloop : (tilesLoop sdk finalFilters (dashboard.dashboard_elements.getD []) []).run
        { st := s0, trace := w.trace ++ [Call.dashboard dashboardId] }
        = (tileStep sdk finalFilters tile >>= fun pushed =>
            match pushed with
            | some entry => tilesLoop sdk finalFilters post (acc1 ++ [entry])
            | none => tilesLoop sdk finalFilters post acc1).run w1 := by
      rw [hels, tilesLoop_append sdk finalFilters pre (tile :: post) [] acc1 _ w1 hpre,
        tilesLoop_cons]
      simp only [hskip, Bool.false_eq_true, if_false]
    obtain ⟨t3, ht3⟩ := bind_trace_extends
      (tilesLoop sdk finalFilters (dashboard.dashboard_elements.getD []) [])
      (fun tiles => (pure (tilesResult dashboard dashboardId tiles) : Op σ TilesWithResults))
      (fun _ => Op.grows_pure _)
      { st := s0, trace := w.trace ++ [Call.dashboard dashboardId] }
    refine ⟨t1 ++ t2 ++ t3, ?_⟩
    rw [hstart, ht3, hloop, ht2, ht1, hpre]
    simp only [List.append_assoc, List.cons_append]
  · rw [hstart, tilesLoop_filter]
  · intro hall
    have hnil : (dashboard.dashboard_elements.getD []).filter (fun t => !tileSkipped t) = [] := by
      rw [List.filter_eq_nil_iff]
      intro t ht
      simp [hall t ht]
    rw [hstart, tilesLoop_filter, hnil]
    rfl
  · obtain ⟨out, w1, hrun, hmem⟩ := tilesLoop_total sdk finalFilters
      (dashboard.dashboard_elements.getD []) []
      { st := s0, trace := w.trace ++ [Call.dashboard dashboardId] }
    refine ⟨tilesResult dashboard dashboardId out, w1, ?_, ?_⟩
    · rw [hstart, Op.run_bind, hrun]
      rfl
    · intro r hr
      rcases hmem r hr with h | h
      · simp at h
      · exact h

/-- C17 at a concrete input: of a grid tile, a tile without query, two table tiles (one by its
result maker, one by its query) and the chart on query `5` with filters `region = East,
year = 2024`, only the chart is queried; with `finalFilters = region: West` the query created
has `region = West` and `year = 2024`, and the result has the one entry of the chart. -/
theorem getDashboardTilesWithResults_merges_filters_witness :
    (∃ tail : List Call,
      ((getDashboardTilesWithResults chartSdk (.num 20)
          [("region", .val (.str "West"))]).run startWorld).2.trace
        = [Call.dashboard (.num 20), Call.query (.num 5),
           Call.create_query
             [("model", .val (.str "sales")), ("view", .val (.str "orders")),
              ("fields", .arr [.val (.str "orders.region"), .val (.str "orders.count")]),
              ("filters", .obj [("region", .val (.str "West")), ("year", .val (.str "2024"))]),
              ("sorts", .val .undefined), ("limit", .val (.str "500")),
              ("column_limit", .val .undefined), ("pivots", .val .undefined),
              ("total", .val .undefined), ("row_total", .val .undefined),
              ("dynamic_fields", .val .undefined), ("filter_expression", .val .undefined),
              ("vis_config", .val .undefined)]] ++ tail) ∧
    ((getDashboardTilesWithResults chartSdk (.num 20)
        [("region", .val (.str "West"))]).run startWorld).2.trace.map Call.name
      = ["dashboard", "query", "create_query", "run_query"] ∧
    chartTiles.map tileSkipped = [true, true, true, true, false] ∧
    ((getDashboardTilesWithResults chartSdk (.num 20)
        [("region", .val (.str "West"))]).run startWorld).1
      = .ok { id := "20", title := .str "Mine", description := .undefined,
              tiles := [{ title := "Chart", query_id := "5",
                          data := [[("orders.region", .str "West"),
                                    ("orders.count", .num 3)]] }] } := by
  refine ⟨?_, rfl, rfl, rfl⟩
  obtain ⟨tail, h⟩ := (getDashboardTilesWithResults_merges_filters chartSdk startWorld (.num 20)
    [("region", .val (.str "West"))]
    { id := .num 20, title := .str "Mine", dashboard_elements := some chartTiles }
    () rfl).1
    [{ id := .num 1, title := .str "Grid", query_id := .num 4,
       query_vis_type := .str "looker_grid" },
     { id := .num 2, title := .str "Text" },
     { id := .num 3, title := .str "Rows", query_id := .num 7,
       result_maker := some { vis_type := .str "table" } },
     { id := .num 4, title := .str "Sheet", result_maker := some { query_id := .num 8 },
       query_vis_type := .str "table" }]
    { id := .num 5, title := .str "Chart", query_id := .num 5,
      result_maker := some { vis_type := .str "looker_bar" } }
    []
    [("id", .val (.num 5)), ("model", .val (.str "sales")), ("view", .val (.str "orders")),
     ("fields", .arr [.val (.str "orders.region"), .val (.str "orders.count")]),
     ("filters", .obj [("region", .val (.str "East")), ("year", .val (.str "2024"))]),
     ("limit", .val (.str "500"))]
    () rfl rfl rfl
  exact ⟨tail, by rw [h]; rfl⟩

/-! ## The query id of a tile in the two reading paths -/

/-- The two paths resolve the same query id for a tile whose direct `query_id` is absent
(`undefined` or `null`) or truthy. -/
theorem queryId_resolution_agrees (tile : Element)
    (h : tile.query_id = .undefined ∨ tile.query_id = .null ∨ tile.query_id.truthy = true) :
    defaultsQueryId tile = tileQueryId tile := by
  unfold defaultsQueryId tileQueryId JsVal.coalesce JsVal.orElse
  rcases h with h | h | h
  · rw [h]; rfl
  · rw [h]; rfl
  · rw [h]
    cases hq : tile.query_id with
    | undefined => rw [hq] at h; exact absurd h (by decide)
    | null => rw [hq] at h; exact absurd h (by decide)
    | bool b => rfl
    | num n => rfl
    | str s => rfl

/-- C18 fails on the code.  The tile `Orders` has the direct `query_id` `''` and
`result_maker.query_id = 42`: `updateDashboard` resolves `42`, fetches that query and goes on,
while `getDefaultColumnsAndFilterNameMap` keeps `''` and throws that no query id was found,
after the fetch of the dashboard alone. -/
theorem queryId_resolution_differs_on_empty_id :
    tileQueryId { id := .num 1, title := .str "Orders", query_id := .str "",
                  result_maker := some { query_id := .num 42 } } = .num 42 ∧
    defaultsQueryId { id := .num 1, title := .str "Orders", query_id := .str "",
                      result_maker := some { query_id := .num 42 } } = .str "" ∧
    ((updateDashboard emptyQueryIdSdk { tileTitle := .str "Orders" } 1700 (.num 20) (.num 10)
        (.arr [.val (.str "orders.id")]) [] [] []).run startWorld).2.trace.take 2
      = [Call.dashboard (.num 20), Call.query (.num 42)] ∧
    ((updateDashboard emptyQueryIdSdk { tileTitle := .str "Orders" } 1700 (.num 20) (.num 10)
        (.arr [.val (.str "orders.id")]) [] [] []).run startWorld).1 = .ok () ∧
    (getDefaultColumnsAndFilterNameMap emptyQueryIdSdk { tileTitle := .str "Orders" } (.num 20)
        .undefined).run startWorld
      = (.error "No query_id found for tile titled \"undefined\"",
          { st := (), trace := [Call.dashboard (.num 20)] }) :=
  ⟨rfl, rfl, rfl, rfl, rfl⟩

end DashboardService
